import Mathlib

/-!
# Stellarium: `Planet.cpp` / `Orbit.hpp`

A shallow embedding of the orbital-mechanics core of `src/core/modules/Planet.cpp`
and `src/core/modules/Orbit.hpp`, and theorems about it.

Conventions of the embedding.

* `double` is a scalar type `α`.  Definitions that only add, subtract, multiply,
  divide and compare are written once for every `α` carrying those operations, so
  they run on `ℚ`; the functions that call `std::sqrt` or `std::acos` are stated
  over `ℝ` (exact arithmetic, no rounding, no NaN).
* A `const Planet*` is an index into the list of all bodies; a null or dangling
  pointer is an index with no entry and dereferencing it yields `none`.
* A `while` loop over the parent chain takes a fuel argument: it returns `none`
  when the fuel runs out (a cyclic parent chain never terminates in the source).
-/

namespace Stellarium

/-! ## Vectors (`VecMath.hpp`, `Vector3<double>`) -/

/-- Three-component vector `Vector3<T>` with components `v[0]`, `v[1]`, `v[2]`. -/
structure Vec3d (α : Type) where
  x : α
  y : α
  z : α
deriving DecidableEq, Repr

namespace Vec3d

variable {α : Type}

/-- Componentwise sum, `operator+` (and `operator+=`). -/
def add [Add α] (a b : Vec3d α) : Vec3d α := ⟨a.x + b.x, a.y + b.y, a.z + b.z⟩

/-- Componentwise difference, `operator-`. -/
def sub [Sub α] (a b : Vec3d α) : Vec3d α := ⟨a.x - b.x, a.y - b.y, a.z - b.z⟩

/-- Scaling by a scalar, `operator*(T)`. -/
def smul [Mul α] (t : α) (a : Vec3d α) : Vec3d α := ⟨t * a.x, t * a.y, t * a.z⟩

/-- Dot product, `operator*(const Vector3&)`. -/
def dot [Add α] [Mul α] (a b : Vec3d α) : α := a.x * b.x + a.y * b.y + a.z * b.z

/-- Squared Euclidean norm, `lengthSquared()`. -/
def lengthSquared [Add α] [Mul α] (a : Vec3d α) : α := a.x * a.x + a.y * a.y + a.z * a.z

/-- The null vector. -/
def zero [Zero α] : Vec3d α := ⟨0, 0, 0⟩

instance [Add α] : Add (Vec3d α) := ⟨add⟩
instance [Sub α] : Sub (Vec3d α) := ⟨sub⟩
instance [Zero α] : Zero (Vec3d α) := ⟨zero⟩

end Vec3d

/-! ## The position cache (`QCache<double, Vec3d>`) -/

/-- Modelled from the spec: the position cache, a Qt `QCache<Key, T>` (library type, not
under `src/`), "a bounded, time-keyed cache ... with oldest-entry eviction".  Every entry has cost 1;
`entries` is ordered from most to least recently used; `mx` is `maxCost()`. -/
structure QCache (κ : Type) (β : Type) where
  mx : Nat
  entries : List (κ × β)
deriving Repr

/-! ## Bodies -/

/-- The fields of `class Planet` that the embedded functions read or write. -/
structure Planet (α : Type) where
  /-- Position relative to the parent body. -/
  eclipticPos : Vec3d α
  /-- Velocity relative to the parent body. -/
  eclipticVelocity : Vec3d α
  /-- Time of the last orbit evaluation stored in `eclipticPos`. -/
  lastJDE : α
  /-- Threshold of `computePosition`. -/
  deltaJDE : α
  /-- The `parent` pointer; `none` is the null pointer. -/
  parent : Option Nat
  /-- The `satellites` list of child pointers. -/
  satellites : List Nat
  /-- The `positionsCache` member. -/
  positionsCache : QCache α (Vec3d α)

/-- Dereference a `Planet*`: the body stored at index `p`, if any. -/
def deref {α : Type} (bodies : List (Planet α)) (p : Nat) : Option (Planet α) := bodies[p]?

/-- The loop `while (pp->parent.data()) { pos += pp->eclipticPos; pp = pp->parent.data(); }`
of `Planet::getHeliocentricPos`, started at `pp` with accumulator `pos`. -/
def getHeliocentricPosLoop {α : Type} [Add α] (bodies : List (Planet α)) :
    Nat → Nat → Vec3d α → Option (Vec3d α)
  | 0, _, _ => none
  | fuel + 1, pp, pos =>
    match deref bodies pp with
    | none => none
    | some body =>
      match body.parent with
      | none => some pos
      | some next => getHeliocentricPosLoop bodies fuel next (pos + body.eclipticPos)

/-- Source function `Planet::getHeliocentricPos(Vec3d p)` called on the body at index `this`. -/
def getHeliocentricPos {α : Type} [Add α] (bodies : List (Planet α)) (fuel : Nat)
    (this : Nat) (p : Vec3d α) : Option (Vec3d α) :=
  match deref bodies this with
  | none => none
  | some body =>
    match body.parent with
    | none => some p
    | some pp => getHeliocentricPosLoop bodies fuel pp p

/-- The parent chain `b -> c₀ -> c₁ -> ... -> cₙ` read off the `parent` pointers:
`isParentChain bodies b [c₀, ..., cₙ]` holds when every body of the chain exists, each is
the parent of the one before it, and the last one has no parent.  For the empty list the
body `b` itself has no parent. -/
def isParentChain {α : Type} (bodies : List (Planet α)) : Nat → List Nat → Bool
  | b, [] =>
    match deref bodies b with
    | some body => body.parent.isNone
    | none => false
  | b, c :: rest =>
    match deref bodies b with
    | some body => body.parent == some c && isParentChain bodies c rest
    | none => false

/-- The `eclipticPos` fields of the bodies at the given indices, in order. -/
def eclipticPositions {α : Type} (bodies : List (Planet α)) (ps : List Nat) : List (Vec3d α) :=
  ps.filterMap fun p => (deref bodies p).map Planet.eclipticPos

/-! ## Phase, phase angle, elongation

In the three functions below `planetHelioPos` is the value the source obtains from
`getHeliocentricEclipticPos()`, the heliocentric position of the body. -/

/-- The argument of `std::acos` in `Planet::getPhaseAngle`, which is also `cos_chi` of
`Planet::getPhase`. -/
noncomputable def cosChi (planetHelioPos obsPos : Vec3d ℝ) : ℝ :=
  let observerRq := obsPos.lengthSquared
  let planetRq := planetHelioPos.lengthSquared
  let observerPlanetRq := (obsPos - planetHelioPos).lengthSquared
  (observerPlanetRq + planetRq - observerRq) / (2.0 * Real.sqrt (observerPlanetRq * planetRq))

/-- Source function `Planet::getPhaseAngle(const Vec3d& obsPos)`. -/
noncomputable def getPhaseAngle (planetHelioPos obsPos : Vec3d ℝ) : ℝ :=
  let observerRq := obsPos.lengthSquared
  let planetRq := planetHelioPos.lengthSquared
  let observerPlanetRq := (obsPos - planetHelioPos).lengthSquared
  Real.arccos
    ((observerPlanetRq + planetRq - observerRq) / (2.0 * Real.sqrt (observerPlanetRq * planetRq)))

/-- Source function `Planet::getPhase(const Vec3d& obsPos)`. -/
noncomputable def getPhase (planetHelioPos obsPos : Vec3d ℝ) : ℝ :=
  let observerRq := obsPos.lengthSquared
  let planetRq := planetHelioPos.lengthSquared
  let observerPlanetRq := (obsPos - planetHelioPos).lengthSquared
  let cos_chi :=
    (observerPlanetRq + planetRq - observerRq) / (2.0 * Real.sqrt (observerPlanetRq * planetRq))
  0.5 * |1 + cos_chi|

/-- Source function `Planet::getElongation(const Vec3d& obsPos)`. -/
noncomputable def getElongation (planetHelioPos obsPos : Vec3d ℝ) : ℝ :=
  let observerRq := obsPos.lengthSquared
  let planetRq := planetHelioPos.lengthSquared
  let observerPlanetRq := (obsPos - planetHelioPos).lengthSquared
  Real.arccos
    ((observerPlanetRq + observerRq - planetRq) / (2.0 * Real.sqrt (observerPlanetRq * observerRq)))

/-- Euclidean length, `length()`. -/
noncomputable def Vec3d.length (a : Vec3d ℝ) : ℝ := Real.sqrt a.lengthSquared

/-! ## `computePosition` and `getEclipticPos`

The callback `coordFunc(dateJDE, pos, velocity, orbitPtr)` is a function from the date to
the position and velocity it writes.  Each operation also returns the list of dates at
which it called `coordFunc`, in call order. -/

/-- Source function `Planet::computePosition(const double dateJDE)`: the body afterwards and
the dates at which `coordFunc` was called. -/
def computePosition {α : Type} [LinearOrderedField α] (coordFunc : α → Vec3d α × Vec3d α)
    (body : Planet α) (dateJDE : α) : Planet α × List α :=
  if |body.lastJDE - dateJDE| > body.deltaJDE then
    ({ body with
        eclipticPos := (coordFunc dateJDE).1
        eclipticVelocity := (coordFunc dateJDE).2
        lastJDE := dateJDE }, [dateJDE])
  else
    (body, [])

namespace QCache

variable {κ β : Type} [DecidableEq κ]

/-- Qt library function `QCache::object(key)`, which is `operator[]`: the cached object,
or `none` for the null pointer; a hit moves the entry to the front (`relink`). -/
def object (c : QCache κ β) (key : κ) : Option β × QCache κ β :=
  match c.entries.find? (fun e => e.1 = key) with
  | none => (none, c)
  | some e => (some e.2, { c with entries := e :: c.entries.filter (fun e => e.1 ≠ key) })

/-- Qt library function `QCache::insert(key, object)` with the default cost 1: `remove(key)`;
when the cost exceeds `mx` the object is deleted and `false` returned; otherwise
`trim(mx - 1)` drops the least recently used entries and the new entry goes to the front. -/
def insert (c : QCache κ β) (key : κ) (obj : β) : Bool × QCache κ β :=
  let removed := c.entries.filter (fun e => e.1 ≠ key)
  if 1 > c.mx then
    (false, { c with entries := removed })
  else
    (true, { c with entries := (key, obj) :: removed.take (c.mx - 1) })

end QCache

/-- The member initialiser `positionsCache(ORBIT_SEGMENTS * 2)` of the constructor
`Planet::Planet`; the constant `ORBIT_SEGMENTS` of `Planet.hpp` is a parameter. -/
def positionsCacheInit (α : Type) (ORBIT_SEGMENTS : Nat) : QCache α (Vec3d α) :=
  { mx := ORBIT_SEGMENTS * 2, entries := [] }

/-- Source function `Planet::getEclipticPos(double dateJDE)`: the returned position, the body
afterwards (the cache is mutated), and the dates at which `coordFunc` was called.  The
position is `none` when the returned `*pos` is an object that `QCache::insert` has already
deleted.  `fuzzyEquals` of `StelUtils.hpp` is a parameter. -/
def getEclipticPos {α : Type} [DecidableEq α] (fuzzyEquals : α → α → Bool)
    (coordFunc : α → Vec3d α × Vec3d α) (body : Planet α) (dateJDE : α) :
    Option (Vec3d α) × Planet α × List α :=
  if fuzzyEquals dateJDE body.lastJDE then
    (some body.eclipticPos, body, [])
  else
    match body.positionsCache.object dateJDE with
    | (some pos, cache) => (some pos, { body with positionsCache := cache }, [])
    | (none, cache) =>
      let pos := (coordFunc dateJDE).1
      match cache.insert dateJDE pos with
      | (true, cache2) => (some pos, { body with positionsCache := cache2 }, [dateJDE])
      | (false, cache2) => (none, { body with positionsCache := cache2 }, [dateJDE])

/-! ## Shadow candidates -/

/-- Source function `Planet::getCandidatesForShadow()` called on the body at index `this`.
The argument `sun` is the pointer returned by `ssystem->getSun()`, and `willCastShadow this p`
the result of the shadow test on two valid pointers.  The result is the returned vector together with the
list of bodies `p` on which `willCastShadow(this, p)` was evaluated, in call order; it is
`none` when a null or dangling pointer is dereferenced. -/
def getCandidatesForShadow {α : Type} (bodies : List (Planet α)) (sun : Nat)
    (willCastShadow : Nat → Nat → Bool) (this : Nat) : Option (List Nat × List Nat) :=
  match deref bodies this with
  | none => none
  | some body =>
    if this = sun ∨ (body.parent = some sun ∧ body.satellites = []) then
      some ([], [])
    else
      let res1 := body.satellites.filter (fun planet => willCastShadow this planet)
      match body.parent with
      | none => none
      | some parent =>
        let res2 := if willCastShadow this parent then res1 ++ [parent] else res1
        if parent ≠ sun then
          match deref bodies parent with
          | none => none
          | some parentBody =>
            let others := parentBody.satellites.filter (fun planet => planet ≠ this)
            some (res2 ++ others.filter (fun planet => willCastShadow this planet),
              body.satellites ++ [parent] ++ others)
        else
          some (res2, body.satellites ++ [parent])

/-! ## `KeplerOrbit` (`Orbit.hpp`) -/

/-- The scalar members of `class KeplerOrbit`. -/
structure KeplerOrbit (α : Type) where
  /-- Perihelion distance. -/
  q : α
  /-- Eccentricity. -/
  e : α
  /-- Inclination. -/
  i : α
  /-- Longitude of the ascending node. -/
  Om : α
  /-- Argument of perihelion. -/
  w : α
  /-- Time of perihelion, JDE. -/
  t0 : α
  /-- Mean motion. -/
  n : α
  /-- Validity half-window in days; values `<= 0` mean "always good". -/
  orbitGood : α

/-- Source function `KeplerOrbit::getSemimajorAxis()`. -/
def KeplerOrbit.getSemimajorAxis {α : Type} [LinearOrderedField α] (o : KeplerOrbit α) : α :=
  if o.e = 1 then 0 else o.q / (1 - o.e)

/-- Source function `KeplerOrbit::objectDateValid(const double JDE)`. -/
def KeplerOrbit.objectDateValid {α : Type} [LinearOrderedField α] (o : KeplerOrbit α)
    (JDE : α) : Bool :=
  decide (o.orbitGood ≤ 0) || decide (|o.t0 - JDE| < o.orbitGood)

/-! ## Numeric helpers of the C library and Qt -/

/-- Qt library function `qBound(min, val, max)`, which is `qMax(min, qMin(max, val))`. -/
def qBound {α : Type} [LinearOrder α] (min val max : α) : α := Max.max min (Min.min max val)

/-- Round to the nearest integer, ties to the even one: the integer `n` that the C library
function `remainder` subtracts. -/
def roundTiesEven {α : Type} [LinearOrderedField α] [FloorRing α] (x : α) : ℤ :=
  if x - ⌊x⌋ < 1 / 2 then ⌊x⌋
  else if 1 / 2 < x - ⌊x⌋ then ⌊x⌋ + 1
  else if ⌊x⌋ % 2 = 0 then ⌊x⌋ else ⌊x⌋ + 1

/-- C library function `remainder(x, y)`: `x - n*y` with `n` the integer nearest to the
exact quotient `x/y`, ties to even. -/
def remainder {α : Type} [LinearOrderedField α] [FloorRing α] (x y : α) : α :=
  x - (roundTiesEven (x / y) : α) * y

/-- C library function `fmod(x, y)`: `x - n*y` with `n` the quotient `x/y` truncated towards
zero. -/
def fmod {α : Type} [LinearOrderedField α] [FloorRing α] (x y : α) : α :=
  x - ((if 0 ≤ x / y then ⌊x / y⌋ else ⌈x / y⌉ : ℤ) : α) * y

/-- The constant `M_PI_180` of `StelUtils.hpp`, degrees to radians. -/
noncomputable def M_PI_180 : ℝ := Real.pi / 180

/-- The constant `M_180_PI` of `StelUtils.hpp`, radians to degrees. -/
noncomputable def M_180_PI : ℝ := 180 / Real.pi

/-- The constant `M_PI_2` of the C library, a quarter turn. -/
noncomputable def M_PI_2 : ℝ := Real.pi / 2

/-- The constant `J2000` of `StelUtils.hpp`, the Julian day of the epoch J2000.0. -/
def J2000 {α : Type} [LinearOrderedField α] : α := 2451545.0

/-! ## `GimbalOrbit` (`Orbit.hpp`) -/

/-- The scalar members of `class GimbalOrbit`. -/
structure GimbalOrbit (α : Type) where
  /-- Distance to the parent planet centre, AU. -/
  distance : α
  /-- Longitude, radians. -/
  longitude : α
  /-- Latitude, radians. -/
  latitude : α

namespace GimbalOrbit

/-- Source function `GimbalOrbit::getDistance()`. -/
def getDistance {α : Type} (o : GimbalOrbit α) : α := o.distance

/-- Source function `GimbalOrbit::setDistance(dist)`. -/
def setDistance {α : Type} (o : GimbalOrbit α) (dist : α) : GimbalOrbit α :=
  { o with distance := dist }

/-- Source function `GimbalOrbit::addToDistance(ddist)`. -/
def addToDistance {α : Type} [LinearOrderedField α] (o : GimbalOrbit α) (ddist : α) :
    GimbalOrbit α :=
  { o with distance := qBound 0.01 (o.distance + ddist) 50 }

/-- Source function `GimbalOrbit::getLongitude()`, degrees. -/
noncomputable def getLongitude (o : GimbalOrbit ℝ) : ℝ := o.longitude * M_180_PI

/-- Source function `GimbalOrbit::getLatitude()`, degrees. -/
noncomputable def getLatitude (o : GimbalOrbit ℝ) : ℝ := o.latitude * M_180_PI

/-- Source function `GimbalOrbit::setLongitude(lng)`, degrees. -/
noncomputable def setLongitude (o : GimbalOrbit ℝ) (lng : ℝ) : GimbalOrbit ℝ :=
  { o with longitude := lng * M_PI_180 }

/-- Source function `GimbalOrbit::setLatitude(lat)`, degrees. -/
noncomputable def setLatitude (o : GimbalOrbit ℝ) (lat : ℝ) : GimbalOrbit ℝ :=
  { o with latitude := lat * M_PI_180 }

/-- Source function `GimbalOrbit::addToLongitude(dlong)`, degrees. -/
noncomputable def addToLongitude (o : GimbalOrbit ℝ) (dlong : ℝ) : GimbalOrbit ℝ :=
  { o with longitude := o.longitude + dlong * M_PI_180 }

/-- Source function `GimbalOrbit::addToLatitude(dlat)`, degrees. -/
noncomputable def addToLatitude (o : GimbalOrbit ℝ) (dlat : ℝ) : GimbalOrbit ℝ :=
  { o with latitude := qBound (-M_PI_2) (o.latitude + dlat * M_PI_180) M_PI_2 }

end GimbalOrbit

/-! ## The Periodic Correction Table (`Planet::planetCorrections`) -/

/-- The members of `struct PlanetCorrections` that `Planet.cpp` assigns: for every group the
date of the last recomputation and the angles, in radians. -/
structure PlanetCorrections (α : Type) where
  JDE_E : α
  JDE_J : α
  JDE_S : α
  JDE_U : α
  JDE_N : α
  E1 : α
  E2 : α
  E3 : α
  E4 : α
  E5 : α
  E6 : α
  E7 : α
  E8 : α
  E9 : α
  E10 : α
  E11 : α
  E12 : α
  E13 : α
  Ja1 : α
  Ja2 : α
  Ja3 : α
  Ja4 : α
  Ja5 : α
  J1 : α
  J2 : α
  J3 : α
  J4 : α
  J5 : α
  J6 : α
  J7 : α
  J8 : α
  S1 : α
  S2 : α
  S3 : α
  S4 : α
  S5 : α
  S6 : α
  U1 : α
  U2 : α
  U4 : α
  U5 : α
  U6 : α
  U11 : α
  U12 : α
  U13 : α
  U14 : α
  U15 : α
  U16 : α
  Na : α
  N1 : α
  N2 : α
  N3 : α
  N4 : α
  N5 : α
  N6 : α
  N7 : α

/-- The argument of `updatePlanetCorrections`, `enum PlanetCorrection`. -/
inductive PlanetCorrection where
  | EarthMoon
  | Jupiter
  | Saturn
  | Uranus
  | Neptune
deriving DecidableEq, Repr

/-- Modelled from the spec: the constant `StelCore::JD_MINUTE`, one minute in days,
"1/1440 day (1 minute)". -/
def JD_MINUTE {α : Type} [LinearOrderedField α] : α := 1 / 1440

/-- Source function `Planet::updatePlanetCorrections(JDE, planet)`, as a transformer of the
static table `planetCorrections`. -/
noncomputable def updatePlanetCorrections (planetCorrections : PlanetCorrections ℝ) (JDE : ℝ)
    (planet : PlanetCorrection) : PlanetCorrections ℝ :=
  let d := JDE - J2000
  let T := d / 36525.0
  match planet with
  | PlanetCorrection.EarthMoon =>
    if |JDE - planetCorrections.JDE_E| > JD_MINUTE then
      { planetCorrections with
        JDE_E := JDE
        E1 := M_PI_180 * (125.045 - remainder (0.0529921 * d) 360.0)
        E2 := M_PI_180 * (250.089 - remainder (0.1059842 * d) 360.0)
        E3 := M_PI_180 * (260.008 + remainder (13.0120009 * d) 360.0)
        E4 := M_PI_180 * (176.625 + remainder (13.3407154 * d) 360.0)
        E5 := M_PI_180 * (357.529 + remainder (0.9856003 * d) 360.0)
        E6 := M_PI_180 * (311.589 + remainder (26.4057084 * d) 360.0)
        E7 := M_PI_180 * (134.963 + remainder (13.0649930 * d) 360.0)
        E8 := M_PI_180 * (276.617 + remainder (0.3287146 * d) 360.0)
        E9 := M_PI_180 * (34.226 + remainder (1.7484877 * d) 360.0)
        E10 := M_PI_180 * (15.134 - remainder (0.1589763 * d) 360.0)
        E11 := M_PI_180 * (119.743 + remainder (0.0036096 * d) 360.0)
        E12 := M_PI_180 * (239.961 + remainder (0.1643573 * d) 360.0)
        E13 := M_PI_180 * (25.053 + remainder (12.9590088 * d) 360.0) }
    else planetCorrections
  | PlanetCorrection.Jupiter =>
    if |JDE - planetCorrections.JDE_J| > 0.025 then
      { planetCorrections with
        JDE_J := JDE
        Ja1 := M_PI_180 * (99.360714 + remainder (4850.4046 * T) 360.0)
        Ja2 := M_PI_180 * (175.895369 + remainder (1191.9605 * T) 360.0)
        Ja3 := M_PI_180 * (300.323162 + remainder (262.5475 * T) 360.0)
        Ja4 := M_PI_180 * (114.012305 + remainder (6070.2476 * T) 360.0)
        Ja5 := M_PI_180 * (49.511251 + remainder (64.3000 * T) 360.0)
        J1 := M_PI_180 * (73.32 + remainder (91472.9 * T) 360.0)
        J2 := M_PI_180 * (24.62 + remainder (45137.2 * T) 360.0)
        J3 := M_PI_180 * (283.90 + remainder (4850.7 * T) 360.0)
        J4 := M_PI_180 * (355.80 + remainder (1191.3 * T) 360.0)
        J5 := M_PI_180 * (119.90 + remainder (262.1 * T) 360.0)
        J6 := M_PI_180 * (229.80 + remainder (64.3 * T) 360.0)
        J7 := M_PI_180 * (352.25 + remainder (2382.6 * T) 360.0)
        J8 := M_PI_180 * (113.35 + remainder (6070.0 * T) 360.0) }
    else planetCorrections
  | PlanetCorrection.Saturn =>
    if |JDE - planetCorrections.JDE_S| > 0.025 then
      { planetCorrections with
        JDE_S := JDE
        S1 := M_PI_180 * (353.32 + remainder (75706.7 * T) 360.0)
        S2 := M_PI_180 * (28.72 + remainder (75706.7 * T) 360.0)
        S3 := M_PI_180 * (177.40 + remainder ((-36505.5) * T) 360.0)
        S4 := M_PI_180 * (300.00 + remainder ((-7225.9) * T) 360.0)
        S5 := M_PI_180 * (316.45 + remainder (506.2 * T) 360.0)
        S6 := M_PI_180 * (345.20 + remainder ((-1016.3) * T) 360.0) }
    else planetCorrections
  | PlanetCorrection.Uranus =>
    if |JDE - planetCorrections.JDE_U| > 0.025 then
      { planetCorrections with
        JDE_U := JDE
        U1 := M_PI_180 * (115.75 + remainder (54991.87 * T) 360.0)
        U2 := M_PI_180 * (141.69 + remainder (41887.66 * T) 360.0)
        U4 := M_PI_180 * (61.77 + remainder (25733.59 * T) 360.0)
        U5 := M_PI_180 * (249.32 + remainder (24471.46 * T) 360.0)
        U6 := M_PI_180 * (43.86 + remainder (22278.41 * T) 360.0)
        U11 := M_PI_180 * (102.23 + remainder ((-2024.22) * T) 360.0)
        U12 := M_PI_180 * (316.41 + remainder (2863.96 * T) 360.0)
        U13 := M_PI_180 * (304.01 + remainder ((-51.94) * T) 360.0)
        U14 := M_PI_180 * (308.71 + remainder ((-93.17) * T) 360.0)
        U15 := M_PI_180 * (340.82 + remainder ((-75.32) * T) 360.0)
        U16 := M_PI_180 * (259.14 + remainder ((-504.81) * T) 360.0) }
    else planetCorrections
  | PlanetCorrection.Neptune =>
    if |JDE - planetCorrections.JDE_N| > 0.025 then
      { planetCorrections with
        JDE_N := JDE
        Na := M_PI_180 * (357.85 + remainder (52.316 * T) 360.0)
        N1 := M_PI_180 * (323.92 + remainder (62606.6 * T) 360.0)
        N2 := M_PI_180 * (220.51 + remainder (55064.2 * T) 360.0)
        N3 := M_PI_180 * (354.27 + remainder (46564.5 * T) 360.0)
        N4 := M_PI_180 * (75.31 + remainder (26109.4 * T) 360.0)
        N5 := M_PI_180 * (35.36 + remainder (14325.4 * T) 360.0)
        N6 := M_PI_180 * (142.61 + remainder (2824.6 * T) 360.0)
        N7 := M_PI_180 * (177.85 + remainder (52.316 * T) 360.0) }
    else planetCorrections

/-- The date at which the angles of a group were last recomputed: `JDE_E`, `JDE_J`, `JDE_S`,
`JDE_U` or `JDE_N`. -/
def PlanetCorrections.timestamp {α : Type} (pc : PlanetCorrections α) :
    PlanetCorrection → α
  | PlanetCorrection.EarthMoon => pc.JDE_E
  | PlanetCorrection.Jupiter => pc.JDE_J
  | PlanetCorrection.Saturn => pc.JDE_S
  | PlanetCorrection.Uranus => pc.JDE_U
  | PlanetCorrection.Neptune => pc.JDE_N

/-- The angles of a group, in the order in which `updatePlanetCorrections` assigns them. -/
def PlanetCorrections.angles {α : Type} (pc : PlanetCorrections α) :
    PlanetCorrection → List α
  | PlanetCorrection.EarthMoon =>
    [pc.E1, pc.E2, pc.E3, pc.E4, pc.E5, pc.E6, pc.E7, pc.E8, pc.E9, pc.E10, pc.E11, pc.E12, pc.E13]
  | PlanetCorrection.Jupiter =>
    [pc.Ja1, pc.Ja2, pc.Ja3, pc.Ja4, pc.Ja5, pc.J1, pc.J2, pc.J3, pc.J4, pc.J5, pc.J6, pc.J7, pc.J8]
  | PlanetCorrection.Saturn =>
    [pc.S1, pc.S2, pc.S3, pc.S4, pc.S5, pc.S6]
  | PlanetCorrection.Uranus =>
    [pc.U1, pc.U2, pc.U4, pc.U5, pc.U6, pc.U11, pc.U12, pc.U13, pc.U14, pc.U15, pc.U16]
  | PlanetCorrection.Neptune =>
    [pc.Na, pc.N1, pc.N2, pc.N3, pc.N4, pc.N5, pc.N6, pc.N7]

/-- The threshold of a group: `JD_MINUTE` for the Earth-Moon group, `0.025` day for the
others. -/
def correctionThreshold {α : Type} [LinearOrderedField α] : PlanetCorrection → α
  | PlanetCorrection.EarthMoon => JD_MINUTE
  | _ => 0.025

/-- The time argument of a group: days since J2000 for the Earth-Moon group, Julian
centuries since J2000 for the others. -/
def correctionArgument {α : Type} [LinearOrderedField α] (JDE : α) : PlanetCorrection → α
  | PlanetCorrection.EarthMoon => JDE - J2000
  | _ => (JDE - J2000) / 36525.0

/-- The pairs `(base, rate)`, in degrees, of the angles of a group, in the order of
`PlanetCorrections.angles`; a term that the source subtracts has a negative rate. -/
def correctionBaseRate {α : Type} [LinearOrderedField α] : PlanetCorrection → List (α × α)
  | PlanetCorrection.EarthMoon =>
    [(125.045, -0.0529921), (250.089, -0.1059842), (260.008, 13.0120009),
      (176.625, 13.3407154), (357.529, 0.9856003), (311.589, 26.4057084),
      (134.963, 13.0649930), (276.617, 0.3287146), (34.226, 1.7484877), (15.134, -0.1589763),
      (119.743, 0.0036096), (239.961, 0.1643573), (25.053, 12.9590088)]
  | PlanetCorrection.Jupiter =>
    [(99.360714, 4850.4046), (175.895369, 1191.9605), (300.323162, 262.5475),
      (114.012305, 6070.2476), (49.511251, 64.3000), (73.32, 91472.9), (24.62, 45137.2),
      (283.90, 4850.7), (355.80, 1191.3), (119.90, 262.1), (229.80, 64.3), (352.25, 2382.6),
      (113.35, 6070.0)]
  | PlanetCorrection.Saturn =>
    [(353.32, 75706.7), (28.72, 75706.7), (177.40, -36505.5), (300.00, -7225.9),
      (316.45, 506.2), (345.20, -1016.3)]
  | PlanetCorrection.Uranus =>
    [(115.75, 54991.87), (141.69, 41887.66), (61.77, 25733.59), (249.32, 24471.46),
      (43.86, 22278.41), (102.23, -2024.22), (316.41, 2863.96), (304.01, -51.94),
      (308.71, -93.17), (340.82, -75.32), (259.14, -504.81)]
  | PlanetCorrection.Neptune =>
    [(357.85, 52.316), (323.92, 62606.6), (220.51, 55064.2), (354.27, 46564.5),
      (75.31, 26109.4), (35.36, 14325.4), (142.61, 2824.6), (177.85, 52.316)]

/-- The statement of the spec for one angle: `(π/180)*(base + remainder(rate*x, 360))`. -/
noncomputable def correctionAngle (base rate x : ℝ) : ℝ :=
  M_PI_180 * (base + remainder (rate * x) 360)

/-! ## Rotation (`RotationElements`, `getSiderealTime`, `getRotEquatorialToVsop87`) -/

/-- The discriminator `RotationElements::ComputationMethod`. -/
inductive ComputationMethod where
  | Traditional
  | WGCCRE
deriving DecidableEq, Repr

/-- The members of `class RotationElements` that `Planet::setRotationElements` assigns and
that the rotation functions read or write. -/
structure RotationElements (α : Type) where
  /-- Sidereal rotation period, days; `0` for a chaotic rotator. -/
  period : α
  /-- Rotation angle at the epoch, degrees. -/
  offset : α
  /-- Epoch of `offset`, JDE. -/
  epoch : α
  /-- Obliquity, radians. -/
  obliquity : α
  /-- Ascending node of the equator, radians. -/
  ascendingNode : α
  /-- Pole right ascension at J2000 and its rate. -/
  ra0 : α
  ra1 : α
  /-- Pole declination at J2000 and its rate. -/
  de0 : α
  de1 : α
  /-- Prime meridian angle at J2000, degrees, and its rate, degrees per day. -/
  W0 : α
  W1 : α
  /-- The active rotation model. -/
  method : ComputationMethod
  /-- Sidereal period of the orbit, days. -/
  siderealPeriod : α
  /-- The pole right ascension and declination of date, radians, that
  `Planet::computeTransMatrix` records when it retransforms the pole. -/
  currentAxisRA : α
  currentAxisDE : α

/-- The assignment `re.method=(_w0==0. ? RotationElements::Traditional :
RotationElements::WGCCRE)` of `Planet::setRotationElements`. -/
def rotationMethodOf {α : Type} [LinearOrderedField α] (_w0 : α) : ComputationMethod :=
  if _w0 = 0 then ComputationMethod.Traditional else ComputationMethod.WGCCRE

/-- The body classification `enum Planet::PlanetType`, in declaration order. -/
inductive PlanetType where
  | isStar
  | isPlanet
  | isMoon
  | isObserver
  | isArtificial
  | isAsteroid
  | isPlutino
  | isComet
  | isDwarfPlanet
  | isCubewano
  | isSDO
  | isOCO
  | isSednoid
  | isInterstellar
  | isUNDEFINED
deriving DecidableEq, Repr

/-- The integer value of a `PlanetType` enumerator. -/
def PlanetType.val : PlanetType → Nat
  | isStar => 0
  | isPlanet => 1
  | isMoon => 2
  | isObserver => 3
  | isArtificial => 4
  | isAsteroid => 5
  | isPlutino => 6
  | isComet => 7
  | isDwarfPlanet => 8
  | isCubewano => 9
  | isSDO => 10
  | isOCO => 11
  | isSednoid => 12
  | isInterstellar => 13
  | isUNDEFINED => 14

/-- The type `Mat4d` of `VecMath.hpp`: a 4x4 matrix with the usual product, transpose and
identity. -/
abbrev Mat4d (α : Type) := Matrix (Fin 4) (Fin 4) α

/-- The fields of `class Planet` that the rotation functions read or write. -/
structure PlanetRot (α : Type) where
  /-- The English name of the body. -/
  englishName : String
  /-- The body classification. -/
  pType : PlanetType
  /-- The `parent` pointer; `none` is the null pointer. -/
  parent : Option Nat
  /-- The rotation elements `re`. -/
  re : RotationElements α
  /-- The matrix `rotLocalToParent`. -/
  rotLocalToParent : Mat4d α
  /-- The rotation angle `axisRotation` about the axis, degrees. -/
  axisRotation : α

/-- Dereference a `Planet*` in a list of bodies seen through their rotation fields. -/
def derefRot {α : Type} (bodies : List (PlanetRot α)) (p : Nat) : Option (PlanetRot α) :=
  bodies[p]?

/-- What `Planet::getSiderealTime` reads from outside the body: the nutation setting of the
core, the two sidereal-time functions of `sidereal_time.h`, the static members
`planetCorrections`, `flagCustomGrsSettings`, `customGrsLongitude`, `customGrsDrift` and
`customGrsJD` of `Planet`, and the constants `AU` and `SPEED_OF_LIGHT` of `StelUtils.hpp`. -/
structure SiderealTimeContext where
  getUseNutation : Bool
  get_apparent_sidereal_time : ℝ → ℝ → ℝ
  get_mean_sidereal_time : ℝ → ℝ → ℝ
  planetCorrections : PlanetCorrections ℝ
  flagCustomGrsSettings : Bool
  customGrsLongitude : ℤ
  customGrsDrift : ℝ
  customGrsJD : ℝ
  AU : ℝ
  SPEED_OF_LIGHT : ℝ

/-- Source function `Planet::getSiderealTime(double JD, double JDE)`, in degrees, called on
the body `this`; `bodies` resolves the `parent` pointer.  The result is `none` when the
evaluation dereferences a null or dangling `parent` pointer (`parent->englishName`). -/
noncomputable def getSiderealTime (ctx : SiderealTimeContext) (bodies : List (PlanetRot ℝ))
    (this : PlanetRot ℝ) (JD JDE : ℝ) : Option ℝ :=
  if this.englishName = "Earth" then
    if ctx.getUseNutation then some (ctx.get_apparent_sidereal_time JD JDE)
    else some (ctx.get_mean_sidereal_time JD JDE)
  else if this.re.method = ComputationMethod.WGCCRE then
    let pc := ctx.planetCorrections
    let t := JDE - J2000
    let T := t / 36525.0
    let w := this.re.W0 + remainder (t * this.re.W1) 360.0
    if this.englishName = "Moon" then
      some (w + ((-(1.4e-12)) * t * t + (3.5610) * Real.sin pc.E1
        + (0.1208) * Real.sin pc.E2 - (0.0642) * Real.sin pc.E3 + (0.0158) * Real.sin pc.E4
        + (0.0252) * Real.sin pc.E5 - (0.0066) * Real.sin pc.E6 - (0.0047) * Real.sin pc.E7
        - (0.0046) * Real.sin pc.E8 + (0.0028) * Real.sin pc.E9 + (0.0052) * Real.sin pc.E10
        + (0.0040) * Real.sin pc.E11 + (0.0019) * Real.sin pc.E12
        - (0.0044) * Real.sin pc.E13))
    else if this.englishName = "Mercury" then
      let M1 := (174.791086 * M_PI_180) + remainder ((4.092335 * M_PI_180) * t) (2.0 * Real.pi)
      let M2 := (349.582171 * M_PI_180) + remainder ((8.184670 * M_PI_180) * t) (2.0 * Real.pi)
      let M3 := (164.373257 * M_PI_180) + remainder ((12.277005 * M_PI_180) * t) (2.0 * Real.pi)
      let M4 := (339.164343 * M_PI_180) + remainder ((16.369340 * M_PI_180) * t) (2.0 * Real.pi)
      let M5 := (153.955429 * M_PI_180) + remainder ((20.461675 * M_PI_180) * t) (2.0 * Real.pi)
      some (w + ((-0.00000535) * Real.sin M5 - (0.00002364) * Real.sin M4
        - (0.00010280) * Real.sin M3 - (0.00104581) * Real.sin M2
        + (0.00993822) * Real.sin M1))
    else if this.englishName = "Jupiter" then
      some w
    else if this.englishName = "Neptune" then
      some (w - (0.48) * Real.sin pc.Na)
    else if this.englishName = "Phobos" then
      let M1 := (169.51 * M_PI_180) - (0.4357640 * M_PI_180) * t
      let M2 := (192.93 * M_PI_180) + (1128.4096700 * M_PI_180) * t + (8.864 * M_PI_180) * T * T
      some (w + ((8.864) * T * T - (1.42) * Real.sin M1 - (0.78) * Real.sin M2))
    else if this.englishName = "Deimos" then
      let M3 := (53.47 * M_PI_180) - (0.0181510 * M_PI_180) * t
      some (w + ((-0.520) * T * T - (2.58) * Real.sin M3 + (0.19) * Real.sin M3))
    else
      match this.parent.bind (derefRot bodies) with
      | none => none
      | some par =>
        if par.englishName = "Jupiter" then
          if this.englishName = "Io" then
            some (w + ((-0.085) * Real.sin pc.J3 - (0.022) * Real.sin pc.J4))
          else if this.englishName = "Europa" then
            some (w + ((-0.980) * Real.sin pc.J4 - (0.054) * Real.sin pc.J5
                - (0.014) * Real.sin pc.J6 - (0.008) * Real.sin pc.J7))
          else if this.englishName = "Ganymede" then
            some (w + ((0.033) * Real.sin pc.J4 - (0.389) * Real.sin pc.J5
                - (0.082) * Real.sin pc.J6))
          else if this.englishName = "Callisto" then
            some (w + ((0.061) * Real.sin pc.J5 - (0.533) * Real.sin pc.J6
                - (0.009) * Real.sin pc.J8))
          else if this.englishName = "Amalthea" then
            some (w + ((0.76) * Real.sin pc.J1 - (0.001) * Real.sin (2.0 * pc.J1)))
          else if this.englishName = "Thebe" then
            some (w + ((1.91) * Real.sin pc.J2 - (0.04) * Real.sin (2.0 * pc.J2)))
          else some w
        else if par.englishName = "Saturn" then
          if this.englishName = "Mimas" then
            some (w + ((-13.48) * Real.sin pc.S3 - (44.85) * Real.sin pc.S5))
          else if this.englishName = "Tethys" then
            some (w + ((-9.60) * Real.sin pc.S4 + (2.23) * Real.sin pc.S5))
          else if this.englishName = "Rhea" then
            some (w + ((-3.08) * Real.sin pc.S6))
          else some w
        else if par.englishName = "Uranus" then
          if this.englishName = "Cordelia" then
            some (w - ((0.04) * Real.sin pc.U1))
          else if this.englishName = "Ophelia" then
            some (w - ((0.03) * Real.sin pc.U2))
          else if this.englishName = "Cressida" then
            some (w - ((0.01) * Real.sin pc.U4))
          else if this.englishName = "Desdemona" then
            some (w - ((0.04) * Real.sin pc.U5))
          else if this.englishName = "Juliet" then
            some (w - ((0.02) * Real.sin pc.U6))
          else if this.englishName = "Ariel" then
            some (w + ((0.05) * Real.sin pc.U12 + (0.08) * Real.sin pc.U13))
          else if this.englishName = "Umbriel" then
            some (w + ((-0.09) * Real.sin pc.U12 + (0.06) * Real.sin pc.U14))
          else if this.englishName = "Titania" then
            some (w + ((0.08) * Real.sin pc.U15))
          else if this.englishName = "Oberon" then
            some (w + ((0.04) * Real.sin pc.U16))
          else if this.englishName = "Miranda" then
            some (w + ((-1.27) * Real.sin pc.U12 + (0.15) * Real.sin (2.0 * pc.U12)
                + (1.15) * Real.sin pc.U11 - (0.09) * Real.sin (2.0 * pc.U11)))
          else some w
        else if par.englishName = "Neptune" then
          if this.englishName = "Triton" then
            some (w + ((0.05) * Real.sin pc.U12 + (0.08) * Real.sin pc.U13))
          else if this.englishName = "Naiad" then
            some (w + ((-0.48) * Real.sin pc.Na + (4.40) * Real.sin pc.N1
                - (0.27) * Real.sin (2.0 * pc.N1)))
          else if this.englishName = "Thalassa" then
            some (w + ((-0.48) * Real.sin pc.Na + (0.19) * Real.sin pc.N2))
          else if this.englishName = "Despina" then
            some (w + ((-0.49) * Real.sin pc.Na + (0.06) * Real.sin pc.N3))
          else if this.englishName = "Galatea" then
            some (w + ((-0.48) * Real.sin pc.Na + (0.05) * Real.sin pc.N4))
          else if this.englishName = "Larissa" then
            some (w + ((-0.48) * Real.sin pc.Na + (0.19) * Real.sin pc.N5))
          else if this.englishName = "Proteus" then
            some (w + ((-0.48) * Real.sin pc.Na + (0.04) * Real.sin pc.N6))
          else some w
        else some w
  else
    let t := JDE - this.re.epoch
    let rotations := if this.re.period = 0 then 1 else t / this.re.period
    let rotations := remainder rotations 1.0
    if this.englishName = "Jupiter" then
      let correction := 870.1869147 * 5.202561 * ctx.AU / ctx.SPEED_OF_LIGHT / 86400.0
      let cm2 := 181.62 + 870.1869147 * JDE + correction
      let cm2 := fmod cm2 360.0
      let longitudeGRS :=
        if ctx.flagCustomGrsSettings then
          (ctx.customGrsLongitude : ℝ) + ctx.customGrsDrift * (JDE - ctx.customGrsJD) / 365.25
        else 216 + 1.25 * (JDE - 2456908) / 30
      some (cm2 - longitudeGRS + (187.0 / 512.0) * 360.0)
    else
      some (rotations * 360.0 + this.re.offset)

/-- The loop `for (PlanetP p=parent; p->parent; p=p->parent) if (p->pType!=isStar)
rval = p->rotLocalToParent * rval;` that `Planet::getRotEquatorialToVsop87` and
`Planet::setRotEquatorialToVsop87` both run, started at `p` with accumulator `rval`. -/
def rotLocalToParentLoop {α : Type} [Ring α] (bodies : List (PlanetRot α)) :
    Nat → Nat → Mat4d α → Option (Mat4d α)
  | 0, _, _ => none
  | fuel + 1, p, rval =>
    match derefRot bodies p with
    | none => none
    | some body =>
      match body.parent with
      | none => some rval
      | some next =>
        rotLocalToParentLoop bodies fuel next
          (if body.pType ≠ PlanetType.isStar then body.rotLocalToParent * rval else rval)

/-- Source function `Planet::getRotEquatorialToVsop87()` called on the body at index `this`. -/
def getRotEquatorialToVsop87 {α : Type} [Ring α] (bodies : List (PlanetRot α)) (fuel : Nat)
    (this : Nat) : Option (Mat4d α) :=
  match derefRot bodies this with
  | none => none
  | some body =>
    let rval := body.rotLocalToParent
    if body.re.method = ComputationMethod.Traditional then
      match body.parent with
      | none => some rval
      | some parent => rotLocalToParentLoop bodies fuel parent rval
    else some rval

/-- Source function `Planet::setRotEquatorialToVsop87(const Mat4d &m)` called on the body at
index `this`: the list of bodies afterwards. -/
def setRotEquatorialToVsop87 {α : Type} [Ring α] (bodies : List (PlanetRot α)) (fuel : Nat)
    (this : Nat) (m : Mat4d α) : Option (List (PlanetRot α)) :=
  match derefRot bodies this with
  | none => none
  | some body =>
    match body.re.method with
    | ComputationMethod.Traditional =>
      let a :=
        match body.parent with
        | none => some (1 : Mat4d α)
        | some parent => rotLocalToParentLoop bodies fuel parent 1
      match a with
      | none => none
      | some a => some (bodies.set this { body with rotLocalToParent := a.transpose * m })
    | ComputationMethod.WGCCRE =>
      some (bodies.set this { body with rotLocalToParent := m })

/-- The parent chain of a body seen through its rotation fields, as `isParentChain`:
`isRotParentChain bodies b [c₀, ..., cₙ]` holds when every body of the chain exists, each is
the parent of the one before it, and the last one, the root, has no parent. -/
def isRotParentChain {α : Type} (bodies : List (PlanetRot α)) : Nat → List Nat → Bool
  | b, [] =>
    match derefRot bodies b with
    | some body => body.parent.isNone
    | none => false
  | b, c :: rest =>
    match derefRot bodies b with
    | some body => body.parent == some c && isRotParentChain bodies c rest
    | none => false

/-- The matrices `rotLocalToParent` of the bodies at the given indices that are not of type
`isStar`, in order. -/
def nonStarMatrices {α : Type} (bodies : List (PlanetRot α)) (ps : List Nat) :
    List (Mat4d α) :=
  ps.filterMap fun p =>
    match derefRot bodies p with
    | some body => if body.pType ≠ PlanetType.isStar then some body.rotLocalToParent else none
    | none => none

/-- The product `Aₖ * ... * A₁ * r` for the list `[A₁, ..., Aₖ]`. -/
def leftProduct {α : Type} [Ring α] (r : Mat4d α) (ms : List (Mat4d α)) : Mat4d α :=
  ms.foldl (fun acc A => A * acc) r

/-! ## Body types and the constructor (`Planet::init`, `Planet::Planet`) -/

/-- Qt library function `QMap::insert(key, value)` on the static map `pTypeMap`, a
`QMap<PlanetType, QString>` kept in ascending key order: the value of an existing key is
replaced. -/
def pTypeMapInsert :
    List (PlanetType × String) → PlanetType → String → List (PlanetType × String)
  | [], key, value => [(key, value)]
  | (k, v) :: rest, key, value =>
    if key.val < k.val then (key, value) :: (k, v) :: rest
    else if key = k then (key, value) :: rest
    else (k, v) :: pTypeMapInsert rest key value

/-- Qt library function `QMap::key(value, defaultKey)`: the first key, in ascending key
order, with the given value, or `defaultKey` when there is none. -/
def pTypeMapKey (pTypeMap : List (PlanetType × String)) (value : String)
    (defaultKey : PlanetType) : PlanetType :=
  match pTypeMap.find? (fun e => e.2 = value) with
  | some e => e.1
  | none => defaultKey

/-- Source function `Planet::init()`, the part that loads `pTypeMap`: the map afterwards. -/
def Planet.init (pTypeMap : List (PlanetType × String)) : List (PlanetType × String) :=
  let pTypeMap := if pTypeMap.length > 0 then [] else pTypeMap
  let pTypeMap := pTypeMapInsert pTypeMap PlanetType.isStar "star"
  let pTypeMap := pTypeMapInsert pTypeMap PlanetType.isPlanet "planet"
  let pTypeMap := pTypeMapInsert pTypeMap PlanetType.isMoon "moon"
  let pTypeMap := pTypeMapInsert pTypeMap PlanetType.isObserver "observer"
  let pTypeMap := pTypeMapInsert pTypeMap PlanetType.isArtificial "artificial"
  let pTypeMap := pTypeMapInsert pTypeMap PlanetType.isAsteroid "asteroid"
  let pTypeMap := pTypeMapInsert pTypeMap PlanetType.isPlutino "plutino"
  let pTypeMap := pTypeMapInsert pTypeMap PlanetType.isComet "comet"
  let pTypeMap := pTypeMapInsert pTypeMap PlanetType.isDwarfPlanet "dwarf planet"
  let pTypeMap := pTypeMapInsert pTypeMap PlanetType.isCubewano "cubewano"
  let pTypeMap := pTypeMapInsert pTypeMap PlanetType.isSDO "scattered disc object"
  let pTypeMap := pTypeMapInsert pTypeMap PlanetType.isOCO "Oort cloud object"
  let pTypeMap := pTypeMapInsert pTypeMap PlanetType.isSednoid "sednoid"
  let pTypeMap := pTypeMapInsert pTypeMap PlanetType.isInterstellar "interstellar object"
  pTypeMapInsert pTypeMap PlanetType.isUNDEFINED "UNDEFINED"

/-- Source function `Planet::Planet(...)`, the part that resolves the body type from the
string `pTypeStr`: `Except.ok pType` when construction goes on with that type,
`Except.error (-1)` when the constructor calls `exit(-1)`. -/
def planetConstructor (pTypeMap : List (PlanetType × String)) (pTypeStr : String) :
    Except Int PlanetType :=
  let pType := pTypeMapKey pTypeMap pTypeStr PlanetType.isUNDEFINED
  if pType = PlanetType.isUNDEFINED then Except.error (-1) else Except.ok pType

/-- The fourteen registered type names, as the specification lists them. -/
def registeredTypeNames : List String :=
  ["star", "planet", "moon", "observer", "artificial", "asteroid", "plutino", "comet",
    "dwarf planet", "cubewano", "scattered disc object", "Oort cloud object", "sednoid",
    "interstellar object"]

/-! ## `setHeliocentricEclipticPos` and `getHeliocentricEclipticVelocity` -/

/-- The loop `while (p->parent) { eclipticPos -= p->eclipticPos; p = p->parent; }` of
`Planet::setHeliocentricEclipticPos`, started at `p` with the value `pos` of `eclipticPos`. -/
def setHeliocentricEclipticPosLoop {α : Type} [Sub α] (bodies : List (Planet α)) :
    Nat → Nat → Vec3d α → Option (Vec3d α)
  | 0, _, _ => none
  | fuel + 1, p, pos =>
    match deref bodies p with
    | none => none
    | some body =>
      match body.parent with
      | none => some pos
      | some next => setHeliocentricEclipticPosLoop bodies fuel next (pos - body.eclipticPos)

/-- Source function `Planet::setHeliocentricEclipticPos(const Vec3d &pos)` called on the body
at index `this`: the list of bodies afterwards. -/
def setHeliocentricEclipticPos {α : Type} [Sub α] (bodies : List (Planet α)) (fuel : Nat)
    (this : Nat) (pos : Vec3d α) : Option (List (Planet α)) :=
  match deref bodies this with
  | none => none
  | some body =>
    match body.parent with
    | none => some (bodies.set this { body with eclipticPos := pos })
    | some p =>
      match setHeliocentricEclipticPosLoop bodies fuel p pos with
      | none => none
      | some e => some (bodies.set this { body with eclipticPos := e })

/-- The loop `while (pp->parent.data()) { vel += pp->eclipticVelocity; pp = pp->parent.data(); }`
of `Planet::getHeliocentricEclipticVelocity`. -/
def getHeliocentricEclipticVelocityLoop {α : Type} [Add α] (bodies : List (Planet α)) :
    Nat → Nat → Vec3d α → Option (Vec3d α)
  | 0, _, _ => none
  | fuel + 1, pp, vel =>
    match deref bodies pp with
    | none => none
    | some body =>
      match body.parent with
      | none => some vel
      | some next =>
        getHeliocentricEclipticVelocityLoop bodies fuel next (vel + body.eclipticVelocity)

/-- Source function `Planet::getHeliocentricEclipticVelocity()` called on the body at index
`this`. -/
def getHeliocentricEclipticVelocity {α : Type} [Add α] (bodies : List (Planet α)) (fuel : Nat)
    (this : Nat) : Option (Vec3d α) :=
  match deref bodies this with
  | none => none
  | some body =>
    match body.parent with
    | none => some body.eclipticVelocity
    | some pp => getHeliocentricEclipticVelocityLoop bodies fuel pp body.eclipticVelocity

/-- The `eclipticVelocity` fields of the bodies at the given indices, in order. -/
def eclipticVelocities {α : Type} (bodies : List (Planet α)) (ps : List Nat) :
    List (Vec3d α) :=
  ps.filterMap fun p => (deref bodies p).map Planet.eclipticVelocity

/-! ## The shadow test (`willCastShadow`) -/

/-- Scaling by a scalar on the right, `operator*(T)` of `Vector3<T>`. -/
def Vec3d.scale {α : Type} [Mul α] (a : Vec3d α) (s : α) : Vec3d α := ⟨a.x * s, a.y * s, a.z * s⟩

/-- The vector after `normalize()` of `VecMath.hpp`: every component multiplied by
`1/sqrt(x² + y² + z²)`. -/
noncomputable def Vec3d.normalize (a : Vec3d ℝ) : Vec3d ℝ :=
  a.scale (1 / Real.sqrt (a.x * a.x + a.y * a.y + a.z * a.z))

/-- Source function `willCastShadow(const Planet* thisPlanet, const Planet* p)`.  The
arguments `thisPos` and `planetPos` are the values of `getHeliocentricEclipticPos()` of
`thisPlanet` and of `p`, `thisRadius` and `planetRadius` the values of their
`getEquatorialRadius()`, and `AU` is the constant of `StelUtils.hpp`. -/
noncomputable def willCastShadow (AU : ℝ) (thisPos : Vec3d ℝ) (thisRadius : ℝ)
    (planetPos : Vec3d ℝ) (planetRadius : ℝ) : Bool :=
  if planetPos.lengthSquared > thisPos.lengthSquared then false
  else
    let ppVector := planetPos.normalize
    let shadowDistance := ppVector.dot thisPos
    let sunRadius := 696000.0 / AU
    let d := planetPos.length / (planetRadius / sunRadius + 1)
    let penumbraRadius := (shadowDistance - d) / d * sunRadius
    let penumbraCenterToThisPlanetCenterDistance :=
      (ppVector.scale shadowDistance - thisPos).length
    if penumbraCenterToThisPlanetCenterDistance < penumbraRadius + thisRadius then true
    else false

/-- The local `sunRadius` of `willCastShadow`, the solar radius in AU. -/
noncomputable def sunRadius (AU : ℝ) : ℝ := 696000.0 / AU

/-- The local `penumbraRadius` of `willCastShadow` as a function of `shadowDistance`, for an
occluder at `planetPos` with equatorial radius `planetRadius`. -/
noncomputable def penumbraRadius (AU : ℝ) (planetPos : Vec3d ℝ) (planetRadius : ℝ)
    (shadowDistance : ℝ) : ℝ :=
  (shadowDistance - planetPos.length / (planetRadius / sunRadius AU + 1))
    / (planetPos.length / (planetRadius / sunRadius AU + 1)) * sunRadius AU

/-- The distance of `thisPos` along the axis from the Sun through `planetPos`: the local
`shadowDistance` of `willCastShadow`. -/
noncomputable def axialDistance (thisPos planetPos : Vec3d ℝ) : ℝ :=
  planetPos.normalize.dot thisPos

/-- The distance between `thisPos` and the point of the axis from the Sun through
`planetPos` at the axial distance of `thisPos`. -/
noncomputable def distanceFromAxis (thisPos planetPos : Vec3d ℝ) : ℝ :=
  (planetPos.normalize.scale (axialDistance thisPos planetPos) - thisPos).length

/-! ## Photometry (`getMeanOppositionMagnitude`, `getVMagnitude`) -/

/-- C library function `log10(x)`: the decimal logarithm for `x > 0`, and `none` for
`x <= 0`, where the C function yields no finite value (`-inf` at `0`, NaN below). -/
noncomputable def log10 (x : ℝ) : Option ℝ :=
  if 0 < x then some (Real.log x / Real.log 10) else none

/-- C library function `atan2(y, x)`, the angle of the point `(x, y)` in `(-π, π]`. -/
noncomputable def atan2 (y x : ℝ) : ℝ := Complex.arg ⟨x, y⟩

/-- The fields of `class Planet` that the photometric functions read. -/
structure PlanetPhot (α : Type) where
  /-- The English name of the body. -/
  englishName : String
  /-- The body classification. -/
  pType : PlanetType
  /-- The `parent` pointer; `none` is the null pointer. -/
  parent : Option Nat
  /-- Absolute magnitude; `-99` when unknown. -/
  absoluteMagnitude : α
  /-- Albedo. -/
  albedo : α
  /-- Equatorial radius, AU. -/
  equatorialRadius : α
  /-- The owned orbit `orbitPtr`; `none` is the null pointer. -/
  orbitPtr : Option (KeplerOrbit α)

/-- Dereference a `Planet*` in a list of bodies seen through their photometric fields. -/
def derefPhot {α : Type} (bodies : List (PlanetPhot α)) (p : Nat) : Option (PlanetPhot α) :=
  bodies[p]?

/-- The static table `nameMap` of `Planet::getMeanOppositionMagnitude`. -/
def meanOppositionNameMap : List (String × ℝ) :=
  [("Sun", 100), ("Moon", -12.74), ("Mars", -2.01), ("Jupiter", -2.7), ("Saturn", 0.67),
    ("Uranus", 5.52), ("Neptune", 7.84), ("Pluto", 15.12), ("Io", 5.02), ("Europa", 5.29),
    ("Ganymede", 4.61), ("Callisto", 5.65)]

/-- The static table `smaMap` of `Planet::getMeanOppositionMagnitude`. -/
def meanOppositionSmaMap : List (String × ℝ) :=
  [("Mars", 1.52371034), ("Jupiter", 5.202887), ("Saturn", 9.53667594),
    ("Uranus", 19.18916464), ("Neptune", 30.06992276), ("Pluto", 39.48211675)]

/-- Source function `Planet::getMeanOppositionMagnitude()` called on the body `this`;
`bodies` resolves the `parent` pointer.  The result is `none` when the evaluation
dereferences a null or dangling `parent` pointer or takes `log10` of a number that is not
positive.  The `Q_ASSERT(orbitPtr)` of debug builds is not modelled. -/
noncomputable def getMeanOppositionMagnitude (bodies : List (PlanetPhot ℝ))
    (this : PlanetPhot ℝ) : Option ℝ :=
  if this.absoluteMagnitude ≤ -99 then some 100
  else
    match meanOppositionNameMap.lookup this.englishName with
    | some v => some v
    | none =>
      match this.parent.bind (derefPhot bodies) with
      | none => none
      | some par =>
        let semimajorAxis := (meanOppositionSmaMap.lookup par.englishName).getD 0
        let semimajorAxis :=
          if this.pType.val ≥ PlanetType.isAsteroid.val then
            match this.orbitPtr with
            | some orbit => orbit.getSemimajorAxis
            | none => semimajorAxis
          else semimajorAxis
        if semimajorAxis > 0 then
          (log10 (semimajorAxis * (semimajorAxis - 1))).map
            (fun l => this.absoluteMagnitude + 5 * l)
        else some 100

/-- The selector `enum Planet::ApparentMagnitudeAlgorithm`. -/
inductive ApparentMagnitudeAlgorithm where
  | Mueller_1893
  | AstronomicalAlmanac_1984
  | ExplanatorySupplement_1992
  | ExplanatorySupplement_2013
  | UndefinedAlgorithm
  | Generic
deriving DecidableEq, Repr

/-- What `Planet::getVMagnitude` reads from outside the body: the heliocentric position of
the observer, the eclipse factor of the solar system module, the name of the planet of the
current location, the selected algorithm, the current JDE, the heliocentric position of the
Earth, the constants `AU` and `PARSEC` of `StelUtils.hpp`, and `fuzzyEquals`. -/
structure VMagnitudeContext where
  observerHelioPos : Vec3d ℝ
  eclipseFactor : ℝ
  locationPlanetName : String
  algorithm : ApparentMagnitudeAlgorithm
  JDE : ℝ
  earthHelioPos : Vec3d ℝ
  AU : ℝ
  PARSEC : ℝ
  fuzzyEquals : ℝ → ℝ → Bool

/-- The local `d` of the shadow test in `Planet::getVMagnitude`, the distance from the
centre of the satellite to the border of the inner shadow of its parent (`d > 0` is inside):
`sun_radius` and `parent_radius` are the equatorial radii of `parent->parent` and `parent`. -/
noncomputable def innerShadowDepth (sun_radius parent_radius : ℝ)
    (planetHelioPos parentHeliopos : Vec3d ℝ) : ℝ :=
  let planetRq := planetHelioPos.lengthSquared
  let parent_Rq := parentHeliopos.lengthSquared
  let pos_times_parent_pos := planetHelioPos.dot parentHeliopos
  let sun_minus_parent_radius := sun_radius - parent_radius
  let quot := pos_times_parent_pos / parent_Rq
  sun_radius - sun_minus_parent_radius * quot
    - Real.sqrt ((1.0 - sun_minus_parent_radius / Real.sqrt parent_Rq)
        * (planetRq - pos_times_parent_pos * quot))

/-- The computation of the local `shadowFactor` in `Planet::getVMagnitude`, for the body
`this` with parent `par`; `none` when `parent->parent` dangles. -/
noncomputable def shadowFactorOf (bodies : List (PlanetPhot ℝ)) (this par : PlanetPhot ℝ)
    (planetHelioPos parentHeliopos : Vec3d ℝ) : Option ℝ :=
  match par.parent with
  | none => some 1.0
  | some grandparent =>
    let parent_Rq := parentHeliopos.lengthSquared
    let pos_times_parent_pos := planetHelioPos.dot parentHeliopos
    if pos_times_parent_pos > parent_Rq then
      match derefPhot bodies grandparent with
      | none => none
      | some sun =>
        let d := innerShadowDepth sun.equatorialRadius par.equatorialRadius planetHelioPos
          parentHeliopos
        if d ≥ this.equatorialRadius then
          if this.englishName = "Moon" then some 2.718e-5 else some 1e-9
        else if d > -this.equatorialRadius then
          let d := d / this.equatorialRadius
          some (0.5 - (Real.arcsin d + d * Real.sqrt (1.0 - d * d)) / Real.pi)
        else some 1.0
    else some 1.0

/-- The ring term `ringsIllum` that `Planet::getVMagnitude` computes for Saturn, by the same
statements in each of its four algorithms. -/
noncomputable def saturnRingsIllum (ctx : VMagnitudeContext) (planetHelioPos : Vec3d ℝ) : ℝ :=
  let jde := ctx.JDE
  let T := (jde - 2451545.0) / 36525.0
  let i := ((0.000004 * T - 0.012998) * T + 28.075216) * Real.pi / 180.0
  let Omega := ((0.000412 * T + 1.394681) * T + 169.508470) * Real.pi / 180.0
  let saturnEarth := planetHelioPos - ctx.earthHelioPos
  let lambda := atan2 saturnEarth.y saturnEarth.x
  let beta := atan2 saturnEarth.z
    (Real.sqrt (saturnEarth.x * saturnEarth.x + saturnEarth.y * saturnEarth.y))
  let sinx := Real.sin i * Real.cos beta * Real.sin (lambda - Omega)
    - Real.cos i * Real.sin beta
  let ringsIllum := -2.6 * |sinx| + 1.25 * sinx * sinx
  ringsIllum

/-- The `switch` over the algorithm in `Planet::getVMagnitude`, entered when the observer is
on Earth: `some r` when a `return r` is reached (`r` is `none` when `d`, five times the
`log10` of the distance product, has no value), `none` when the case ends with `break`. -/
noncomputable def empiricalMagnitude (ctx : VMagnitudeContext) (this : PlanetPhot ℝ)
    (planetHelioPos : Vec3d ℝ) (phaseDeg : ℝ) (d : Option ℝ) (shadowFactor : ℝ) :
    Option (Option ℝ) :=
  let englishName := this.englishName
  match ctx.algorithm with
  | ApparentMagnitudeAlgorithm.UndefinedAlgorithm
  | ApparentMagnitudeAlgorithm.ExplanatorySupplement_2013 =>
    if englishName = "Mercury" then
      some (d.map fun d =>
        -0.6 + d + (((3.02e-6 * phaseDeg - 0.000488) * phaseDeg + 0.0498) * phaseDeg))
    else if englishName = "Venus" then
      if phaseDeg < 163.6 then
        some (d.map fun d =>
          -4.47 + d + ((0.13e-6 * phaseDeg + 0.000057) * phaseDeg + 0.0103) * phaseDeg)
      else
        some (d.map fun d =>
          236.05828 + d - 2.81914 * phaseDeg + 8.39034e-3 * phaseDeg * phaseDeg)
    else if englishName = "Earth" then
      some (d.map fun d =>
        -3.87 + d + (((0.48e-6 * phaseDeg + 0.000019) * phaseDeg + 0.0130) * phaseDeg))
    else if englishName = "Mars" then
      some (d.map fun d => -1.52 + d + 0.016 * phaseDeg)
    else if englishName = "Jupiter" then
      some (d.map fun d => -9.40 + d + 0.005 * phaseDeg)
    else if englishName = "Saturn" then
      some (d.map fun d =>
        -8.88 + d + 0.044 * phaseDeg + saturnRingsIllum ctx planetHelioPos)
    else if englishName = "Uranus" then
      some (d.map fun d => -7.19 + d + 0.002 * phaseDeg)
    else if englishName = "Neptune" then
      some (d.map fun d => -6.87 + d)
    else if englishName = "Pluto" then
      some (d.map fun d => -1.01 + d)
    else if englishName = "Io" then
      some (if shadowFactor < 1.0 then some 21.0
        else d.map fun d => -1.68 + d + phaseDeg * (0.046 - 0.0010 * phaseDeg))
    else if englishName = "Europa" then
      some (if shadowFactor < 1.0 then some 21.0
        else d.map fun d => -1.41 + d + phaseDeg * (0.0312 - 0.00125 * phaseDeg))
    else if englishName = "Ganymede" then
      some (if shadowFactor < 1.0 then some 21.0
        else d.map fun d => -2.09 + d + phaseDeg * (0.0323 - 0.00066 * phaseDeg))
    else if englishName = "Callisto" then
      some (if shadowFactor < 1.0 then some 21.0
        else d.map fun d => -1.05 + d + phaseDeg * (0.078 - 0.00274 * phaseDeg))
    else if (!ctx.fuzzyEquals this.absoluteMagnitude (-99)) && englishName != "Moon" then
      some (d.map fun d => this.absoluteMagnitude + d)
    else none
  | ApparentMagnitudeAlgorithm.ExplanatorySupplement_1992 =>
    let f1 := phaseDeg / 100.0
    if englishName = "Mercury" then
      let f1 := if phaseDeg > 150.0 then 1.5 else f1
      some (d.map fun d => -0.36 + d + 3.8 * f1 - 2.73 * f1 * f1 + 2 * f1 * f1 * f1)
    else if englishName = "Venus" then
      some (d.map fun d => -4.29 + d + 0.09 * f1 + 2.39 * f1 * f1 - 0.65 * f1 * f1 * f1)
    else if englishName = "Mars" then
      some (d.map fun d => -1.52 + d + 0.016 * phaseDeg)
    else if englishName = "Jupiter" then
      some (d.map fun d => -9.25 + d + 0.005 * phaseDeg)
    else if englishName = "Saturn" then
      some (d.map fun d =>
        -8.88 + d + 0.044 * phaseDeg + saturnRingsIllum ctx planetHelioPos)
    else if englishName = "Uranus" then
      some (d.map fun d => -7.19 + d + 0.0028 * phaseDeg)
    else if englishName = "Neptune" then
      some (d.map fun d => -6.87 + d)
    else if englishName = "Pluto" then
      some (d.map fun d => -1.01 + d + 0.041 * phaseDeg)
    else none
  | ApparentMagnitudeAlgorithm.Mueller_1893 =>
    if englishName = "Mercury" then
      let ph50 := phaseDeg - 50.0
      some (d.map fun d => 1.16 + d + 0.02838 * ph50 + 0.0001023 * ph50 * ph50)
    else if englishName = "Venus" then
      some (d.map fun d =>
        -4.00 + d + 0.01322 * phaseDeg + 0.0000004247 * phaseDeg * phaseDeg * phaseDeg)
    else if englishName = "Mars" then
      some (d.map fun d => -1.30 + d + 0.01486 * phaseDeg)
    else if englishName = "Jupiter" then
      some (d.map fun d => -8.93 + d)
    else if englishName = "Saturn" then
      some (d.map fun d =>
        -8.68 + d + 0.044 * phaseDeg + saturnRingsIllum ctx planetHelioPos)
    else if englishName = "Uranus" then
      some (d.map fun d => -6.85 + d)
    else if englishName = "Neptune" then
      some (d.map fun d => -7.05 + d)
    else if englishName = "Pluto" then
      some (d.map fun d => -1.0 + d)
    else none
  | ApparentMagnitudeAlgorithm.AstronomicalAlmanac_1984 =>
    if englishName = "Mercury" then
      some (d.map fun d =>
        -0.42 + d + 0.038 * phaseDeg - 0.000273 * phaseDeg * phaseDeg
          + 0.000002 * phaseDeg * phaseDeg * phaseDeg)
    else if englishName = "Venus" then
      some (d.map fun d =>
        -4.40 + d + 0.0009 * phaseDeg + 0.000239 * phaseDeg * phaseDeg
          - 0.00000065 * phaseDeg * phaseDeg * phaseDeg)
    else if englishName = "Mars" then
      some (d.map fun d => -1.52 + d + 0.016 * phaseDeg)
    else if englishName = "Jupiter" then
      some (d.map fun d => -9.40 + d + 0.005 * phaseDeg)
    else if englishName = "Saturn" then
      some (d.map fun d =>
        -8.88 + d + 0.044 * phaseDeg + saturnRingsIllum ctx planetHelioPos)
    else if englishName = "Uranus" then
      some (d.map fun d => -7.19 + d)
    else if englishName = "Neptune" then
      some (d.map fun d => -6.87 + d)
    else if englishName = "Pluto" then
      some (d.map fun d => -1.00 + d)
    else none
  | ApparentMagnitudeAlgorithm.Generic => none

/-- Source function `Planet::getVMagnitude(const StelCore* core)` called on the body `this`;
`bodies` resolves the `parent` pointers, and `planetHelioPos` and `parentHeliopos` are the
values of `getHeliocentricEclipticPos()` of the body and of its parent.  The result is
`none` when a dangling pointer is dereferenced or a `log10` in the returned expression has
no value. -/
noncomputable def getVMagnitude (ctx : VMagnitudeContext) (bodies : List (PlanetPhot ℝ))
    (this : PlanetPhot ℝ) (planetHelioPos parentHeliopos : Vec3d ℝ) : Option ℝ :=
  match this.parent with
  | none =>
    let distParsec := Real.sqrt ctx.observerHelioPos.lengthSquared * ctx.AU / ctx.PARSEC
    let shadowFactor := Max.max 0.000128 ctx.eclipseFactor
    match log10 distParsec, log10 shadowFactor with
    | some l1, some l2 => some (4.83 + 5.0 * (l1 - 1.0) - 2.5 * l2)
    | _, _ => none
  | some parent =>
    match derefPhot bodies parent with
    | none => none
    | some par =>
      let observerHelioPos := ctx.observerHelioPos
      let observerRq := observerHelioPos.lengthSquared
      let planetRq := planetHelioPos.lengthSquared
      let observerPlanetRq := (observerHelioPos - planetHelioPos).lengthSquared
      let dr := Real.sqrt (observerPlanetRq * planetRq)
      let cos_chi := (observerPlanetRq + planetRq - observerRq) / (2.0 * dr)
      let phaseAngle := Real.arccos cos_chi
      match shadowFactorOf bodies this par planetHelioPos parentHeliopos with
      | none => none
      | some shadowFactor =>
        let p := (1.0 - phaseAngle / Real.pi) * cos_chi
          + Real.sqrt (1.0 - cos_chi * cos_chi) / Real.pi
        let F := 2.0 * this.albedo * this.equatorialRadius * this.equatorialRadius * p
          / (3.0 * observerPlanetRq * planetRq) * shadowFactor
        let generic := (log10 F).map fun l => -26.73 - 2.5 * l
        if ctx.locationPlanetName = "Earth" then
          let phaseDeg := phaseAngle * M_180_PI
          let d := (log10 dr).map fun l => 5.0 * l
          match empiricalMagnitude ctx this planetHelioPos phaseDeg d shadowFactor with
          | some r => r
          | none => generic
        else generic

/-- The phase polynomials that `Planet::getVMagnitude` returns for the four Galilean moons
in the `ExplanatorySupplement_2013` case, with `d = 5*log10(distance product)`: Io, Europa,
Ganymede, and (for every other name) Callisto. -/
noncomputable def galileanPolynomial (englishName : String) (d phaseDeg : ℝ) : ℝ :=
  if englishName = "Io" then -1.68 + d + phaseDeg * (0.046 - 0.0010 * phaseDeg)
  else if englishName = "Europa" then -1.41 + d + phaseDeg * (0.0312 - 0.00125 * phaseDeg)
  else if englishName = "Ganymede" then -2.09 + d + phaseDeg * (0.0323 - 0.00066 * phaseDeg)
  else -1.05 + d + phaseDeg * (0.078 - 0.00274 * phaseDeg)

/-- The product `dr` of the distances observer-body and Sun-body in `Planet::getVMagnitude`. -/
noncomputable def distanceProduct (planetHelioPos obsPos : Vec3d ℝ) : ℝ :=
  Real.sqrt ((obsPos - planetHelioPos).lengthSquared * planetHelioPos.lengthSquared)

/-! ## The rotation matrix (`Planet::computeTransMatrix`) -/

/-- Modelled from the spec: the matrix `Mat4d::xrotation(angle)` of `VecMath.hpp` (not part
of the sources at hand), written `Rx` in the specification: the rotation about the x axis by
`angle`, radians. -/
noncomputable def Mat4d.xrotation (angle : ℝ) : Mat4d ℝ :=
  !![1, 0, 0, 0;
     0, Real.cos angle, -Real.sin angle, 0;
     0, Real.sin angle, Real.cos angle, 0;
     0, 0, 0, 1]

/-- Modelled from the spec: the matrix `Mat4d::zrotation(angle)` of `VecMath.hpp` (not part
of the sources at hand), written `Rz` in the specification: the rotation about the z axis by
`angle`, radians. -/
noncomputable def Mat4d.zrotation (angle : ℝ) : Mat4d ℝ :=
  !![Real.cos angle, -Real.sin angle, 0, 0;
     Real.sin angle, Real.cos angle, 0, 0;
     0, 0, 1, 0;
     0, 0, 0, 1]

/-- Modelled from the spec: the method `Mat4d::multiplyWithoutTranslation(v)` of
`VecMath.hpp` (not part of the sources at hand): the rotation part of the matrix, its upper
left 3x3 block, applied to the vector `v`. -/
def Mat4d.multiplyWithoutTranslation {α : Type} [Add α] [Mul α] (m : Mat4d α) (v : Vec3d α) :
    Vec3d α :=
  ⟨m 0 0 * v.x + m 0 1 * v.y + m 0 2 * v.z,
   m 1 0 * v.x + m 1 1 * v.y + m 1 2 * v.z,
   m 2 0 * v.x + m 2 1 * v.y + m 2 2 * v.z⟩

/-- Modelled from the spec: the function `StelUtils::spheToRect(lng, lat, v)` (not part of
the sources at hand): the unit vector of longitude `lng` and latitude `lat`, radians. -/
noncomputable def spheToRect (lng lat : ℝ) : Vec3d ℝ :=
  ⟨Real.cos lng * Real.cos lat, Real.sin lng * Real.cos lat, Real.sin lat⟩

/-- Modelled from the spec: the function `StelUtils::rectToSphe(&lng, &lat, v)` (not part of
the sources at hand): the longitude and latitude, radians, of the direction of `v`, returned
as the pair `(lng, lat)`. -/
noncomputable def rectToSphe (v : Vec3d ℝ) : ℝ × ℝ :=
  (atan2 v.y v.x, Real.arcsin (v.z / v.length))

/-- What `Planet::computeTransMatrix` reads besides the body and its arguments: the state
that `getSiderealTime` reads (with the static `planetCorrections` and the nutation flag of
the core), the precession angles `(eps_A, chi_A, omega_A, psi_A)` and nutation angles
`(deltaPsi, deltaEps)` of `precession.h` as functions of `JDE`, and the constant matrix
`StelCore::matJ2000ToVsop87`. -/
structure TransMatrixContext where
  sidereal : SiderealTimeContext
  getPrecessionAnglesVondrak : ℝ → ℝ × ℝ × ℝ × ℝ
  getNutationAngles : ℝ → ℝ × ℝ
  matJ2000ToVsop87 : Mat4d ℝ

/-- The locals `J2000NPoleRA`, `J2000NPoleDE` and `retransform` of
`Planet::computeTransMatrix` after its block of pole corrections. -/
structure PoleOfDate where
  J2000NPoleRA : ℝ
  J2000NPoleDE : ℝ
  retransform : Bool

/-- The statements of `Planet::computeTransMatrix` from `bool retransform=false;` to the end
of the block `if((re.ra1!=0.0) || (re.de1!=0.0))`, for the body `body` whose `parent`
pointer is `parent`: the pole of date with its periodic corrections.  The result is `none`
when `parent->englishName` is read through a dangling pointer. -/
noncomputable def poleOfDate (ctx : TransMatrixContext) (bodies : List (PlanetRot ℝ))
    (body : PlanetRot ℝ) (parent : Nat) (JDE : ℝ) : Option PoleOfDate :=
  let pc := ctx.sidereal.planetCorrections
  let t := JDE - J2000
  let T := t / 36525.0
  let retransform := false
  let J2000NPoleRA := body.re.ra0
  let J2000NPoleDE := body.re.de0
  if body.re.ra1 ≠ 0.0 ∨ body.re.de1 ≠ 0.0 then
    let retransform := true
    let J2000NPoleRA := J2000NPoleRA + body.re.ra1 * T
    let J2000NPoleDE := J2000NPoleDE + body.re.de1 * T
    if body.englishName = "Moon" then
      let J2000NPoleRA := J2000NPoleRA + (- (3.8787 * M_PI_180) * Real.sin (pc.E1)
        - (0.1204 * M_PI_180) * Real.sin (pc.E2) + (0.0700 * M_PI_180) * Real.sin (pc.E3)
        - (0.0172 * M_PI_180) * Real.sin (pc.E4) + (0.0072 * M_PI_180) * Real.sin (pc.E6)
        - (0.0052 * M_PI_180) * Real.sin (pc.E10) + (0.0043 * M_PI_180) * Real.sin (pc.E13))
      let J2000NPoleDE := J2000NPoleDE + ((1.5419 * M_PI_180) * Real.cos (pc.E1)
        + (0.0239 * M_PI_180) * Real.cos (pc.E2) - (0.0278 * M_PI_180) * Real.cos (pc.E3)
        + (0.0068 * M_PI_180) * Real.cos (pc.E4) - (0.0029 * M_PI_180) * Real.cos (pc.E6)
        + (0.0009 * M_PI_180) * Real.cos (pc.E7) + (0.0008 * M_PI_180) * Real.cos (pc.E10)
        - (0.0009 * M_PI_180) * Real.cos (pc.E13))
      some ⟨J2000NPoleRA, J2000NPoleDE, retransform⟩
    else if body.englishName = "Jupiter" then
      let J2000NPoleRA := J2000NPoleRA + ((0.000117 * M_PI_180) * Real.sin (pc.Ja1)
        + (0.000938 * M_PI_180) * Real.sin (pc.Ja2) + (0.001432 * M_PI_180) * Real.sin (pc.Ja3)
        + (0.000030 * M_PI_180) * Real.sin (pc.Ja4) + (0.002150 * M_PI_180) * Real.sin (pc.Ja5))
      let J2000NPoleDE := J2000NPoleDE + ((0.000050 * M_PI_180) * Real.cos (pc.Ja1)
        + (0.000404 * M_PI_180) * Real.cos (pc.Ja2) + (0.000617 * M_PI_180) * Real.cos (pc.Ja3)
        - (0.000013 * M_PI_180) * Real.cos (pc.Ja4) + (0.000926 * M_PI_180) * Real.cos (pc.Ja5))
      some ⟨J2000NPoleRA, J2000NPoleDE, retransform⟩
    else if body.englishName = "Neptune" then
      let J2000NPoleRA := J2000NPoleRA + ((0.7 * M_PI_180) * Real.sin (pc.Na))
      let J2000NPoleDE := J2000NPoleDE - ((0.51 * M_PI_180) * Real.cos (pc.Na))
      let retransform := true
      some ⟨J2000NPoleRA, J2000NPoleDE, retransform⟩
    else if body.englishName = "Phobos" then
      let M1 := M_PI_180 * (169.51 + remainder (0.4357640 * t) 360.0)
      let J2000NPoleRA := J2000NPoleRA + ((1.79 * M_PI_180) * Real.sin (M1))
      let J2000NPoleDE := J2000NPoleDE - ((1.08 * M_PI_180) * Real.cos (M1))
      some ⟨J2000NPoleRA, J2000NPoleDE, retransform⟩
    else if body.englishName = "Deimos" then
      let M3 := M_PI_180 * (53.47 - remainder (0.0181510 * t) 360.0)
      let J2000NPoleRA := J2000NPoleRA + ((2.98 * M_PI_180) * Real.sin (M3))
      let J2000NPoleDE := J2000NPoleDE - ((1.78 * M_PI_180) * Real.cos (M3))
      some ⟨J2000NPoleRA, J2000NPoleDE, retransform⟩
    else
      match derefRot bodies parent with
      | none => none
      | some par =>
        if par.englishName = "Jupiter" then
          if body.englishName = "Io" then
            let J2000NPoleRA := J2000NPoleRA + ((M_PI_180 * 0.094) * Real.sin (pc.J3)
              + (M_PI_180 * 0.024) * Real.sin (pc.J4))
            let J2000NPoleDE := J2000NPoleDE + ((M_PI_180 * 0.040) * Real.cos (pc.J3)
              + (M_PI_180 * 0.011) * Real.cos (pc.J4))
            some ⟨J2000NPoleRA, J2000NPoleDE, retransform⟩
          else if body.englishName = "Europa" then
            let J2000NPoleRA := J2000NPoleRA + ((M_PI_180 * 1.086) * Real.sin (pc.J4)
              + (M_PI_180 * 0.060) * Real.sin (pc.J5) + (M_PI_180 * 0.015) * Real.sin (pc.J6)
              + (M_PI_180 * 0.009) * Real.sin (pc.J7))
            let J2000NPoleDE := J2000NPoleDE + ((M_PI_180 * 0.468) * Real.cos (pc.J4)
              + (M_PI_180 * 0.026) * Real.cos (pc.J5) + (M_PI_180 * 0.007) * Real.cos (pc.J6)
              + (M_PI_180 * 0.002) * Real.cos (pc.J7))
            some ⟨J2000NPoleRA, J2000NPoleDE, retransform⟩
          else if body.englishName = "Ganymede" then
            let J2000NPoleRA := J2000NPoleRA + ((M_PI_180 * (-0.037)) * Real.sin (pc.J4)
              + (M_PI_180 * 0.431) * Real.sin (pc.J5) + (M_PI_180 * 0.091) * Real.sin (pc.J6))
            let J2000NPoleDE := J2000NPoleDE + ((M_PI_180 * (-0.016)) * Real.cos (pc.J4)
              + (M_PI_180 * 0.186) * Real.cos (pc.J5) + (M_PI_180 * 0.039) * Real.cos (pc.J6))
            some ⟨J2000NPoleRA, J2000NPoleDE, retransform⟩
          else if body.englishName = "Callisto" then
            let J2000NPoleRA := J2000NPoleRA + ((M_PI_180 * (-0.068)) * Real.sin (pc.J5)
              + (M_PI_180 * 0.590) * Real.sin (pc.J6) + (M_PI_180 * 0.010) * Real.sin (pc.J8))
            let J2000NPoleDE := J2000NPoleDE + ((M_PI_180 * (-0.029)) * Real.cos (pc.J5)
              + (M_PI_180 * 0.254) * Real.cos (pc.J6) - (M_PI_180 * 0.004) * Real.cos (pc.J8))
            some ⟨J2000NPoleRA, J2000NPoleDE, retransform⟩
          else if body.englishName = "Amalthea" then
            let J2000NPoleRA := J2000NPoleRA + ((M_PI_180 * 0.01) * Real.sin (2.0 * pc.J1)
              - (M_PI_180 * 0.84) * Real.sin (pc.J1))
            let J2000NPoleDE := J2000NPoleDE - ((M_PI_180 * 0.36) * Real.cos (pc.J1))
            some ⟨J2000NPoleRA, J2000NPoleDE, retransform⟩
          else if body.englishName = "Thebe" then
            let J2000NPoleRA := J2000NPoleRA + ((M_PI_180 * (-2.11)) * Real.sin (pc.J2)
              - (M_PI_180 * 0.04) * Real.sin (2.0 * pc.J2))
            let J2000NPoleDE := J2000NPoleDE + ((M_PI_180 * (-0.91)) * Real.cos (pc.J2)
              + (M_PI_180 * 0.01) * Real.cos (2.0 * pc.J2))
            some ⟨J2000NPoleRA, J2000NPoleDE, retransform⟩
          else some ⟨J2000NPoleRA, J2000NPoleDE, retransform⟩
        else if par.englishName = "Saturn" then
          if body.englishName = "Mimas" then
            let J2000NPoleRA := J2000NPoleRA + ((M_PI_180 * 13.56) * Real.sin (pc.S3))
            let J2000NPoleDE := J2000NPoleDE + ((M_PI_180 * (-1.53)) * Real.cos (pc.S3))
            some ⟨J2000NPoleRA, J2000NPoleDE, retransform⟩
          else if body.englishName = "Tethys" then
            let J2000NPoleRA := J2000NPoleRA + ((M_PI_180 * 9.66) * Real.sin (pc.S4))
            let J2000NPoleDE := J2000NPoleDE + ((M_PI_180 * (-1.09)) * Real.cos (pc.S4))
            some ⟨J2000NPoleRA, J2000NPoleDE, retransform⟩
          else if body.englishName = "Rhea" then
            let J2000NPoleRA := J2000NPoleRA + ((Real.pi / 180.0 * 3.10) * Real.sin (pc.S6))
            let J2000NPoleDE := J2000NPoleDE + ((Real.pi / 180.0 * (-0.35)) * Real.cos (pc.S6))
            some ⟨J2000NPoleRA, J2000NPoleDE, retransform⟩
          else if body.englishName = "Janus" then
            let J2000NPoleRA := J2000NPoleRA + ((M_PI_180 * 0.023) * Real.sin (2.0 * pc.S2)
              - (M_PI_180 * 1.623) * Real.sin (pc.S2))
            let J2000NPoleDE := J2000NPoleDE + ((M_PI_180 * 0.001) * Real.cos (2.0 * pc.S2)
              - (M_PI_180 * 0.183) * Real.cos (pc.S2))
            some ⟨J2000NPoleRA, J2000NPoleDE, retransform⟩
          else if body.englishName = "Epimetheus" then
            let J2000NPoleRA := J2000NPoleRA + ((M_PI_180 * 0.086) * Real.sin (2.0 * pc.S1)
              - (M_PI_180 * 3.153) * Real.sin (pc.S1))
            let J2000NPoleDE := J2000NPoleDE + ((M_PI_180 * 0.005) * Real.cos (2.0 * pc.S1)
              - (M_PI_180 * 0.356) * Real.cos (pc.S1))
            some ⟨J2000NPoleRA, J2000NPoleDE, retransform⟩
          else some ⟨J2000NPoleRA, J2000NPoleDE, retransform⟩
        else if par.englishName = "Uranus" then
          if body.englishName = "Ariel" then
            let J2000NPoleRA := J2000NPoleRA + ((M_PI_180 * 0.29) * Real.sin (pc.U13))
            let J2000NPoleDE := J2000NPoleDE + ((M_PI_180 * 0.28) * Real.cos (pc.U13))
            let retransform := true
            some ⟨J2000NPoleRA, J2000NPoleDE, retransform⟩
          else if body.englishName = "Umbriel" then
            let J2000NPoleRA := J2000NPoleRA + ((M_PI_180 * 0.21) * Real.sin (pc.U14))
            let J2000NPoleDE := J2000NPoleDE + ((M_PI_180 * 0.20) * Real.cos (pc.U14))
            let retransform := true
            some ⟨J2000NPoleRA, J2000NPoleDE, retransform⟩
          else if body.englishName = "Titania" then
            let J2000NPoleRA := J2000NPoleRA + ((M_PI_180 * 0.29) * Real.sin (pc.U15))
            let J2000NPoleDE := J2000NPoleDE + ((M_PI_180 * 0.28) * Real.cos (pc.U15))
            let retransform := true
            some ⟨J2000NPoleRA, J2000NPoleDE, retransform⟩
          else if body.englishName = "Oberon" then
            let J2000NPoleRA := J2000NPoleRA + ((M_PI_180 * 0.16) * Real.sin (pc.U16))
            let J2000NPoleDE := J2000NPoleDE + ((M_PI_180 * 0.16) * Real.cos (pc.U16))
            let retransform := true
            some ⟨J2000NPoleRA, J2000NPoleDE, retransform⟩
          else if body.englishName = "Miranda" then
            let J2000NPoleRA := J2000NPoleRA + ((M_PI_180 * 4.41) * Real.sin (pc.U11)
              - (M_PI_180 * 0.04) * Real.sin (2.0 * pc.U11))
            let J2000NPoleDE := J2000NPoleDE + ((M_PI_180 * 4.25) * Real.cos (pc.U11)
              - (M_PI_180 * 0.02) * Real.cos (2.0 * pc.U11))
            let retransform := true
            some ⟨J2000NPoleRA, J2000NPoleDE, retransform⟩
          else if body.englishName = "Cordelia" then
            let J2000NPoleRA := J2000NPoleRA + ((M_PI_180 * (-0.15)) * Real.sin (pc.U1))
            let J2000NPoleDE := J2000NPoleDE + ((M_PI_180 * 0.14) * Real.cos (pc.U1))
            let retransform := true
            some ⟨J2000NPoleRA, J2000NPoleDE, retransform⟩
          else if body.englishName = "Ophelia" then
            let J2000NPoleRA := J2000NPoleRA + ((M_PI_180 * (-0.09)) * Real.sin (pc.U2))
            let J2000NPoleDE := J2000NPoleDE + ((M_PI_180 * 0.09) * Real.cos (pc.U2))
            let retransform := true
            some ⟨J2000NPoleRA, J2000NPoleDE, retransform⟩
          else if body.englishName = "Cressida" then
            let J2000NPoleRA := J2000NPoleRA + ((M_PI_180 * (-0.04)) * Real.sin (pc.U4))
            let J2000NPoleDE := J2000NPoleDE + ((M_PI_180 * 0.04) * Real.cos (pc.U4))
            let retransform := true
            some ⟨J2000NPoleRA, J2000NPoleDE, retransform⟩
          else if body.englishName = "Desdemona" then
            let J2000NPoleRA := J2000NPoleRA + ((M_PI_180 * (-0.17)) * Real.sin (pc.U5))
            let J2000NPoleDE := J2000NPoleDE + ((M_PI_180 * 0.16) * Real.cos (pc.U5))
            let retransform := true
            some ⟨J2000NPoleRA, J2000NPoleDE, retransform⟩
          else if body.englishName = "Juliet" then
            let J2000NPoleRA := J2000NPoleRA + ((M_PI_180 * (-0.06)) * Real.sin (pc.U6))
            let J2000NPoleDE := J2000NPoleDE + ((M_PI_180 * 0.06) * Real.cos (pc.U6))
            let retransform := true
            some ⟨J2000NPoleRA, J2000NPoleDE, retransform⟩
          else some ⟨J2000NPoleRA, J2000NPoleDE, retransform⟩
        else if par.englishName = "Neptune" then
          if body.englishName = "Triton" then
            let J2000NPoleRA := J2000NPoleRA + ((M_PI_180 * (-32.35)) * Real.sin (pc.N7)
              - (M_PI_180 * 6.28) * Real.sin (2.0 * pc.N7)
              - (M_PI_180 * 2.08) * Real.sin (3.0 * pc.N7)
              - (M_PI_180 * 0.74) * Real.sin (4.0 * pc.N7)
              - (M_PI_180 * 0.28) * Real.sin (5.0 * pc.N7)
              - (M_PI_180 * 0.11) * Real.sin (6.0 * pc.N7)
              - (M_PI_180 * 0.07) * Real.sin (7.0 * pc.N7)
              - (M_PI_180 * 0.02) * Real.sin (8.0 * pc.N7)
              - (M_PI_180 * 0.01) * Real.sin (9.0 * pc.N7))
            let J2000NPoleDE := J2000NPoleDE + ((M_PI_180 * 22.55) * Real.cos (pc.N7)
              + (M_PI_180 * 2.10) * Real.cos (2.0 * pc.N7)
              + (M_PI_180 * 0.55) * Real.cos (3.0 * pc.N7)
              + (M_PI_180 * 0.16) * Real.cos (4.0 * pc.N7)
              + (M_PI_180 * 0.05) * Real.cos (5.0 * pc.N7)
              + (M_PI_180 * 0.02) * Real.cos (6.0 * pc.N7)
              + (M_PI_180 * 0.01) * Real.cos (7.0 * pc.N7))
            let retransform := true
            some ⟨J2000NPoleRA, J2000NPoleDE, retransform⟩
          else if body.englishName = "Naiad" then
            let J2000NPoleRA := J2000NPoleRA + ((M_PI_180 * 0.70) * Real.sin (pc.Na)
              - (M_PI_180 * 6.49) * Real.sin (pc.N1) + (M_PI_180 * 0.25) * Real.sin (2.0 * pc.N1))
            let J2000NPoleDE := J2000NPoleDE + ((M_PI_180 * (-0.51)) * Real.cos (pc.Na)
              - (M_PI_180 * 4.75) * Real.cos (pc.N1) + (M_PI_180 * 0.09) * Real.cos (2.0 * pc.N1))
            let retransform := true
            some ⟨J2000NPoleRA, J2000NPoleDE, retransform⟩
          else if body.englishName = "Thalassa" then
            let J2000NPoleRA := J2000NPoleRA + ((M_PI_180 * 0.70) * Real.sin (pc.Na)
              - (M_PI_180 * 0.28) * Real.sin (pc.N2))
            let J2000NPoleDE := J2000NPoleDE + ((M_PI_180 * (-0.51)) * Real.cos (pc.Na)
              - (M_PI_180 * 0.21) * Real.cos (pc.N2))
            let retransform := true
            some ⟨J2000NPoleRA, J2000NPoleDE, retransform⟩
          else if body.englishName = "Despina" then
            let J2000NPoleRA := J2000NPoleRA + ((M_PI_180 * 0.70) * Real.sin (pc.Na)
              - (M_PI_180 * 0.09) * Real.sin (pc.N3))
            let J2000NPoleDE := J2000NPoleDE + ((M_PI_180 * (-0.51)) * Real.cos (pc.Na)
              - (M_PI_180 * 0.07) * Real.cos (pc.N3))
            let retransform := true
            some ⟨J2000NPoleRA, J2000NPoleDE, retransform⟩
          else if body.englishName = "Galatea" then
            let J2000NPoleRA := J2000NPoleRA + ((M_PI_180 * 0.70) * Real.sin (pc.Na)
              - (M_PI_180 * 0.07) * Real.sin (pc.N4))
            let J2000NPoleDE := J2000NPoleDE + ((M_PI_180 * (-0.51)) * Real.cos (pc.Na)
              - (M_PI_180 * 0.05) * Real.cos (pc.N4))
            let retransform := true
            some ⟨J2000NPoleRA, J2000NPoleDE, retransform⟩
          else if body.englishName = "Larissa" then
            let J2000NPoleRA := J2000NPoleRA + ((M_PI_180 * 0.70) * Real.sin (pc.Na)
              - (M_PI_180 * 0.27) * Real.sin (pc.N5))
            let J2000NPoleDE := J2000NPoleDE + ((M_PI_180 * (-0.51)) * Real.cos (pc.Na)
              - (M_PI_180 * 0.20) * Real.cos (pc.N5))
            let retransform := true
            some ⟨J2000NPoleRA, J2000NPoleDE, retransform⟩
          else if body.englishName = "Proteus" then
            let J2000NPoleRA := J2000NPoleRA + ((M_PI_180 * 0.70) * Real.sin (pc.Na)
              - (M_PI_180 * 0.05) * Real.sin (pc.N6))
            let J2000NPoleDE := J2000NPoleDE + ((M_PI_180 * (-0.51)) * Real.cos (pc.Na)
              - (M_PI_180 * 0.04) * Real.cos (pc.N6))
            let retransform := true
            some ⟨J2000NPoleRA, J2000NPoleDE, retransform⟩
          else some ⟨J2000NPoleRA, J2000NPoleDE, retransform⟩
        else some ⟨J2000NPoleRA, J2000NPoleDE, retransform⟩
  else some ⟨J2000NPoleRA, J2000NPoleDE, retransform⟩

/-- Source function `Planet::computeTransMatrix(double JD, double JDE)` called on the body at
index `this`: the list of bodies afterwards, in which the body has a new `axisRotation`,
`rotLocalToParent` and, when the pole was retransformed, new `re.currentAxisRA`,
`re.currentAxisDE`, `re.obliquity` and `re.ascendingNode`.  The result is `none` when a null
or dangling pointer is dereferenced, or when the parent loop of
`setRotEquatorialToVsop87` runs out of fuel. -/
noncomputable def computeTransMatrix (ctx : TransMatrixContext) (bodies : List (PlanetRot ℝ))
    (fuel : Nat) (this : Nat) (JD JDE : ℝ) : Option (List (PlanetRot ℝ)) :=
  match derefRot bodies this with
  | none => none
  | some body =>
    match getSiderealTime ctx.sidereal bodies body JD JDE with
    | none => none
    | some siderealTime =>
      let body := { body with axisRotation := siderealTime }
      if body.englishName = "Sun" then
        some (bodies.set this { body with
          rotLocalToParent :=
            Mat4d.zrotation body.re.ascendingNode * Mat4d.xrotation body.re.obliquity })
      else
        match body.parent with
        | none => some (bodies.set this body)
        | some parent =>
          if body.englishName = "Earth" then
            let angles := ctx.getPrecessionAnglesVondrak JDE
            let eps_A := angles.1
            let chi_A := angles.2.1
            let omega_A := angles.2.2.1
            let psi_A := angles.2.2.2
            let rotLocalToParent :=
              Mat4d.zrotation (-psi_A) * Mat4d.xrotation (-omega_A) * Mat4d.zrotation chi_A
            if ctx.sidereal.getUseNutation then
              let deltaPsi := (ctx.getNutationAngles JDE).1
              let deltaEps := (ctx.getNutationAngles JDE).2
              let nut2000B := Mat4d.xrotation eps_A * Mat4d.zrotation deltaPsi
                * Mat4d.xrotation (-eps_A - deltaEps)
              some (bodies.set this { body with
                rotLocalToParent := rotLocalToParent * nut2000B })
            else some (bodies.set this { body with rotLocalToParent := rotLocalToParent })
          else
            match poleOfDate ctx bodies body parent JDE with
            | none => none
            | some pole =>
              let lonLat := rectToSphe
                (ctx.matJ2000ToVsop87.multiplyWithoutTranslation
                  (spheToRect pole.J2000NPoleRA pole.J2000NPoleDE))
              let lon := lonLat.1
              let lat := lonLat.2
              let re_obliquity :=
                if pole.retransform then M_PI_2 - lat else body.re.obliquity
              let re_ascendingNode :=
                if pole.retransform then lon + M_PI_2 else body.re.ascendingNode
              let body :=
                if pole.retransform then
                  { body with re := { body.re with
                      currentAxisRA := pole.J2000NPoleRA
                      currentAxisDE := pole.J2000NPoleDE
                      obliquity := re_obliquity
                      ascendingNode := re_ascendingNode } }
                else body
              match body.re.method with
              | ComputationMethod.WGCCRE =>
                setRotEquatorialToVsop87 (bodies.set this body) fuel this
                  (Mat4d.zrotation re_ascendingNode * Mat4d.xrotation re_obliquity)
              | ComputationMethod.Traditional =>
                some (bodies.set this { body with
                  rotLocalToParent :=
                    Mat4d.zrotation re_ascendingNode * Mat4d.xrotation re_obliquity })

/-! ## Orbit sampling (`Planet::computeOrbit`, `Planet::setRotationElements`) -/

/-- What `Planet::setRotationElements` leaves behind: the rotation elements `re` and the
members `closeOrbit` and `deltaOrbitJDE` of the body. -/
structure RotationSetup (α : Type) where
  re : RotationElements α
  closeOrbit : Bool
  deltaOrbitJDE : α

/-- Source function `Planet::setRotationElements(_period, ..., _siderealPeriod)` called on a
body with the members `orbitPtr`, `pType` and `closeOrbit`.  The constant `ORBIT_SEGMENTS`
of `Planet.hpp` and the function `KeplerOrbit::calculateSiderealPeriod` of `Orbit.cpp` are
parameters. -/
def setRotationElements {α : Type} [LinearOrderedField α] (ORBIT_SEGMENTS : Nat)
    (calculateSiderealPeriod : α → α) (orbitPtr : Option (KeplerOrbit α)) (pType : PlanetType)
    (closeOrbit : Bool)
    (_period _offset _epoch _obliquity _ascendingNode _ra0 _ra1 _de0 _de1 _w0 _w1
      _siderealPeriod : α) : RotationSetup α :=
  let re : RotationElements α :=
    { period := _period, offset := _offset, epoch := _epoch, obliquity := _obliquity,
      ascendingNode := _ascendingNode, ra0 := _ra0, ra1 := _ra1, de0 := _de0, de1 := _de1,
      W0 := _w0, W1 := _w1, currentAxisRA := 0, currentAxisDE := 0,
      method := rotationMethodOf _w0, siderealPeriod := _siderealPeriod }
  let updated : RotationElements α × Bool :=
    match orbitPtr with
    | some orbit =>
      if pType.val ≥ PlanetType.isArtificial.val then
        let semiMajorAxis := orbit.getSemimajorAxis
        let eccentricity := orbit.e
        if semiMajorAxis > 0 ∧ eccentricity < 0.9 then
          ({ re with siderealPeriod := calculateSiderealPeriod semiMajorAxis }, true)
        else (re, false)
      else (re, closeOrbit)
    | none => (re, closeOrbit)
  { re := updated.1, closeOrbit := updated.2,
    deltaOrbitJDE := updated.1.siderealPeriod / (ORBIT_SEGMENTS : α) }

/-- C library function `nearbyint(x)` in the default rounding mode: the nearest integer,
ties to the even one. -/
def nearbyint {α : Type} [LinearOrderedField α] [FloorRing α] (x : α) : α :=
  (roundTiesEven x : α)

/-- The loop `while (pp->parent.data()) { pos += pp->getEclipticPos(dateJDE);
pp = pp->parent.data(); }` of `Planet::getHeliocentricEclipticPos(double dateJDE)`, started
at `pp` with accumulator `pos`; `coordFunc i` is the callback of the body at index `i`.  The
result is the sum and the bodies afterwards (their caches are mutated). -/
def getHeliocentricEclipticPosLoop {α : Type} [DecidableEq α] [Add α]
    (fuzzyEquals : α → α → Bool) (coordFunc : Nat → α → Vec3d α × Vec3d α) (dateJDE : α) :
    Nat → List (Planet α) → Nat → Vec3d α → Option (Vec3d α × List (Planet α))
  | 0, _, _, _ => none
  | fuel + 1, bodies, pp, pos =>
    match deref bodies pp with
    | none => none
    | some body =>
      match body.parent with
      | none => some (pos, bodies)
      | some next =>
        match (getEclipticPos fuzzyEquals (coordFunc pp) body dateJDE).1 with
        | none => none
        | some q =>
          getHeliocentricEclipticPosLoop fuzzyEquals coordFunc dateJDE fuel
            (bodies.set pp (getEclipticPos fuzzyEquals (coordFunc pp) body dateJDE).2.1) next
            (pos + q)

/-- Source function `Planet::getHeliocentricEclipticPos(double dateJDE)` called on the body
at index `this`: the position and the bodies afterwards.  The result is `none` when a
dangling pointer or a deleted cache object is dereferenced, or the fuel runs out. -/
def getHeliocentricEclipticPos {α : Type} [DecidableEq α] [Add α]
    (fuzzyEquals : α → α → Bool) (coordFunc : Nat → α → Vec3d α × Vec3d α)
    (bodies : List (Planet α)) (fuel : Nat) (this : Nat) (dateJDE : α) :
    Option (Vec3d α × List (Planet α)) :=
  match deref bodies this with
  | none => none
  | some body =>
    match (getEclipticPos fuzzyEquals (coordFunc this) body dateJDE).1 with
    | none => none
    | some pos =>
      match body.parent with
      | none =>
        some (pos,
          bodies.set this (getEclipticPos fuzzyEquals (coordFunc this) body dateJDE).2.1)
      | some pp =>
        getHeliocentricEclipticPosLoop fuzzyEquals coordFunc dateJDE fuel
          (bodies.set this (getEclipticPos fuzzyEquals (coordFunc this) body dateJDE).2.1) pp
          pos

/-- The value of `calc_date` in iteration `d` of the loop of `Planet::computeOrbit`, at the
call of `getEclipticPos`. -/
def orbitSampleDate {α : Type} [LinearOrderedField α] [FloorRing α] (ORBIT_SEGMENTS : Nat)
    (deltaOrbitJDE dateJDE : α) (d : Nat) : α :=
  let calc_date :=
    dateJDE + (((d : ℤ) - ((ORBIT_SEGMENTS / 2 : Nat) : ℤ) : ℤ) : α) * deltaOrbitJDE
  if d ≠ ORBIT_SEGMENTS / 2 then nearbyint (calc_date / deltaOrbitJDE) * deltaOrbitJDE
  else calc_date

/-- The loop `for(int d = 0; d < ORBIT_SEGMENTS; d++)` of `Planet::computeOrbit` over the
remaining values of `d`: the points `orbit[d]` written, the body afterwards, and for every
iteration the date `calc_date` with the position that `getEclipticPos` returned for it. -/
def computeOrbitLoop {α : Type} [LinearOrderedField α] [FloorRing α]
    (fuzzyEquals : α → α → Bool) (coordFunc : α → Vec3d α × Vec3d α) (ORBIT_SEGMENTS : Nat)
    (deltaOrbitJDE dateJDE : α) (parentPos : Vec3d α) :
    List Nat → Planet α → Option (List (Vec3d α) × Planet α × List (α × Vec3d α))
  | [], body => some ([], body, [])
  | d :: rest, body =>
    let calc_date := orbitSampleDate ORBIT_SEGMENTS deltaOrbitJDE dateJDE d
    match (getEclipticPos fuzzyEquals coordFunc body calc_date).1 with
    | none => none
    | some pos =>
      match computeOrbitLoop fuzzyEquals coordFunc ORBIT_SEGMENTS deltaOrbitJDE dateJDE
          parentPos rest (getEclipticPos fuzzyEquals coordFunc body calc_date).2.1 with
      | none => none
      | some r => some ((pos + parentPos) :: r.1, r.2.1, (calc_date, pos) :: r.2.2)

/-- The result of `Planet::computeOrbit`: the array `orbit`, the bodies afterwards, and for
every iteration the date `calc_date` with the position that `getEclipticPos` returned. -/
structure OrbitSamples (α : Type) where
  orbit : List (Vec3d α)
  bodies : List (Planet α)
  samples : List (α × Vec3d α)

/-- Source function `Planet::computeOrbit()` called on the body at index `this`, whose member
`deltaOrbitJDE` is given.  The argument `uninitialised` is the value of the local
`Vec3d parentPos` that is not assigned when the body has no parent.  The result is `none`
when a dangling pointer or a deleted cache object is dereferenced, or the fuel runs out. -/
def computeOrbit {α : Type} [LinearOrderedField α] [FloorRing α]
    (fuzzyEquals : α → α → Bool) (coordFunc : Nat → α → Vec3d α × Vec3d α)
    (ORBIT_SEGMENTS : Nat) (uninitialised : Vec3d α) (bodies : List (Planet α)) (fuel : Nat)
    (this : Nat) (deltaOrbitJDE : α) : Option (OrbitSamples α) :=
  match deref bodies this with
  | none => none
  | some body =>
    let dateJDE := body.lastJDE
    let parentResult :=
      match body.parent with
      | none => some (uninitialised, bodies)
      | some parent =>
        getHeliocentricEclipticPos fuzzyEquals coordFunc bodies fuel parent dateJDE
    match parentResult with
    | none => none
    | some parentResult =>
      match deref parentResult.2 this with
      | none => none
      | some body2 =>
        match computeOrbitLoop fuzzyEquals (coordFunc this) ORBIT_SEGMENTS deltaOrbitJDE
            dateJDE parentResult.1 (List.range ORBIT_SEGMENTS) body2 with
        | none => none
        | some r =>
          some { orbit := r.1, bodies := parentResult.2.set this r.2.1, samples := r.2.2 }

/-- The members of a body that `getEclipticPos` does not write: the `parent` pointer,
`lastJDE` and the capacity of the position cache. -/
def Planet.frame {α : Type} (b : Planet α) : Option Nat × α × Nat :=
  (b.parent, b.lastJDE, b.positionsCache.mx)

/-! ## Concrete data for the worked examples -/

/-- The Sun of the example system: no parent, one satellite (index 1). -/
def exampleSun : Planet ℤ :=
  { eclipticPos := ⟨100, 100, 100⟩, eclipticVelocity := ⟨0, 0, 0⟩, lastJDE := 0, deltaJDE := 0,
    parent := none, satellites := [1], positionsCache := positionsCacheInit ℤ 360 }

/-- A planet of the example system: parent is the Sun (index 0), one satellite (index 2). -/
def examplePlanet : Planet ℤ :=
  { eclipticPos := ⟨10, 20, 30⟩, eclipticVelocity := ⟨0, 0, 0⟩, lastJDE := 0, deltaJDE := 0,
    parent := some 0, satellites := [2], positionsCache := positionsCacheInit ℤ 360 }

/-- A moon of the example system: parent is the planet (index 1), no satellites. -/
def exampleMoon : Planet ℤ :=
  { eclipticPos := ⟨1, 2, 3⟩, eclipticVelocity := ⟨0, 0, 0⟩, lastJDE := 0, deltaJDE := 0,
    parent := some 1, satellites := [], positionsCache := positionsCacheInit ℤ 360 }

/-- A three-level system `Sun -> Planet -> Moon` over `ℤ`: index 0 is the Sun. -/
def exampleSystem : List (Planet ℤ) := [exampleSun, examplePlanet, exampleMoon]

/-- An orbit function for the examples: uniform motion along a line. -/
def exampleCoordFunc : ℤ → Vec3d ℤ × Vec3d ℤ := fun t => (⟨t, 2 * t, 3 * t⟩, ⟨1, 2, 3⟩)

/-- Exact comparison, standing in for `fuzzyEquals` in the examples. -/
def exampleFuzzyEquals : ℤ → ℤ → Bool := fun a b => decide (a = b)

/-- A shadow test for the examples that always answers yes. -/
def exampleWillCastShadow : Nat → Nat → Bool := fun _ _ => true

/-- A correction table with every entry zero. -/
def exampleCorrections : PlanetCorrections ℝ :=
  { JDE_E := 0, JDE_J := 0, JDE_S := 0, JDE_U := 0, JDE_N := 0, E1 := 0, E2 := 0, E3 := 0,
    E4 := 0, E5 := 0, E6 := 0, E7 := 0, E8 := 0, E9 := 0, E10 := 0, E11 := 0, E12 := 0, E13 := 0,
    Ja1 := 0, Ja2 := 0, Ja3 := 0, Ja4 := 0, Ja5 := 0, J1 := 0, J2 := 0, J3 := 0, J4 := 0,
    J5 := 0, J6 := 0, J7 := 0, J8 := 0, S1 := 0, S2 := 0, S3 := 0, S4 := 0, S5 := 0, S6 := 0,
    U1 := 0, U2 := 0, U4 := 0, U5 := 0, U6 := 0, U11 := 0, U12 := 0, U13 := 0, U14 := 0,
    U15 := 0, U16 := 0, Na := 0, N1 := 0, N2 := 0, N3 := 0, N4 := 0, N5 := 0, N6 := 0, N7 := 0 }

/-- A context for `getSiderealTime` in the examples: nutation off, constant sidereal-time
functions, the zero table, default Great-Red-Spot settings. -/
def exampleSiderealTimeContext : SiderealTimeContext :=
  { getUseNutation := false
    get_apparent_sidereal_time := fun _ _ => 0
    get_mean_sidereal_time := fun _ _ => 0
    planetCorrections := exampleCorrections
    flagCustomGrsSettings := false
    customGrsLongitude := 216
    customGrsDrift := 15
    customGrsJD := 2456901.5
    AU := 149597870.691
    SPEED_OF_LIGHT := 299792.458 }

/-- Rotation elements for the examples: every element zero except those given. -/
noncomputable def exampleElements (period offset W0 W1 : ℝ) : RotationElements ℝ :=
  { period := period, offset := offset, epoch := 2451545, obliquity := 0, ascendingNode := 0,
    ra0 := 0, ra1 := 0, de0 := 0, de1 := 0, W0 := W0, W1 := W1,
    method := rotationMethodOf W0, siderealPeriod := 0, currentAxisRA := 0,
    currentAxisDE := 0 }

/-- The Sun with the prime-meridian elements `W0 = 84.176`, `W1 = 14.1844`: no parent, and
the rotation model that `setRotationElements` selects for a non-zero `W0`. -/
noncomputable def exampleSunRot : PlanetRot ℝ :=
  { englishName := "Sun", pType := PlanetType.isStar, parent := none,
    re := exampleElements 609.12 0 84.176 14.1844, rotLocalToParent := 1,
    axisRotation := 0 }

/-- Saturn in the Traditional model, child of index 0. -/
noncomputable def exampleSaturnRot : PlanetRot ℝ :=
  { englishName := "Saturn", pType := PlanetType.isPlanet, parent := some 0,
    re := exampleElements 10.233 358.93 0 0, rotLocalToParent := 1,
    axisRotation := 0 }

/-- Hyperion, a chaotic rotator: Traditional model with period 0, child of index 1. -/
noncomputable def exampleHyperionRot : PlanetRot ℝ :=
  { englishName := "Hyperion", pType := PlanetType.isMoon, parent := some 1,
    re := exampleElements 0 12 0 0, rotLocalToParent := 1,
    axisRotation := 0 }

/-- Venus in the IAU model (`W0 = 160.20`), child of index 0. -/
noncomputable def exampleVenusRot : PlanetRot ℝ :=
  { englishName := "Venus", pType := PlanetType.isPlanet, parent := some 0,
    re := exampleElements 0 0 160.20 (-1.4813688), rotLocalToParent := 1,
    axisRotation := 0 }

/-- A system for the rotation examples: Sun, Saturn, Hyperion, Venus. -/
noncomputable def exampleRotSystem : List (PlanetRot ℝ) :=
  [exampleSunRot, exampleSaturnRot, exampleHyperionRot, exampleVenusRot]

/-- Neptune in the IAU model, child of index 0. -/
noncomputable def exampleNeptuneRot : PlanetRot ℝ :=
  { englishName := "Neptune", pType := PlanetType.isPlanet, parent := some 0,
    re := exampleElements 0 0 253.18 536.3128492, rotLocalToParent := 1,
    axisRotation := 0 }

/-- Triton in the IAU model, child of index 1. -/
noncomputable def exampleTritonRot : PlanetRot ℝ :=
  { englishName := "Triton", pType := PlanetType.isMoon, parent := some 1,
    re := exampleElements 0 0 296.53 (-61.2572637), rotLocalToParent := 1,
    axisRotation := 0 }

/-- A system for the Neptune examples: Sun, Neptune, Triton. -/
noncomputable def exampleNeptuneSystem : List (PlanetRot ℝ) :=
  [exampleSunRot, exampleNeptuneRot, exampleTritonRot]

/-- The example context with the angle `U12` of the Uranus group set to `π/2`; every other
entry of the table, the whole Neptune group included, is as in
`exampleSiderealTimeContext`. -/
noncomputable def exampleUranusShiftedContext : SiderealTimeContext :=
  { exampleSiderealTimeContext with
    planetCorrections := { exampleCorrections with U12 := Real.pi / 2 } }

/-- The Sun seen through its photometric fields. -/
noncomputable def exampleSunPhot : PlanetPhot ℝ :=
  { englishName := "Sun", pType := PlanetType.isStar, parent := none,
    absoluteMagnitude := 4.83, albedo := 1, equatorialRadius := 0.00465, orbitPtr := none }

/-- A near-Earth asteroid of the Aten class: semimajor axis `q/(1-e) = 0.45/0.5 = 0.9` AU,
absolute magnitude 19.7, child of the Sun (index 0). -/
noncomputable def exampleAtenPhot : PlanetPhot ℝ :=
  { englishName := "Apophis", pType := PlanetType.isAsteroid, parent := some 0,
    absoluteMagnitude := 19.7, albedo := 0.23, equatorialRadius := 0.0000000012,
    orbitPtr := some (KeplerOrbit.mk 0.45 0.5 0 0 0 2451545 0 0) }

/-- A system for the photometric examples: the Sun and the asteroid. -/
noncomputable def exampleAtenSystem : List (PlanetPhot ℝ) := [exampleSunPhot, exampleAtenPhot]

/-- The Sun of the Jovian example, equatorial radius `0.004501239552` AU. -/
noncomputable def exampleJovianSunPhot : PlanetPhot ℝ :=
  { englishName := "Sun", pType := PlanetType.isStar, parent := none,
    absoluteMagnitude := 4.83, albedo := 1, equatorialRadius := 0.004501239552,
    orbitPtr := none }

/-- Jupiter of the Jovian example, equatorial radius `0.000502039552` AU, child of index 0. -/
noncomputable def exampleJupiterPhot : PlanetPhot ℝ :=
  { englishName := "Jupiter", pType := PlanetType.isPlanet, parent := some 0,
    absoluteMagnitude := -9.4, albedo := 0.51, equatorialRadius := 0.000502039552,
    orbitPtr := none }

/-- Io of the Jovian example, equatorial radius `0.0000122` AU, child of index 1. -/
noncomputable def exampleIoPhot : PlanetPhot ℝ :=
  { englishName := "Io", pType := PlanetType.isMoon, parent := some 1,
    absoluteMagnitude := -1.68, albedo := 0.63, equatorialRadius := 0.0000122,
    orbitPtr := none }

/-- The Jovian example: Sun, Jupiter, Io. -/
noncomputable def exampleJovianSystem : List (PlanetPhot ℝ) :=
  [exampleJovianSunPhot, exampleJupiterPhot, exampleIoPhot]

/-- Heliocentric position of Jupiter in the Jovian example, 5 AU from the Sun. -/
noncomputable def exampleJupiterPos : Vec3d ℝ := ⟨5, 0, 0⟩

/-- Heliocentric position of Io in the Jovian example: `0.0028` AU behind Jupiter and
`0.0005` AU off the Sun-Jupiter axis, its centre on the border of the inner shadow. -/
noncomputable def exampleIoPos : Vec3d ℝ := ⟨5.0028, 0.0005, 0⟩

/-- An observer on Earth at 1 AU with the `ExplanatorySupplement_2013` algorithm. -/
noncomputable def exampleEarthContext : VMagnitudeContext :=
  { observerHelioPos := ⟨1, 0, 0⟩, eclipseFactor := 1, locationPlanetName := "Earth",
    algorithm := ApparentMagnitudeAlgorithm.ExplanatorySupplement_2013, JDE := 2451545,
    earthHelioPos := ⟨1, 0, 0⟩, AU := 149597870.691, PARSEC := 30856775814671.9,
    fuzzyEquals := fun a b => decide (a = b) }

/-- A context for `computeTransMatrix` in the examples: the example context of
`getSiderealTime` (zero table, nutation off), zero precession and nutation angles, and the
identity for `matJ2000ToVsop87`. -/
noncomputable def exampleTransMatrixContext : TransMatrixContext :=
  { sidereal := exampleSiderealTimeContext
    getPrecessionAnglesVondrak := fun _ => (0, 0, 0, 0)
    getNutationAngles := fun _ => (0, 0)
    matJ2000ToVsop87 := 1 }

/-- Neptune in the IAU model with the pole `ra0 = 299.36°`, `de0 = 43.46°` and no linear
drift (`ra1 = de1 = 0`), child of index 0. -/
noncomputable def exampleNeptunePoleRot : PlanetRot ℝ :=
  { exampleNeptuneRot with
    re := { exampleNeptuneRot.re with ra0 := 299.36 * M_PI_180, de0 := 43.46 * M_PI_180 } }

/-- The Sun and Neptune with its pole. -/
noncomputable def exampleNeptunePoleSystem : List (PlanetRot ℝ) :=
  [exampleSunRot, exampleNeptunePoleRot]

/-- Hyperion in the Traditional model (`W0 = 0`) with a drifting pole, `ra1 = 0.01`, child
of index 1. -/
noncomputable def exampleDriftingRot : PlanetRot ℝ :=
  { exampleHyperionRot with re := { exampleHyperionRot.re with ra1 := 0.01 } }

/-- The Sun, Saturn and Hyperion with the drifting pole. -/
noncomputable def exampleDriftingSystem : List (PlanetRot ℝ) :=
  [exampleSunRot, exampleSaturnRot, exampleDriftingRot]

/-- A body for the orbit examples over `ℚ`: at rest at `pos`, last computed at `JDE = 10`,
with the position cache of `ORBIT_SEGMENTS = 4`. -/
def exampleOrbitBody (pos : Vec3d ℚ) (parent : Option Nat) : Planet ℚ :=
  { eclipticPos := pos, eclipticVelocity := ⟨0, 0, 0⟩, lastJDE := 10, deltaJDE := 0,
    parent := parent, satellites := [], positionsCache := positionsCacheInit ℚ 4 }

/-- A three-level system `Sun -> Planet -> Moon` over `ℚ`: index 0 is the Sun. -/
def exampleOrbitSystem : List (Planet ℚ) :=
  [exampleOrbitBody ⟨0, 0, 0⟩ none, exampleOrbitBody ⟨10, 20, 30⟩ (some 0),
    exampleOrbitBody ⟨1, 2, 3⟩ (some 1)]

/-- Orbit functions for the orbit examples: body `i` moves uniformly along a line. -/
def exampleOrbitCoordFunc : Nat → ℚ → Vec3d ℚ × Vec3d ℚ :=
  fun i t => (⟨t, (i : ℚ) * t, 0⟩, ⟨1, (i : ℚ), 0⟩)

/-- Exact comparison over `ℚ`, standing in for `fuzzyEquals` in the orbit examples. -/
def exampleOrbitFuzzyEquals : ℚ → ℚ → Bool := fun a b => decide (a = b)

/-! # Theorems -/

/-! ## Heliocentric summation over the parent chain -/

theorem eclipticPositions_cons {α : Type} (bodies : List (Planet α)) (c : Nat)
    (body : Planet α) (rest : List Nat) (hc : deref bodies c = some body) :
    eclipticPositions bodies (c :: rest) = body.eclipticPos :: eclipticPositions bodies rest := by
  simp [eclipticPositions, hc]

theorem getHeliocentricPosLoop_chain {α : Type} [Add α] (bodies : List (Planet α)) :
    ∀ (chain : List Nat) (c fuel : Nat) (p : Vec3d α),
      isParentChain bodies c chain = true → chain.length + 1 ≤ fuel →
      getHeliocentricPosLoop bodies fuel c p
        = some ((eclipticPositions bodies (c :: chain).dropLast).foldl (· + ·) p) := by
  intro chain
  induction chain with
  | nil =>
    intro c fuel p hchain hfuel
    obtain ⟨k, rfl⟩ : ∃ k, fuel = k + 1 := ⟨fuel - 1, by omega⟩
    unfold isParentChain at hchain
    unfold getHeliocentricPosLoop
    cases hc : deref bodies c with
    | none => simp [hc] at hchain
    | some body =>
      simp only [hc] at hchain
      cases hp : body.parent with
      | none => simp [eclipticPositions, hp]
      | some g => simp [hp] at hchain
  | cons d rest ih =>
    intro c fuel p hchain hfuel
    obtain ⟨k, rfl⟩ : ∃ k, fuel = k + 1 := ⟨fuel - 1, by simp at hfuel; omega⟩
    unfold isParentChain at hchain
    unfold getHeliocentricPosLoop
    cases hc : deref bodies c with
    | none => simp [hc] at hchain
    | some body =>
      simp only [hc, Bool.and_eq_true, beq_iff_eq] at hchain
      obtain ⟨hp, hrest⟩ := hchain
      have hk : rest.length + 1 ≤ k := by simp at hfuel; omega
      simp only [hp]
      rw [ih d k (p + body.eclipticPos) hrest hk]
      have hdrop : (c :: d :: rest).dropLast = c :: (d :: rest).dropLast := rfl
      rw [hdrop, eclipticPositions_cons bodies c body _ hc]
      rfl

/-- C1: for a body `b` with parent chain `b -> a₁ -> ... -> aₖ -> root`, given as
`chain = [a₁, ..., aₖ, root]`, and at least `chain.length` units of fuel,
`getHeliocentricPos(p)` returns `p + a₁.eclipticPos + ... + aₖ.eclipticPos`, summed left to
right and leaving out the last body of the chain, the root.  In particular for
`Sun -> Planet -> Moon` the moon gets `moon.eclipticPos + planet.eclipticPos`, and a body
whose parent is the root gets `p` itself. -/
theorem getHeliocentricPos_parent_chain {α : Type} [Add α] (bodies : List (Planet α))
    (b : Nat) (chain : List Nat) (fuel : Nat) (p : Vec3d α)
    (hchain : isParentChain bodies b chain = true) (hfuel : chain.length ≤ fuel) :
    getHeliocentricPos bodies fuel b p
        = some ((eclipticPositions bodies chain.dropLast).foldl (· + ·) p)
      ∧ (∀ planet sun moonBody planetBody, chain = [planet, sun] →
          deref bodies b = some moonBody → deref bodies planet = some planetBody →
          getHeliocentricPos bodies fuel b moonBody.eclipticPos
            = some (moonBody.eclipticPos + planetBody.eclipticPos))
      ∧ (∀ root, chain = [root] → getHeliocentricPos bodies fuel b p = some p) := by
  have main : ∀ p : Vec3d α, getHeliocentricPos bodies fuel b p
      = some ((eclipticPositions bodies chain.dropLast).foldl (· + ·) p) := by
    intro p
    cases chain with
    | nil =>
      unfold isParentChain at hchain
      unfold getHeliocentricPos
      cases hb : deref bodies b with
      | none => simp [hb] at hchain
      | some body =>
        simp only [hb] at hchain
        cases hp : body.parent with
        | none => simp [eclipticPositions, hp]
        | some g => simp [hp] at hchain
    | cons c rest =>
      unfold isParentChain at hchain
      unfold getHeliocentricPos
      cases hb : deref bodies b with
      | none => simp [hb] at hchain
      | some body =>
        simp only [hb, Bool.and_eq_true, beq_iff_eq] at hchain
        obtain ⟨hp, hrest⟩ := hchain
        simp only [hp]
        exact getHeliocentricPosLoop_chain bodies rest c fuel p hrest (by simpa using hfuel)
  refine ⟨main p, ?_, ?_⟩
  · intro planet sun moonBody planetBody hc _ hplanet
    rw [main, hc]
    have hdrop : [planet, sun].dropLast = [planet] := rfl
    rw [hdrop, eclipticPositions_cons bodies planet planetBody [] hplanet]
    rfl
  · intro root hc
    rw [main, hc]
    rfl

theorem getHeliocentricPos_parent_chain_witness :
    isParentChain exampleSystem 2 [1, 0] = true ∧ [1, 0].length ≤ 2
      ∧ getHeliocentricPos exampleSystem 2 2 ⟨1, 2, 3⟩ = some ⟨11, 22, 33⟩ :=
  ⟨by decide, by decide,
    ((getHeliocentricPos_parent_chain exampleSystem 2 [1, 0] 2 ⟨1, 2, 3⟩
      (by decide) (by decide)).1).trans (by decide)⟩

/-! ## Phase, phase angle and elongation -/

theorem Vec3d.sub_def {α : Type} [Sub α] (a b : Vec3d α) :
    a - b = ⟨a.x - b.x, a.y - b.y, a.z - b.z⟩ := rfl

theorem Vec3d.zero_def {α : Type} [Zero α] : (0 : Vec3d α) = ⟨0, 0, 0⟩ := rfl

theorem Vec3d.lengthSquared_nonneg (v : Vec3d ℝ) : 0 ≤ v.lengthSquared := by
  unfold Vec3d.lengthSquared
  nlinarith [mul_self_nonneg v.x, mul_self_nonneg v.y, mul_self_nonneg v.z]

theorem Vec3d.lengthSquared_pos {v : Vec3d ℝ} (h : v ≠ 0) : 0 < v.lengthSquared := by
  rcases (Vec3d.lengthSquared_nonneg v).lt_or_eq with hlt | heq
  · exact hlt
  · exfalso
    apply h
    unfold Vec3d.lengthSquared at heq
    have hx : v.x = 0 := by nlinarith [mul_self_nonneg v.x, mul_self_nonneg v.y, mul_self_nonneg v.z]
    have hy : v.y = 0 := by nlinarith [mul_self_nonneg v.x, mul_self_nonneg v.y, mul_self_nonneg v.z]
    have hz : v.z = 0 := by nlinarith [mul_self_nonneg v.x, mul_self_nonneg v.y, mul_self_nonneg v.z]
    cases v
    simp only [Vec3d.zero_def, Vec3d.mk.injEq]
    exact ⟨hx, hy, hz⟩

theorem Vec3d.sub_ne_zero {a b : Vec3d ℝ} (h : a ≠ b) : a - b ≠ 0 := by
  intro h0
  apply h
  rw [Vec3d.sub_def, Vec3d.zero_def] at h0
  cases a; cases b
  simp only [Vec3d.mk.injEq] at h0 ⊢
  obtain ⟨h1, h2, h3⟩ := h0
  exact ⟨by linarith, by linarith, by linarith⟩

theorem Vec3d.dot_sq_le (u v : Vec3d ℝ) :
    (u.dot v) ^ 2 ≤ u.lengthSquared * v.lengthSquared := by
  unfold Vec3d.dot Vec3d.lengthSquared
  nlinarith [sq_nonneg (u.x * v.y - u.y * v.x), sq_nonneg (u.x * v.z - u.z * v.x),
    sq_nonneg (u.y * v.z - u.z * v.y)]

theorem Vec3d.abs_dot_div_le_one (u v : Vec3d ℝ) :
    |u.dot v / Real.sqrt (u.lengthSquared * v.lengthSquared)| ≤ 1 := by
  rw [abs_div, abs_of_nonneg (Real.sqrt_nonneg _)]
  exact div_le_one_of_le₀ (Real.abs_le_sqrt (Vec3d.dot_sq_le u v)) (Real.sqrt_nonneg _)

theorem Vec3d.lengthSquared_sub_comm (a b : Vec3d ℝ) :
    (a - b).lengthSquared = (b - a).lengthSquared := by
  simp only [Vec3d.sub_def, Vec3d.lengthSquared]; ring

/-- The law-of-cosines quotient of `getPhaseAngle`/`getPhase` is the cosine of the angle at
the body between the directions to the Sun and to the observer. -/
theorem cosChi_eq_dot (P O : Vec3d ℝ) :
    cosChi P O = ((0 : Vec3d ℝ) - P).dot (O - P)
      / Real.sqrt (((0 : Vec3d ℝ) - P).lengthSquared * (O - P).lengthSquared) := by
  have hnum : (O - P).lengthSquared + P.lengthSquared - O.lengthSquared
      = 2 * ((0 : Vec3d ℝ) - P).dot (O - P) := by
    simp only [Vec3d.sub_def, Vec3d.zero_def, Vec3d.lengthSquared, Vec3d.dot]; ring
  have hden : ((0 : Vec3d ℝ) - P).lengthSquared * (O - P).lengthSquared
      = (O - P).lengthSquared * P.lengthSquared := by
    simp only [Vec3d.sub_def, Vec3d.zero_def, Vec3d.lengthSquared]; ring
  simp only [cosChi]
  rw [hnum, hden]
  norm_num
  rw [mul_div_mul_left _ _ (two_ne_zero)]

theorem getPhase_eq_cosChi (P O : Vec3d ℝ) : getPhase P O = 0.5 * |1 + cosChi P O| := rfl

theorem getPhaseAngle_eq_cosChi (P O : Vec3d ℝ) : getPhaseAngle P O = Real.arccos (cosChi P O) :=
  rfl

theorem cosChi_bounds (P O : Vec3d ℝ) : -1 ≤ cosChi P O ∧ cosChi P O ≤ 1 := by
  rw [cosChi_eq_dot]
  exact abs_le.mp (Vec3d.abs_dot_div_le_one _ _)

/-- C2: for a body at heliocentric position `P ≠ 0` and an observer at `obsPos ≠ P`, the
divisor `2*sqrt(|obsPos-P|² * |P|²)` of the law-of-cosines quotient is positive, the
quotient `cos_chi` lies in `[-1, 1]`, and `getPhase(obsPos) = 0.5*|1 + cos_chi|` lies in
`[0, 1]`. -/
theorem getPhase_mem_unit_interval (P obsPos : Vec3d ℝ) (hP : P ≠ 0) (hobs : obsPos ≠ P) :
    0 < 2.0 * Real.sqrt ((obsPos - P).lengthSquared * P.lengthSquared)
      ∧ (-1 ≤ cosChi P obsPos ∧ cosChi P obsPos ≤ 1)
      ∧ getPhase P obsPos = 0.5 * |1 + cosChi P obsPos|
      ∧ 0 ≤ getPhase P obsPos ∧ getPhase P obsPos ≤ 1 := by
  have hden : 0 < Real.sqrt ((obsPos - P).lengthSquared * P.lengthSquared) :=
    Real.sqrt_pos.mpr
      (mul_pos (Vec3d.lengthSquared_pos (Vec3d.sub_ne_zero hobs)) (Vec3d.lengthSquared_pos hP))
  obtain ⟨hlo, hhi⟩ := cosChi_bounds P obsPos
  have habs : |1 + cosChi P obsPos| = 1 + cosChi P obsPos := abs_of_nonneg (by linarith)
  refine ⟨mul_pos (by norm_num) hden, ⟨hlo, hhi⟩, rfl, ?_, ?_⟩
  · rw [getPhase_eq_cosChi, habs]; norm_num; linarith
  · rw [getPhase_eq_cosChi, habs]; norm_num; linarith

theorem getPhase_mem_unit_interval_witness :
    (⟨1, 0, 0⟩ : Vec3d ℝ) ≠ 0 ∧ (⟨0, 1, 0⟩ : Vec3d ℝ) ≠ ⟨1, 0, 0⟩
      ∧ 0 ≤ getPhase ⟨1, 0, 0⟩ ⟨0, 1, 0⟩ ∧ getPhase ⟨1, 0, 0⟩ ⟨0, 1, 0⟩ ≤ 1 :=
  ⟨by simp [Vec3d.zero_def], by simp,
    (getPhase_mem_unit_interval ⟨1, 0, 0⟩ ⟨0, 1, 0⟩ (by simp [Vec3d.zero_def]) (by simp)).2.2.2⟩

theorem cosChi_on_sun_line (P : Vec3d ℝ) (t : ℝ) (hP : P ≠ 0) (ht : t ≠ 1) :
    cosChi P (Vec3d.smul t P) = (1 - t) / |t - 1| := by
  have hB : 0 < P.lengthSquared := Vec3d.lengthSquared_pos hP
  have hnum : (Vec3d.smul t P - P).lengthSquared + P.lengthSquared
      - (Vec3d.smul t P).lengthSquared = 2 * ((1 - t) * P.lengthSquared) := by
    simp only [Vec3d.sub_def, Vec3d.smul, Vec3d.lengthSquared]; ring
  have hden : (Vec3d.smul t P - P).lengthSquared * P.lengthSquared
      = ((t - 1) * P.lengthSquared) ^ 2 := by
    simp only [Vec3d.sub_def, Vec3d.smul, Vec3d.lengthSquared]; ring
  have ht1 : |t - 1| ≠ 0 := abs_ne_zero.mpr (sub_ne_zero.mpr ht)
  simp only [cosChi]
  rw [hnum, hden, Real.sqrt_sq_eq_abs, abs_mul, abs_of_pos hB]
  field_simp
  ring

/-- C3: for a body at heliocentric position `P ≠ 0`, an observer on the Sun-body line at
`obsPos = t*P` sees phase 1 and phase angle 0 when `t < 1` (on the solar side of the body),
and phase 0 and phase angle `π` when `t > 1` (beyond the body). -/
theorem getPhase_on_sun_line (P : Vec3d ℝ) (t : ℝ) (hP : P ≠ 0) :
    (t < 1 → getPhase P (Vec3d.smul t P) = 1 ∧ getPhaseAngle P (Vec3d.smul t P) = 0)
      ∧ (1 < t → getPhase P (Vec3d.smul t P) = 0
          ∧ getPhaseAngle P (Vec3d.smul t P) = Real.pi) := by
  constructor
  · intro ht
    have hc : cosChi P (Vec3d.smul t P) = 1 := by
      rw [cosChi_on_sun_line P t hP (ne_of_lt ht), abs_of_neg (by linarith)]
      rw [neg_sub]
      exact div_self (by linarith)
    rw [getPhase_eq_cosChi, getPhaseAngle_eq_cosChi, hc]
    refine ⟨?_, Real.arccos_one⟩
    norm_num
  · intro ht
    have hc : cosChi P (Vec3d.smul t P) = -1 := by
      rw [cosChi_on_sun_line P t hP (ne_of_gt ht), abs_of_pos (by linarith)]
      rw [← neg_sub, neg_div, div_self (by linarith)]
    rw [getPhase_eq_cosChi, getPhaseAngle_eq_cosChi, hc]
    refine ⟨?_, Real.arccos_neg_one⟩
    norm_num

theorem getPhase_on_sun_line_witness :
    (⟨1, 0, 0⟩ : Vec3d ℝ) ≠ 0
      ∧ getPhase ⟨1, 0, 0⟩ (Vec3d.smul (1 / 2) ⟨1, 0, 0⟩) = 1
      ∧ getPhase ⟨1, 0, 0⟩ (Vec3d.smul 2 ⟨1, 0, 0⟩) = 0 :=
  ⟨by simp [Vec3d.zero_def],
    ((getPhase_on_sun_line ⟨1, 0, 0⟩ (1 / 2) (by simp [Vec3d.zero_def])).1 (by norm_num)).1,
    ((getPhase_on_sun_line ⟨1, 0, 0⟩ 2 (by simp [Vec3d.zero_def])).2 (by norm_num)).1⟩

/-- The law-of-cosines quotient of `getElongation`. -/
theorem getElongation_arg_eq_dot (P O : Vec3d ℝ) :
    ((O - P).lengthSquared + O.lengthSquared - P.lengthSquared)
        / (2.0 * Real.sqrt ((O - P).lengthSquared * O.lengthSquared))
      = ((0 : Vec3d ℝ) - O).dot (P - O)
        / Real.sqrt (((0 : Vec3d ℝ) - O).lengthSquared * (P - O).lengthSquared) := by
  have hnum : (O - P).lengthSquared + O.lengthSquared - P.lengthSquared
      = 2 * ((0 : Vec3d ℝ) - O).dot (P - O) := by
    simp only [Vec3d.sub_def, Vec3d.zero_def, Vec3d.lengthSquared, Vec3d.dot]; ring
  have hden : ((0 : Vec3d ℝ) - O).lengthSquared * (P - O).lengthSquared
      = (O - P).lengthSquared * O.lengthSquared := by
    simp only [Vec3d.sub_def, Vec3d.zero_def, Vec3d.lengthSquared]; ring
  rw [hnum, hden]
  norm_num
  rw [mul_div_mul_left _ _ (two_ne_zero)]

theorem Vec3d.lengthSquared_zero_sub (a : Vec3d ℝ) :
    ((0 : Vec3d ℝ) - a).lengthSquared = a.lengthSquared := by
  simp only [Vec3d.sub_def, Vec3d.zero_def, Vec3d.lengthSquared]; ring

/-- C4: for a body at `P ≠ 0` and an observer at `obsPos ≠ 0`, `obsPos ≠ P`, both
`getPhaseAngle(obsPos)` and `getElongation(obsPos)` lie in `[0, π]`; the cosine of the
phase angle is `((0-P)·(obsPos-P)) / (|P| |obsPos-P|)`, the angle at the body, and the
cosine of the elongation is `((0-obsPos)·(P-obsPos)) / (|obsPos| |P-obsPos|)`, the angle
at the observer; both divisors are positive. -/
theorem getPhaseAngle_getElongation_triangle (P obsPos : Vec3d ℝ) (hP : P ≠ 0)
    (hobs0 : obsPos ≠ 0) (hobs : obsPos ≠ P) :
    (0 ≤ getPhaseAngle P obsPos ∧ getPhaseAngle P obsPos ≤ Real.pi)
      ∧ (0 ≤ getElongation P obsPos ∧ getElongation P obsPos ≤ Real.pi)
      ∧ 0 < P.length * (obsPos - P).length
      ∧ Real.cos (getPhaseAngle P obsPos)
          = ((0 : Vec3d ℝ) - P).dot (obsPos - P) / (P.length * (obsPos - P).length)
      ∧ 0 < obsPos.length * (P - obsPos).length
      ∧ Real.cos (getElongation P obsPos)
          = ((0 : Vec3d ℝ) - obsPos).dot (P - obsPos) / (obsPos.length * (P - obsPos).length) := by
  have hPpos : 0 < P.length := Real.sqrt_pos.mpr (Vec3d.lengthSquared_pos hP)
  have hOpos : 0 < obsPos.length := Real.sqrt_pos.mpr (Vec3d.lengthSquared_pos hobs0)
  have hOPpos : 0 < (obsPos - P).length :=
    Real.sqrt_pos.mpr (Vec3d.lengthSquared_pos (Vec3d.sub_ne_zero hobs))
  have hPOpos : 0 < (P - obsPos).length :=
    Real.sqrt_pos.mpr (Vec3d.lengthSquared_pos (Vec3d.sub_ne_zero (Ne.symm hobs)))
  refine ⟨⟨Real.arccos_nonneg _, Real.arccos_le_pi _⟩,
    ⟨Real.arccos_nonneg _, Real.arccos_le_pi _⟩, mul_pos hPpos hOPpos, ?_,
    mul_pos hOpos hPOpos, ?_⟩
  · obtain ⟨hlo, hhi⟩ := cosChi_bounds P obsPos
    rw [getPhaseAngle_eq_cosChi, Real.cos_arccos hlo hhi, cosChi_eq_dot,
      Real.sqrt_mul (Vec3d.lengthSquared_nonneg _), Vec3d.lengthSquared_zero_sub]
    rfl
  · have hb := abs_le.mp (Vec3d.abs_dot_div_le_one ((0 : Vec3d ℝ) - obsPos) (P - obsPos))
    have hE : getElongation P obsPos
        = Real.arccos (((0 : Vec3d ℝ) - obsPos).dot (P - obsPos)
          / Real.sqrt (((0 : Vec3d ℝ) - obsPos).lengthSquared * (P - obsPos).lengthSquared)) := by
      rw [← getElongation_arg_eq_dot]
      rfl
    rw [hE, Real.cos_arccos hb.1 hb.2,
      Real.sqrt_mul (Vec3d.lengthSquared_nonneg _), Vec3d.lengthSquared_zero_sub]
    rfl

theorem getPhaseAngle_getElongation_triangle_witness :
    (⟨1, 0, 0⟩ : Vec3d ℝ) ≠ 0 ∧ (⟨0, 1, 0⟩ : Vec3d ℝ) ≠ 0
      ∧ (⟨0, 1, 0⟩ : Vec3d ℝ) ≠ ⟨1, 0, 0⟩
      ∧ 0 ≤ getPhaseAngle ⟨1, 0, 0⟩ ⟨0, 1, 0⟩ ∧ getPhaseAngle ⟨1, 0, 0⟩ ⟨0, 1, 0⟩ ≤ Real.pi :=
  ⟨by simp [Vec3d.zero_def], by simp [Vec3d.zero_def], by simp,
    (getPhaseAngle_getElongation_triangle ⟨1, 0, 0⟩ ⟨0, 1, 0⟩ (by simp [Vec3d.zero_def])
      (by simp [Vec3d.zero_def]) (by simp)).1⟩

/-! ## `computePosition` -/

/-- C5: `computePosition(JDE)` calls the orbit function if and only if
`|lastJDE - JDE| > deltaJDE`.  When `|lastJDE - JDE| <= deltaJDE` the body is left
unchanged; otherwise the orbit function is called once, at `JDE`, `eclipticPos` and
`eclipticVelocity` become its result and `lastJDE` becomes `JDE`.  For `deltaJDE >= 0`,
after the call `|lastJDE - JDE| <= deltaJDE`. -/
theorem computePosition_reevaluates_iff {α : Type} [LinearOrderedField α]
    (coordFunc : α → Vec3d α × Vec3d α) (body : Planet α) (JDE : α) :
    ((computePosition coordFunc body JDE).2 ≠ [] ↔ |body.lastJDE - JDE| > body.deltaJDE)
      ∧ (|body.lastJDE - JDE| ≤ body.deltaJDE →
          computePosition coordFunc body JDE = (body, []))
      ∧ (|body.lastJDE - JDE| > body.deltaJDE →
          (computePosition coordFunc body JDE).2 = [JDE]
          ∧ (computePosition coordFunc body JDE).1.eclipticPos = (coordFunc JDE).1
          ∧ (computePosition coordFunc body JDE).1.eclipticVelocity = (coordFunc JDE).2
          ∧ (computePosition coordFunc body JDE).1.lastJDE = JDE)
      ∧ (0 ≤ body.deltaJDE →
          (computePosition coordFunc body JDE).1.deltaJDE = body.deltaJDE
          ∧ |(computePosition coordFunc body JDE).1.lastJDE - JDE| ≤ body.deltaJDE) := by
  by_cases h : |body.lastJDE - JDE| > body.deltaJDE
  · have hnot : ¬ |body.lastJDE - JDE| ≤ body.deltaJDE := not_le.mpr h
    simp [computePosition, h, hnot]
  · have hle : |body.lastJDE - JDE| ≤ body.deltaJDE := not_lt.mp h
    simp [computePosition, h, hle]

/-! ## `getEclipticPos` -/

/-- C6: for a body whose cache has the capacity `ORBIT_SEGMENTS * 2` given by the
constructor, with `ORBIT_SEGMENTS > 0`, two consecutive `getEclipticPos(T)` calls return
the same position; the second call does not call the orbit function: it is answered from
the `lastJDE` field (when `fuzzyEquals(T, lastJDE)`) or else from the position cache.  A
call never changes `eclipticPos`, `eclipticVelocity`, `lastJDE` or the cache capacity. -/
theorem getEclipticPos_twice {α : Type} [DecidableEq α] (fuzzyEquals : α → α → Bool)
    (coordFunc : α → Vec3d α × Vec3d α) (body : Planet α) (T : α) (ORBIT_SEGMENTS : Nat)
    (hcap : body.positionsCache.mx = (positionsCacheInit α ORBIT_SEGMENTS).mx)
    (hseg : 0 < ORBIT_SEGMENTS) :
    (∃ pos,
        (getEclipticPos fuzzyEquals coordFunc body T).1 = some pos
        ∧ (getEclipticPos fuzzyEquals coordFunc
            (getEclipticPos fuzzyEquals coordFunc body T).2.1 T).1 = some pos
        ∧ ((fuzzyEquals T body.lastJDE = true ∧ pos = body.eclipticPos)
          ∨ (fuzzyEquals T body.lastJDE = false
            ∧ ((getEclipticPos fuzzyEquals coordFunc body T).2.1.positionsCache.object T).1
                = some pos)))
      ∧ (getEclipticPos fuzzyEquals coordFunc
          (getEclipticPos fuzzyEquals coordFunc body T).2.1 T).2.2 = []
      ∧ (getEclipticPos fuzzyEquals coordFunc body T).2.1.eclipticPos = body.eclipticPos
      ∧ (getEclipticPos fuzzyEquals coordFunc body T).2.1.eclipticVelocity
          = body.eclipticVelocity
      ∧ (getEclipticPos fuzzyEquals coordFunc body T).2.1.lastJDE = body.lastJDE
      ∧ (getEclipticPos fuzzyEquals coordFunc body T).2.1.positionsCache.mx
          = body.positionsCache.mx := by
  have hmx : ¬ 1 > body.positionsCache.mx := by
    rw [hcap]; simp only [positionsCacheInit]; omega
  cases hf : fuzzyEquals T body.lastJDE with
  | true => simp [getEclipticPos, hf]
  | false =>
    cases hfind : body.positionsCache.entries.find? (fun e => e.1 = T) with
    | none =>
      simp [getEclipticPos, hf, QCache.object, QCache.insert, hfind, hmx]
    | some e =>
      have he : e.1 = T := by simpa using List.find?_some hfind
      simp [getEclipticPos, hf, QCache.object, hfind, he]

theorem getEclipticPos_twice_witness :
    exampleMoon.positionsCache.mx = (positionsCacheInit ℤ 360).mx ∧ 0 < 360
      ∧ (getEclipticPos exampleFuzzyEquals exampleCoordFunc exampleMoon 5).2.2 = [5]
      ∧ (getEclipticPos exampleFuzzyEquals exampleCoordFunc
          (getEclipticPos exampleFuzzyEquals exampleCoordFunc exampleMoon 5).2.1 5).2.2 = [] :=
  ⟨rfl, by decide, by decide,
    (getEclipticPos_twice exampleFuzzyEquals exampleCoordFunc exampleMoon 5 360 rfl
      (by decide)).2.1⟩

/-! ## Shadow candidates -/

/-- C7: for a body `this` of a tree-shaped hierarchy (every body other than the Sun has an
existing parent, no body is its own parent or its own satellite), `getCandidatesForShadow()`
returns a list; every element `p` of it is one of its own satellites, its parent, or
(only when the parent is not the Sun) a satellite of its parent other than the body itself;
every `p` satisfies `willCastShadow(this, p)`; and `this` is not in the list. -/
theorem getCandidatesForShadow_sound {α : Type} (bodies : List (Planet α)) (sun : Nat)
    (willCastShadow : Nat → Nat → Bool) (this : Nat) (body : Planet α)
    (hthis : deref bodies this = some body)
    (hparent : this ≠ sun →
      ∃ parent parentBody, body.parent = some parent ∧ deref bodies parent = some parentBody)
    (hsat : this ∉ body.satellites) (hpar : body.parent ≠ some this) :
    ∃ res tested, getCandidatesForShadow bodies sun willCastShadow this = some (res, tested)
      ∧ ∀ p ∈ res,
          (p ∈ body.satellites ∨ body.parent = some p
            ∨ (body.parent ≠ some sun ∧ ∃ parent parentBody, body.parent = some parent
                ∧ deref bodies parent = some parentBody ∧ p ∈ parentBody.satellites
                ∧ p ≠ this))
          ∧ willCastShadow this p = true ∧ p ≠ this := by
  unfold getCandidatesForShadow
  simp only [hthis]
  by_cases hearly : this = sun ∨ (body.parent = some sun ∧ body.satellites = [])
  · rw [if_pos hearly]
    exact ⟨[], [], rfl, by simp⟩
  · rw [if_neg hearly]
    have hns : this ≠ sun := fun h => hearly (Or.inl h)
    obtain ⟨parent, parentBody, hp, hpb⟩ := hparent hns
    have hpt : parent ≠ this := fun h => hpar (by rw [hp, h])
    simp only [hp]
    by_cases hps : parent = sun
    · simp only [hps, ne_eq, not_true_eq_false, if_false]
      refine ⟨_, _, rfl, ?_⟩
      intro p hmem
      split at hmem
      · rename_i hw
        rcases List.mem_append.mp hmem with h1 | h1
        · have h2 := List.mem_filter.mp h1
          have hw2 : willCastShadow this p = true := by simpa using h2.2
          exact ⟨Or.inl h2.1, hw2, fun h => hsat (h ▸ h2.1)⟩
        · have hpe : p = sun := by simpa using h1
          subst hpe
          exact ⟨Or.inr (Or.inl rfl), hw, fun h => hns h.symm⟩
      · have h2 := List.mem_filter.mp hmem
        have hw2 : willCastShadow this p = true := by simpa using h2.2
        exact ⟨Or.inl h2.1, hw2, fun h => hsat (h ▸ h2.1)⟩
    · simp only [ne_eq, hps, not_false_eq_true, if_true, hpb]
      refine ⟨_, _, rfl, ?_⟩
      intro p hmem
      have hsun : ¬ some parent = some sun := fun h => hps (Option.some.inj h)
      rcases List.mem_append.mp hmem with hmem2 | hmem3
      · split at hmem2
        · rename_i hw
          rcases List.mem_append.mp hmem2 with h1 | h1
          · have h2 := List.mem_filter.mp h1
            have hw2 : willCastShadow this p = true := by simpa using h2.2
            exact ⟨Or.inl h2.1, hw2, fun h => hsat (h ▸ h2.1)⟩
          · have hpe : p = parent := by simpa using h1
            subst hpe
            exact ⟨Or.inr (Or.inl rfl), hw, hpt⟩
        · have h2 := List.mem_filter.mp hmem2
          have hw2 : willCastShadow this p = true := by simpa using h2.2
          exact ⟨Or.inl h2.1, hw2, fun h => hsat (h ▸ h2.1)⟩
      · have h2 := List.mem_filter.mp hmem3
        have h3 := List.mem_filter.mp h2.1
        have hw2 : willCastShadow this p = true := by simpa using h2.2
        have hne : p ≠ this := by simpa using h3.2
        exact ⟨Or.inr (Or.inr ⟨hsun, parent, parentBody, rfl, hpb, h3.1, hne⟩), hw2, hne⟩

theorem getCandidatesForShadow_sound_witness :
    deref exampleSystem 2 = some exampleMoon
      ∧ getCandidatesForShadow exampleSystem 0 exampleWillCastShadow 2 = some ([1], [1])
      ∧ ∃ res tested,
          getCandidatesForShadow exampleSystem 0 exampleWillCastShadow 2 = some (res, tested)
          ∧ ∀ p ∈ res,
              (p ∈ exampleMoon.satellites ∨ exampleMoon.parent = some p
                ∨ (exampleMoon.parent ≠ some 0 ∧ ∃ parent parentBody,
                    exampleMoon.parent = some parent
                    ∧ deref exampleSystem parent = some parentBody
                    ∧ p ∈ parentBody.satellites ∧ p ≠ 2))
              ∧ exampleWillCastShadow 2 p = true ∧ p ≠ 2 :=
  ⟨rfl, by decide,
    getCandidatesForShadow_sound exampleSystem 0 exampleWillCastShadow 2 exampleMoon rfl
      (fun _ => ⟨1, examplePlanet, rfl, rfl⟩) (by decide) (by decide)⟩

/-- C8: `getCandidatesForShadow()` returns the empty list, and evaluates no shadow test, for
the Sun itself and for every body without satellites whose parent is the Sun. -/
theorem getCandidatesForShadow_empty {α : Type} (bodies : List (Planet α)) (sun : Nat)
    (willCastShadow : Nat → Nat → Bool) (this : Nat) (body : Planet α)
    (hthis : deref bodies this = some body)
    (h : this = sun ∨ (body.parent = some sun ∧ body.satellites = [])) :
    getCandidatesForShadow bodies sun willCastShadow this = some ([], []) := by
  unfold getCandidatesForShadow
  simp only [hthis]
  rw [if_pos h]

theorem getCandidatesForShadow_empty_witness :
    deref exampleSystem 0 = some exampleSun
      ∧ getCandidatesForShadow exampleSystem 0 exampleWillCastShadow 0 = some ([], []) :=
  ⟨rfl,
    getCandidatesForShadow_empty exampleSystem 0 exampleWillCastShadow 0 exampleSun rfl
      (Or.inl rfl)⟩

/-! ## `KeplerOrbit` -/

/-- C9: `objectDateValid(JDE)` is true if and only if `orbitGood <= 0` or
`|t0 - JDE| < orbitGood`.  It is true at `JDE = t0` for every orbit, true for every `JDE`
when `orbitGood <= 0`, and false at the window edge `|t0 - JDE| = orbitGood` when
`orbitGood > 0`. -/
theorem objectDateValid_iff {α : Type} [LinearOrderedField α] (o : KeplerOrbit α) (JDE : α) :
    (o.objectDateValid JDE = true ↔ (o.orbitGood ≤ 0 ∨ |o.t0 - JDE| < o.orbitGood))
      ∧ o.objectDateValid o.t0 = true
      ∧ (o.orbitGood ≤ 0 → o.objectDateValid JDE = true)
      ∧ (0 < o.orbitGood → |o.t0 - JDE| = o.orbitGood → o.objectDateValid JDE = false) := by
  refine ⟨by simp [KeplerOrbit.objectDateValid], ?_, ?_, ?_⟩
  · simp only [KeplerOrbit.objectDateValid, sub_self, abs_zero, Bool.or_eq_true,
      decide_eq_true_eq]
    exact le_or_lt _ _
  · intro h
    simp [KeplerOrbit.objectDateValid, h]
  · intro hpos hedge
    simp [KeplerOrbit.objectDateValid, hedge, hpos]

/-- C10: for a `KeplerOrbit` with perihelion distance `q > 0`, `getSemimajorAxis()` is
strictly positive and equal to `q/(1-e)` when `e < 1`, exactly 0 when `e = 1`, and strictly
negative when `e > 1`. -/
theorem getSemimajorAxis_sign {α : Type} [LinearOrderedField α] (o : KeplerOrbit α)
    (hq : 0 < o.q) :
    (o.e < 1 → 0 < o.getSemimajorAxis ∧ o.getSemimajorAxis = o.q / (1 - o.e))
      ∧ (o.e = 1 → o.getSemimajorAxis = 0)
      ∧ (1 < o.e → o.getSemimajorAxis < 0) := by
  refine ⟨?_, ?_, ?_⟩
  · intro he
    have h : o.getSemimajorAxis = o.q / (1 - o.e) := by
      simp [KeplerOrbit.getSemimajorAxis, ne_of_lt he]
    exact ⟨h ▸ div_pos hq (sub_pos.mpr he), h⟩
  · intro he
    simp [KeplerOrbit.getSemimajorAxis, he]
  · intro he
    have h : o.getSemimajorAxis = o.q / (1 - o.e) := by
      simp [KeplerOrbit.getSemimajorAxis, ne_of_gt he]
    rw [h]
    exact div_neg_of_pos_of_neg hq (sub_neg.mpr he)

theorem getSemimajorAxis_sign_witness :
    (0 : ℚ) < (KeplerOrbit.mk 1 (1 / 2) 0 0 0 0 0 0 : KeplerOrbit ℚ).q
      ∧ (KeplerOrbit.mk 1 (1 / 2) 0 0 0 0 0 0 : KeplerOrbit ℚ).getSemimajorAxis = 2
      ∧ (KeplerOrbit.mk 1 1 0 0 0 0 0 0 : KeplerOrbit ℚ).getSemimajorAxis = 0
      ∧ (KeplerOrbit.mk 1 2 0 0 0 0 0 0 : KeplerOrbit ℚ).getSemimajorAxis < 0 :=
  ⟨by norm_num,
    (((getSemimajorAxis_sign (KeplerOrbit.mk 1 (1 / 2) 0 0 0 0 0 0 : KeplerOrbit ℚ)
      (by norm_num)).1 (by norm_num)).2).trans (by norm_num),
    (getSemimajorAxis_sign (KeplerOrbit.mk 1 1 0 0 0 0 0 0 : KeplerOrbit ℚ) (by norm_num)).2.1
      rfl,
    (getSemimajorAxis_sign (KeplerOrbit.mk 1 2 0 0 0 0 0 0 : KeplerOrbit ℚ) (by norm_num)).2.2
      (by norm_num)⟩

/-! ## `GimbalOrbit` -/

theorem qBound_mem {α : Type} [LinearOrder α] (lo v hi : α) (h : lo ≤ hi) :
    lo ≤ qBound lo v hi ∧ qBound lo v hi ≤ hi := by
  unfold qBound
  exact ⟨le_max_left _ _, max_le h (min_le_left _ _)⟩

theorem qBound_of_mem {α : Type} [LinearOrder α] (lo v hi : α) (h1 : lo ≤ v) (h2 : v ≤ hi) :
    qBound lo v hi = v := by
  unfold qBound
  rw [min_eq_right h2, max_eq_right h1]

theorem qBound_of_le {α : Type} [LinearOrder α] (lo v hi : α) (hv : v ≤ lo) :
    qBound lo v hi = lo := by
  unfold qBound
  exact max_eq_left (le_trans (min_le_right _ _) hv)

theorem qBound_of_ge {α : Type} [LinearOrder α] (lo v hi : α) (h : lo ≤ hi) (hv : hi ≤ v) :
    qBound lo v hi = hi := by
  unfold qBound
  rw [min_eq_left hv, max_eq_right h]

theorem M_PI_2_mul_M_180_PI : M_PI_2 * M_180_PI = 90 := by
  unfold M_PI_2 M_180_PI
  field_simp
  ring

/-- C11 as stated fails: after `setDistance(200)`, which stores the value unclamped,
`addToDistance(-100)` leaves `getDistance() = 50`, not `0.01`. -/
theorem addToDistance_minus_100_counterexample :
    (((GimbalOrbit.mk 1 0 0 : GimbalOrbit ℚ).setDistance 200).addToDistance (-100)).getDistance
        = 50
      ∧ (((GimbalOrbit.mk 1 0 0 : GimbalOrbit ℚ).setDistance 200).addToDistance
          (-100)).getDistance ≠ 0.01 := by
  have h : (((GimbalOrbit.mk 1 0 0 : GimbalOrbit ℚ).setDistance 200).addToDistance
      (-100)).getDistance = 50 := by
    simp only [GimbalOrbit.setDistance, GimbalOrbit.addToDistance, GimbalOrbit.getDistance]
    rw [qBound_of_ge _ _ _ (by norm_num) (by norm_num)]
  exact ⟨h, by rw [h]; norm_num⟩

/-- C11, amended: for a `GimbalOrbit` whose starting distance, as stored by `setDistance`, is
at most `100.01`, in particular any distance of the clamp range `[0.01, 50]`, after
`addToDistance(-100)` the call `getDistance()` returns exactly `0.01`. -/
theorem addToDistance_minus_100 {α : Type} [LinearOrderedField α] (o : GimbalOrbit α) (d : α)
    (hd : d ≤ 100.01) :
    ((o.setDistance d).addToDistance (-100)).getDistance = 0.01 := by
  simp only [GimbalOrbit.setDistance, GimbalOrbit.addToDistance, GimbalOrbit.getDistance]
  apply qBound_of_le
  have h : (100.01 : α) = 100 + 0.01 := by norm_num
  rw [h] at hd
  linarith

theorem addToDistance_minus_100_witness :
    (50 : ℚ) ≤ 100.01
      ∧ (((GimbalOrbit.mk 1 0 0 : GimbalOrbit ℚ).setDistance 50).addToDistance
          (-100)).getDistance = 0.01 :=
  ⟨by norm_num, addToDistance_minus_100 (GimbalOrbit.mk 1 0 0 : GimbalOrbit ℚ) 50 (by norm_num)⟩

/-- C12: for a `GimbalOrbit` whose latitude is within `[-90°, +90°]`, after
`addToLatitude(200)` the call `getLatitude()` returns exactly `90` degrees. -/
theorem addToLatitude_200 (o : GimbalOrbit ℝ) (hlo : -90 ≤ o.getLatitude)
    (_hhi : o.getLatitude ≤ 90) : (o.addToLatitude 200).getLatitude = 90 := by
  have hpi : 0 < Real.pi := Real.pi_pos
  have hlat : -(Real.pi / 2) ≤ o.latitude := by
    unfold GimbalOrbit.getLatitude M_180_PI at hlo
    have h1 : o.latitude * (180 / Real.pi) = o.latitude * 180 / Real.pi := by ring
    rw [h1, le_div_iff₀ hpi] at hlo
    linarith
  simp only [GimbalOrbit.addToLatitude, GimbalOrbit.getLatitude]
  rw [qBound_of_ge, M_PI_2_mul_M_180_PI]
  · unfold M_PI_2; linarith
  · unfold M_PI_2 M_PI_180; linarith

theorem addToLatitude_200_witness :
    -90 ≤ (GimbalOrbit.mk 1 0 0 : GimbalOrbit ℝ).getLatitude
      ∧ (GimbalOrbit.mk 1 0 0 : GimbalOrbit ℝ).getLatitude ≤ 90
      ∧ ((GimbalOrbit.mk 1 0 0 : GimbalOrbit ℝ).addToLatitude 200).getLatitude = 90 :=
  ⟨by simp [GimbalOrbit.getLatitude], by simp [GimbalOrbit.getLatitude],
    addToLatitude_200 (GimbalOrbit.mk 1 0 0 : GimbalOrbit ℝ) (by simp [GimbalOrbit.getLatitude])
      (by simp [GimbalOrbit.getLatitude])⟩

/-- C13: for every `GimbalOrbit` state and increment, after `addToDistance(ddist)` the
distance lies in `[0.01, 50]` and equals `distance + ddist` when that sum is in
`[0.01, 50]`; after `addToLatitude(dlat)` the latitude lies in `[-π/2, π/2]`, `getLatitude()`
lies in `[-90, 90]`, and the latitude equals the unclamped sum when that is in range;
`addToLongitude(dlong)` stores `longitude + dlong*π/180` with no clamp and no wrap.  Each
operation leaves the other two members unchanged. -/
theorem gimbalOrbit_clamps (o : GimbalOrbit ℝ) (ddist dlat dlong : ℝ) :
    (0.01 ≤ (o.addToDistance ddist).distance ∧ (o.addToDistance ddist).distance ≤ 50)
      ∧ (0.01 ≤ o.distance + ddist → o.distance + ddist ≤ 50 →
          (o.addToDistance ddist).distance = o.distance + ddist)
      ∧ (-(Real.pi / 2) ≤ (o.addToLatitude dlat).latitude
          ∧ (o.addToLatitude dlat).latitude ≤ Real.pi / 2)
      ∧ (-90 ≤ (o.addToLatitude dlat).getLatitude ∧ (o.addToLatitude dlat).getLatitude ≤ 90)
      ∧ (-(Real.pi / 2) ≤ o.latitude + dlat * (Real.pi / 180) →
          o.latitude + dlat * (Real.pi / 180) ≤ Real.pi / 2 →
          (o.addToLatitude dlat).latitude = o.latitude + dlat * (Real.pi / 180))
      ∧ (o.addToLongitude dlong).longitude = o.longitude + dlong * (Real.pi / 180)
      ∧ ((o.addToDistance ddist).longitude = o.longitude
          ∧ (o.addToDistance ddist).latitude = o.latitude)
      ∧ ((o.addToLatitude dlat).distance = o.distance
          ∧ (o.addToLatitude dlat).longitude = o.longitude)
      ∧ ((o.addToLongitude dlong).distance = o.distance
          ∧ (o.addToLongitude dlong).latitude = o.latitude) := by
  have hpi : 0 < Real.pi := Real.pi_pos
  have hb : -M_PI_2 ≤ M_PI_2 := by unfold M_PI_2; linarith
  have hlat := qBound_mem (-M_PI_2) (o.latitude + dlat * M_PI_180) M_PI_2 hb
  refine ⟨qBound_mem _ _ _ (by norm_num), ?_, ?_, ?_, ?_, rfl, ⟨rfl, rfl⟩, ⟨rfl, rfl⟩,
    ⟨rfl, rfl⟩⟩
  · intro h1 h2
    exact qBound_of_mem _ _ _ h1 h2
  · exact hlat
  · simp only [GimbalOrbit.getLatitude, GimbalOrbit.addToLatitude]
    have h90 : M_PI_2 * M_180_PI = 90 := M_PI_2_mul_M_180_PI
    have hpos : 0 < M_180_PI := by unfold M_180_PI; positivity
    constructor
    · have := mul_le_mul_of_nonneg_right hlat.1 hpos.le
      rw [neg_mul, h90] at this
      exact this
    · have := mul_le_mul_of_nonneg_right hlat.2 hpos.le
      rw [h90] at this
      exact this
  · intro h1 h2
    exact qBound_of_mem _ _ _ h1 h2

/-! ## `remainder` -/

theorem roundTiesEven_sub_abs_le {α : Type} [LinearOrderedField α] [FloorRing α] (x : α) :
    |x - (roundTiesEven x : α)| ≤ 1 / 2 := by
  have h0 : 0 ≤ x - ⌊x⌋ := sub_nonneg.mpr (Int.floor_le x)
  have h1 : x - ⌊x⌋ < 1 := by
    have := Int.lt_floor_add_one x
    linarith
  unfold roundTiesEven
  rw [abs_le]
  split_ifs with ha hb hc
  · constructor <;> linarith
  · push_cast
    constructor <;> linarith
  · have he : x - ⌊x⌋ = 1 / 2 := le_antisymm (not_lt.mp hb) (not_lt.mp ha)
    constructor <;> linarith
  · have he : x - ⌊x⌋ = 1 / 2 := le_antisymm (not_lt.mp hb) (not_lt.mp ha)
    push_cast
    constructor <;> linarith

theorem remainder_abs_le {α : Type} [LinearOrderedField α] [FloorRing α] (x y : α)
    (hy : 0 < y) : |remainder x y| ≤ y / 2 := by
  have h := roundTiesEven_sub_abs_le (x / y)
  have hxy : remainder x y = (x / y - (roundTiesEven (x / y) : α)) * y := by
    unfold remainder
    field_simp
    ring
  rw [hxy, abs_mul, abs_of_pos hy]
  calc |x / y - (roundTiesEven (x / y) : α)| * y ≤ 1 / 2 * y :=
        mul_le_mul_of_nonneg_right h hy.le
    _ = y / 2 := by ring

theorem roundTiesEven_intCast {α : Type} [LinearOrderedField α] [FloorRing α] (n : ℤ) :
    roundTiesEven (n : α) = n := by
  unfold roundTiesEven
  simp

theorem remainder_one_one {α : Type} [LinearOrderedField α] [FloorRing α] :
    remainder (1 : α) 1.0 = 0 := by
  have h : ((1 : α) / 1.0) = ((1 : ℤ) : α) := by norm_num
  unfold remainder
  rw [h, roundTiesEven_intCast]
  norm_num

theorem roundTiesEven_neg {α : Type} [LinearOrderedField α] [FloorRing α] (x : α) :
    roundTiesEven (-x) = -roundTiesEven x := by
  have h0 : 0 ≤ x - ⌊x⌋ := sub_nonneg.mpr (Int.floor_le x)
  have h1 : x - ⌊x⌋ < 1 := by
    have := Int.lt_floor_add_one x
    linarith
  rcases h0.eq_or_lt with hz | hpos
  · have hx : x = ((⌊x⌋ : ℤ) : α) := by linarith
    rw [hx, ← Int.cast_neg, roundTiesEven_intCast, roundTiesEven_intCast]
  · have hfl : ⌊-x⌋ = -⌊x⌋ - 1 := by
      rw [Int.floor_eq_iff]
      push_cast
      constructor <;> linarith
    unfold roundTiesEven
    rw [hfl]
    push_cast
    split_ifs <;> first | omega | (exfalso; linarith)

theorem remainder_neg {α : Type} [LinearOrderedField α] [FloorRing α] (x y : α) :
    remainder (-x) y = -remainder x y := by
  unfold remainder
  rw [neg_div, roundTiesEven_neg]
  push_cast
  ring


/-! ## `getSiderealTime` -/

theorem rotationMethodOf_of_ne_zero {α : Type} [LinearOrderedField α] (w0 : α) (h : w0 ≠ 0) :
    rotationMethodOf w0 = ComputationMethod.WGCCRE := by
  simp [rotationMethodOf, h]

theorem rotationMethodOf_zero {α : Type} [LinearOrderedField α] :
    rotationMethodOf (0 : α) = ComputationMethod.Traditional := by
  simp [rotationMethodOf]

/-- C14: for a body not named Earth or Jupiter, in the Traditional model, with rotation
period exactly 0, `getSiderealTime(JD, JDE)` returns exactly the configured offset, for
every `JD` and `JDE`. -/
theorem getSiderealTime_chaotic (ctx : SiderealTimeContext) (bodies : List (PlanetRot ℝ))
    (this : PlanetRot ℝ) (JD JDE : ℝ) (hEarth : this.englishName ≠ "Earth")
    (hJupiter : this.englishName ≠ "Jupiter")
    (hmethod : this.re.method = ComputationMethod.Traditional) (hperiod : this.re.period = 0) :
    getSiderealTime ctx bodies this JD JDE = some this.re.offset := by
  unfold getSiderealTime
  simp [hEarth, hJupiter, hmethod, hperiod, remainder_one_one]

theorem getSiderealTime_chaotic_witness :
    exampleHyperionRot.englishName ≠ "Earth" ∧ exampleHyperionRot.englishName ≠ "Jupiter"
      ∧ exampleHyperionRot.re.method = ComputationMethod.Traditional
      ∧ exampleHyperionRot.re.period = 0
      ∧ getSiderealTime exampleSiderealTimeContext exampleRotSystem exampleHyperionRot
          2451545 2451545 = some 12 :=
  ⟨by decide, by decide, rotationMethodOf_zero, rfl,
    getSiderealTime_chaotic exampleSiderealTimeContext exampleRotSystem exampleHyperionRot
      2451545 2451545 (by decide) (by decide) rotationMethodOf_zero rfl⟩

/-- C15: for a body in the IAU (WGCCRE) model that has a parent, is not named Earth, Moon,
Mercury, Neptune, Phobos or Deimos, and whose parent is not named Jupiter, Saturn, Uranus or
Neptune, `getSiderealTime(JD, JDE)` is `W0 + remainder((JDE - J2000) * W1, 360)`, the same
for every `JD` and every context (in particular every Periodic Correction Table), and lies
in `[W0 - 180, W0 + 180]`. -/
theorem getSiderealTime_WGCCRE_uncorrected (ctx : SiderealTimeContext)
    (bodies : List (PlanetRot ℝ)) (this par : PlanetRot ℝ) (p : Nat) (JD JDE : ℝ)
    (hmethod : this.re.method = ComputationMethod.WGCCRE)
    (hparent : this.parent = some p) (hpar : derefRot bodies p = some par)
    (hname : this.englishName ∉ ["Earth", "Moon", "Mercury", "Neptune", "Phobos", "Deimos"])
    (hparname : par.englishName ∉ ["Jupiter", "Saturn", "Uranus", "Neptune"]) :
    getSiderealTime ctx bodies this JD JDE
        = some (this.re.W0 + remainder ((JDE - J2000) * this.re.W1) 360)
      ∧ (∀ (ctx2 : SiderealTimeContext) (JD2 : ℝ),
          getSiderealTime ctx2 bodies this JD2 JDE = getSiderealTime ctx bodies this JD JDE)
      ∧ this.re.W0 - 180 ≤ this.re.W0 + remainder ((JDE - J2000) * this.re.W1) 360
      ∧ this.re.W0 + remainder ((JDE - J2000) * this.re.W1) 360 ≤ this.re.W0 + 180 := by
  simp only [List.mem_cons, List.mem_singleton, List.not_mem_nil, or_false, not_or] at hname
  simp only [List.mem_cons, List.mem_singleton, List.not_mem_nil, or_false, not_or] at hparname
  obtain ⟨hE, hMoon, hMerc, hNep, hPho, hDei⟩ := hname
  obtain ⟨hpJ, hpS, hpU, hpN⟩ := hparname
  have h360 : (360.0 : ℝ) = 360 := by norm_num
  have main : ∀ (ctx2 : SiderealTimeContext) (JD2 : ℝ),
      getSiderealTime ctx2 bodies this JD2 JDE
        = some (this.re.W0 + remainder ((JDE - J2000) * this.re.W1) 360) := by
    intro ctx2 JD2
    unfold getSiderealTime
    by_cases hJ : this.englishName = "Jupiter"
    · simp [hmethod, hJ, h360]
    · simp [hmethod, hE, hMoon, hMerc, hNep, hPho, hDei, hJ, hparent, hpar, hpJ, hpS, hpU,
        hpN, h360]
  have hb := abs_le.mp (remainder_abs_le ((JDE - J2000) * this.re.W1) (360 : ℝ) (by norm_num))
  refine ⟨main ctx JD, fun ctx2 JD2 => (main ctx2 JD2).trans (main ctx JD).symm, ?_, ?_⟩
  · linarith [hb.1]
  · linarith [hb.2]

theorem getSiderealTime_WGCCRE_uncorrected_witness :
    exampleVenusRot.re.method = ComputationMethod.WGCCRE
      ∧ exampleVenusRot.parent = some 0 ∧ derefRot exampleRotSystem 0 = some exampleSunRot
      ∧ getSiderealTime exampleSiderealTimeContext exampleRotSystem exampleVenusRot
          2451545 2451545
        = some (exampleVenusRot.re.W0
            + remainder ((2451545 - J2000) * exampleVenusRot.re.W1) 360) :=
  ⟨rotationMethodOf_of_ne_zero _ (by norm_num), rfl, rfl,
    (getSiderealTime_WGCCRE_uncorrected exampleSiderealTimeContext exampleRotSystem
      exampleVenusRot exampleSunRot 0 2451545 2451545
      (rotationMethodOf_of_ne_zero _ (by norm_num)) rfl rfl (by decide) (by decide)).1⟩

/-- The defect behind C16: a body in the IAU (WGCCRE) model with a null `parent` pointer and
a name other than Earth, Moon, Mercury, Jupiter, Neptune, Phobos and Deimos reaches
`parent->englishName` and dereferences the null pointer. -/
theorem getSiderealTime_null_parent (ctx : SiderealTimeContext) (bodies : List (PlanetRot ℝ))
    (this : PlanetRot ℝ) (JD JDE : ℝ)
    (hmethod : this.re.method = ComputationMethod.WGCCRE) (hparent : this.parent = none)
    (hname : this.englishName ∉
      ["Earth", "Moon", "Mercury", "Jupiter", "Neptune", "Phobos", "Deimos"]) :
    getSiderealTime ctx bodies this JD JDE = none := by
  simp only [List.mem_cons, List.mem_singleton, List.not_mem_nil, or_false, not_or] at hname
  obtain ⟨hE, hMoon, hMerc, hJ, hNep, hPho, hDei⟩ := hname
  unfold getSiderealTime
  simp [hmethod, hE, hMoon, hMerc, hNep, hPho, hDei, hJ, hparent]

/-- C16 fails on the code: for the Sun, which has no parent, with `W0 = 84.176` (so that
`setRotationElements` selects the IAU model), `getSiderealTime(JD, JDE)` returns no value
for any `JD` and `JDE`: it evaluates `parent->englishName` on the null `parent`. -/
theorem getSiderealTime_sun_fails (JD JDE : ℝ) :
    exampleSunRot.parent = none
      ∧ exampleSunRot.re.method = rotationMethodOf (84.176 : ℝ)
      ∧ rotationMethodOf (84.176 : ℝ) = ComputationMethod.WGCCRE
      ∧ getSiderealTime exampleSiderealTimeContext exampleRotSystem exampleSunRot JD JDE
          = none :=
  ⟨rfl, rfl, rotationMethodOf_of_ne_zero _ (by norm_num),
    getSiderealTime_null_parent exampleSiderealTimeContext exampleRotSystem exampleSunRot JD JDE
      (rotationMethodOf_of_ne_zero _ (by norm_num)) rfl (by decide)⟩

/-! ## `getRotEquatorialToVsop87` and `setRotEquatorialToVsop87` -/

theorem leftProduct_eq_mul {α : Type} [Ring α] (ms : List (Mat4d α)) :
    ∀ r : Mat4d α, leftProduct r ms = leftProduct 1 ms * r := by
  induction ms with
  | nil => intro r; simp [leftProduct]
  | cons A ms ih =>
    intro r
    have h1 : leftProduct r (A :: ms) = leftProduct (A * r) ms := rfl
    have h2 : leftProduct 1 (A :: ms) = leftProduct (A * 1) ms := rfl
    rw [h1, h2, ih (A * r), ih (A * 1), mul_one, mul_assoc]

theorem nonStarMatrices_cons {α : Type} (bodies : List (PlanetRot α)) (c : Nat)
    (body : PlanetRot α) (rest : List Nat) (hc : derefRot bodies c = some body) :
    nonStarMatrices bodies (c :: rest)
      = (if body.pType ≠ PlanetType.isStar then [body.rotLocalToParent] else [])
        ++ nonStarMatrices bodies rest := by
  unfold nonStarMatrices
  by_cases h : body.pType = PlanetType.isStar <;> simp [List.filterMap_cons, hc, h]

theorem rotLocalToParentLoop_chain {α : Type} [Ring α] (bodies : List (PlanetRot α)) :
    ∀ (chain : List Nat) (c fuel : Nat) (rval : Mat4d α),
      isRotParentChain bodies c chain = true → chain.length + 1 ≤ fuel →
      rotLocalToParentLoop bodies fuel c rval
        = some (leftProduct rval (nonStarMatrices bodies (c :: chain).dropLast)) := by
  intro chain
  induction chain with
  | nil =>
    intro c fuel rval hchain hfuel
    obtain ⟨k, rfl⟩ : ∃ k, fuel = k + 1 := ⟨fuel - 1, by omega⟩
    unfold isRotParentChain at hchain
    unfold rotLocalToParentLoop
    cases hc : derefRot bodies c with
    | none => simp [hc] at hchain
    | some body =>
      simp only [hc] at hchain
      cases hp : body.parent with
      | none => simp [nonStarMatrices, leftProduct, hp]
      | some g => simp [hp] at hchain
  | cons d rest ih =>
    intro c fuel rval hchain hfuel
    obtain ⟨k, rfl⟩ : ∃ k, fuel = k + 1 := ⟨fuel - 1, by simp at hfuel; omega⟩
    unfold isRotParentChain at hchain
    unfold rotLocalToParentLoop
    cases hc : derefRot bodies c with
    | none => simp [hc] at hchain
    | some body =>
      simp only [hc, Bool.and_eq_true, beq_iff_eq] at hchain
      obtain ⟨hp, hrest⟩ := hchain
      have hk : rest.length + 1 ≤ k := by simp at hfuel; omega
      simp only [hp]
      rw [ih d k _ hrest hk]
      have hdrop : (c :: d :: rest).dropLast = c :: (d :: rest).dropLast := rfl
      rw [hdrop, nonStarMatrices_cons bodies c body _ hc]
      by_cases hs : body.pType = PlanetType.isStar <;> simp [hs, leftProduct]

theorem derefRot_set_ne {α : Type} (bodies : List (PlanetRot α)) (this j : Nat)
    (b : PlanetRot α) (h : j ≠ this) :
    derefRot (bodies.set this b) j = derefRot bodies j := by
  unfold derefRot
  rw [List.getElem?_set_ne (Ne.symm h)]

theorem derefRot_set_self {α : Type} (bodies : List (PlanetRot α)) (this : Nat)
    (body b : PlanetRot α) (h : derefRot bodies this = some body) :
    derefRot (bodies.set this b) this = some b := by
  unfold derefRot at h ⊢
  have hlt : this < bodies.length := by
    by_contra hge
    rw [List.getElem?_eq_none (not_lt.mp hge)] at h
    exact Option.noConfusion h
  rw [List.getElem?_set_self hlt]

theorem isRotParentChain_set {α : Type} (bodies : List (PlanetRot α)) (this : Nat)
    (b : PlanetRot α) :
    ∀ (chain : List Nat) (c : Nat), c ≠ this → this ∉ chain →
      isRotParentChain bodies c chain = true →
      isRotParentChain (bodies.set this b) c chain = true := by
  intro chain
  induction chain with
  | nil =>
    intro c hc _ h
    unfold isRotParentChain at h ⊢
    rw [derefRot_set_ne bodies this c b hc]
    exact h
  | cons d rest ih =>
    intro c hc hnot h
    unfold isRotParentChain at h ⊢
    rw [derefRot_set_ne bodies this c b hc]
    cases hb : derefRot bodies c with
    | none => simp [hb] at h
    | some body =>
      simp only [hb, Bool.and_eq_true, beq_iff_eq] at h ⊢
      have hd : d ≠ this := fun e => hnot (by simp [e])
      have hr : this ∉ rest := fun e => hnot (by simp [e])
      exact ⟨h.1, ih d hd hr h.2⟩

theorem nonStarMatrices_set {α : Type} (bodies : List (PlanetRot α)) (this : Nat)
    (b : PlanetRot α) (ps : List Nat) (h : this ∉ ps) :
    nonStarMatrices (bodies.set this b) ps = nonStarMatrices bodies ps := by
  unfold nonStarMatrices
  apply List.filterMap_congr
  intro p hp
  have hne : p ≠ this := fun e => h (e ▸ hp)
  rw [derefRot_set_ne bodies this p b hne]

theorem getRotEquatorialToVsop87_chain {α : Type} [Ring α] (bodies : List (PlanetRot α))
    (fuel this : Nat) (body : PlanetRot α) (chain : List Nat)
    (hthis : derefRot bodies this = some body)
    (hmethod : body.re.method = ComputationMethod.Traditional)
    (hchain : isRotParentChain bodies this chain = true) (hfuel : chain.length ≤ fuel) :
    getRotEquatorialToVsop87 bodies fuel this
      = some (leftProduct body.rotLocalToParent (nonStarMatrices bodies chain.dropLast)) := by
  unfold getRotEquatorialToVsop87
  simp only [hthis, hmethod, if_true]
  cases chain with
  | nil =>
    unfold isRotParentChain at hchain
    simp only [hthis] at hchain
    cases hp : body.parent with
    | none => simp [nonStarMatrices, leftProduct, hp]
    | some g => simp [hp] at hchain
  | cons c rest =>
    unfold isRotParentChain at hchain
    simp only [hthis, Bool.and_eq_true, beq_iff_eq] at hchain
    obtain ⟨hp, hrest⟩ := hchain
    simp only [hp]
    exact rotLocalToParentLoop_chain bodies rest c fuel _ hrest (by simpa using hfuel)

theorem isRotParentChain_set_self {α : Type} (bodies : List (PlanetRot α)) (this : Nat)
    (body b : PlanetRot α) (chain : List Nat) (hthis : derefRot bodies this = some body)
    (hb : b.parent = body.parent) (hnot : this ∉ chain)
    (hchain : isRotParentChain bodies this chain = true) :
    isRotParentChain (bodies.set this b) this chain = true := by
  cases chain with
  | nil =>
    unfold isRotParentChain at hchain ⊢
    rw [derefRot_set_self bodies this body b hthis]
    simp only [hthis] at hchain
    simpa [hb] using hchain
  | cons c rest =>
    unfold isRotParentChain at hchain ⊢
    rw [derefRot_set_self bodies this body b hthis]
    simp only [hthis, Bool.and_eq_true, beq_iff_eq] at hchain
    simp only [Bool.and_eq_true, beq_iff_eq]
    have hc : c ≠ this := fun e => hnot (by simp [e])
    have hr : this ∉ rest := fun e => hnot (by simp [e])
    exact ⟨hb.trans hchain.1, isRotParentChain_set bodies this b rest c hc hr hchain.2⟩

/-- C17: for a body `this` of a tree-shaped hierarchy (its parent chain ends at a root and
does not contain `this`), with enough fuel for the chain.  In the IAU model,
`setRotEquatorialToVsop87(m)` followed by `getRotEquatorialToVsop87()` returns `m`.  In the
Traditional model `getRotEquatorialToVsop87()` is `Aₖ * ... * A₁ * rotLocalToParent` over
the ancestors below the root that are not stars, which is `rotLocalToParent` when the parent
is the root; and the round trip returns `m` when `a = Aₖ * ... * A₁` satisfies
`a * aᵀ = 1`. -/
theorem rotEquatorialToVsop87_round_trip {α : Type} [Ring α] (bodies : List (PlanetRot α))
    (fuel this : Nat) (body : PlanetRot α) (chain : List Nat) (m : Mat4d α)
    (hthis : derefRot bodies this = some body)
    (hchain : isRotParentChain bodies this chain = true) (hnot : this ∉ chain)
    (hfuel : chain.length ≤ fuel) :
    (body.re.method = ComputationMethod.WGCCRE →
        ∃ bodies2, setRotEquatorialToVsop87 bodies fuel this m = some bodies2
          ∧ getRotEquatorialToVsop87 bodies2 fuel this = some m)
      ∧ (body.re.method = ComputationMethod.Traditional →
          getRotEquatorialToVsop87 bodies fuel this
              = some (leftProduct body.rotLocalToParent
                  (nonStarMatrices bodies chain.dropLast))
            ∧ (∀ root, chain = [root] →
                getRotEquatorialToVsop87 bodies fuel this = some body.rotLocalToParent)
            ∧ (leftProduct 1 (nonStarMatrices bodies chain.dropLast)
                  * (leftProduct 1 (nonStarMatrices bodies chain.dropLast)).transpose = 1 →
                ∃ bodies2, setRotEquatorialToVsop87 bodies fuel this m = some bodies2
                  ∧ getRotEquatorialToVsop87 bodies2 fuel this = some m)) := by
  constructor
  · intro hmethod
    refine ⟨bodies.set this { body with rotLocalToParent := m }, ?_, ?_⟩
    · unfold setRotEquatorialToVsop87
      simp only [hthis, hmethod]
    · unfold getRotEquatorialToVsop87
      rw [derefRot_set_self bodies this body _ hthis]
      simp [hmethod]
  · intro hmethod
    have hget := getRotEquatorialToVsop87_chain bodies fuel this body chain hthis hmethod
      hchain hfuel
    refine ⟨hget, ?_, ?_⟩
    · intro root hroot
      rw [hget, hroot]
      rfl
    · intro horth
      have ha : (match body.parent with
          | none => some (1 : Mat4d α)
          | some parent => rotLocalToParentLoop bodies fuel parent 1)
          = some (leftProduct 1 (nonStarMatrices bodies chain.dropLast)) := by
        cases chain with
        | nil =>
          unfold isRotParentChain at hchain
          simp only [hthis] at hchain
          cases hp : body.parent with
          | none => simp [nonStarMatrices, leftProduct]
          | some g => simp [hp] at hchain
        | cons c rest =>
          unfold isRotParentChain at hchain
          simp only [hthis, Bool.and_eq_true, beq_iff_eq] at hchain
          obtain ⟨hp, hrest⟩ := hchain
          simp only [hp]
          exact rotLocalToParentLoop_chain bodies rest c fuel _ hrest (by simpa using hfuel)
      obtain ⟨b2, hb2⟩ : ∃ b2 : PlanetRot α, b2 = { body with rotLocalToParent :=
          (leftProduct 1 (nonStarMatrices bodies chain.dropLast)).transpose * m } := ⟨_, rfl⟩
      have hb2p : b2.parent = body.parent := by rw [hb2]
      have hb2m : b2.re.method = ComputationMethod.Traditional := by rw [hb2]; exact hmethod
      have hb2r : b2.rotLocalToParent
          = (leftProduct 1 (nonStarMatrices bodies chain.dropLast)).transpose * m := by rw [hb2]
      refine ⟨bodies.set this b2, ?_, ?_⟩
      · unfold setRotEquatorialToVsop87
        simp only [hthis, hmethod, ha, hb2]
      · have hnotdrop : this ∉ chain.dropLast := fun h => hnot (List.mem_of_mem_dropLast h)
        rw [getRotEquatorialToVsop87_chain (bodies.set this b2) fuel this b2 chain
          (derefRot_set_self bodies this body b2 hthis) hb2m
          (isRotParentChain_set_self bodies this body b2 chain hthis hb2p hnot hchain) hfuel,
          nonStarMatrices_set bodies this b2 _ hnotdrop, leftProduct_eq_mul, hb2r,
          ← mul_assoc, horth, one_mul]

theorem rotEquatorialToVsop87_round_trip_witness :
    derefRot exampleRotSystem 2 = some exampleHyperionRot
      ∧ isRotParentChain exampleRotSystem 2 [1, 0] = true ∧ 2 ∉ [1, 0] ∧ [1, 0].length ≤ 2
      ∧ getRotEquatorialToVsop87 exampleRotSystem 2 2
        = some (leftProduct exampleHyperionRot.rotLocalToParent
            (nonStarMatrices exampleRotSystem [1])) :=
  ⟨rfl, rfl, by decide, by decide,
    ((rotEquatorialToVsop87_round_trip exampleRotSystem 2 2 exampleHyperionRot [1, 0] 1 rfl rfl
      (by decide) (by decide)).2 rotationMethodOf_zero).1⟩

/-! ## The Periodic Correction Table -/

theorem correctionAngle_sub_abs_le (base rate x : ℝ) :
    |correctionAngle base rate x - M_PI_180 * base| ≤ Real.pi := by
  have hpi : 0 < Real.pi := Real.pi_pos
  have hr := remainder_abs_le (rate * x) (360 : ℝ) (by norm_num)
  have h : correctionAngle base rate x - M_PI_180 * base
      = Real.pi / 180 * remainder (rate * x) 360 := by
    unfold correctionAngle M_PI_180
    ring
  rw [h, abs_mul, abs_of_pos (by positivity : (0 : ℝ) < Real.pi / 180)]
  calc Real.pi / 180 * |remainder (rate * x) 360| ≤ Real.pi / 180 * (360 / 2) :=
        mul_le_mul_of_nonneg_left hr (by positivity)
    _ = Real.pi := by ring

theorem correctionAngle_neg_rate (base rate x : ℝ) :
    M_PI_180 * (base - remainder (rate * x) 360.0) = correctionAngle base (-rate) x := by
  unfold correctionAngle
  have h360 : (360.0 : ℝ) = 360 := by norm_num
  rw [h360, neg_mul, remainder_neg]
  ring

theorem correctionAngle_pos_rate (base rate x : ℝ) :
    M_PI_180 * (base + remainder (rate * x) 360.0) = correctionAngle base rate x := by
  unfold correctionAngle
  have h360 : (360.0 : ℝ) = 360 := by norm_num
  rw [h360]

/-- C18: `updatePlanetCorrections(JDE, group)` recomputes the angles of the group and sets
its timestamp to `JDE` when `|JDE - timestamp(group)| > threshold(group)`, and otherwise
leaves the whole table unchanged; the threshold is `1/1440` day for the Earth-Moon group and
`0.025` day for the others.  In either case timestamp and angles of every other group are
unchanged.  After a recomputation every angle of the group is
`(π/180)*(base + remainder(rate*x, 360))`, with `x` the days since J2000 for the Earth-Moon
group and the Julian centuries since J2000 for the others, and every such value lies within
`π` of `(π/180)*base`. -/
theorem updatePlanetCorrections_spec (pc : PlanetCorrections ℝ) (JDE : ℝ)
    (group : PlanetCorrection) :
    (|JDE - pc.timestamp group| > correctionThreshold group →
        (updatePlanetCorrections pc JDE group).timestamp group = JDE
        ∧ (updatePlanetCorrections pc JDE group).angles group
          = (correctionBaseRate group).map
              (fun br => correctionAngle br.1 br.2 (correctionArgument JDE group)))
      ∧ (¬ |JDE - pc.timestamp group| > correctionThreshold group →
          updatePlanetCorrections pc JDE group = pc)
      ∧ (∀ other, other ≠ group →
          (updatePlanetCorrections pc JDE group).timestamp other = pc.timestamp other
          ∧ (updatePlanetCorrections pc JDE group).angles other = pc.angles other)
      ∧ (correctionThreshold PlanetCorrection.EarthMoon = (1 / 1440 : ℝ)
          ∧ ∀ g, g ≠ PlanetCorrection.EarthMoon → correctionThreshold g = (0.025 : ℝ))
      ∧ (∀ base rate x : ℝ, |correctionAngle base rate x - M_PI_180 * base| ≤ Real.pi) := by
  refine ⟨?_, ?_, ?_, ⟨rfl, ?_⟩, correctionAngle_sub_abs_le⟩
  · intro h
    cases group <;>
      simp only [PlanetCorrections.timestamp, correctionThreshold] at h <;>
      simp only [updatePlanetCorrections, if_pos h, PlanetCorrections.timestamp,
        PlanetCorrections.angles, correctionBaseRate, correctionArgument, List.map_cons,
        List.map_nil, correctionAngle_pos_rate, correctionAngle_neg_rate, neg_neg, true_and]
  · intro h
    cases group <;>
      simp only [PlanetCorrections.timestamp, correctionThreshold] at h <;>
      simp only [updatePlanetCorrections, if_neg h]
  · intro other hother
    by_cases h : |JDE - pc.timestamp group| > correctionThreshold group
    · cases group <;> cases other <;>
        first
        | exact absurd rfl hother
        | (simp only [PlanetCorrections.timestamp, correctionThreshold] at h
           simp only [updatePlanetCorrections, if_pos h, PlanetCorrections.timestamp,
             PlanetCorrections.angles, and_self])
    · cases group <;>
        simp only [PlanetCorrections.timestamp, correctionThreshold] at h <;>
        simp only [updatePlanetCorrections, if_neg h, and_self]
  · intro g hg
    cases g <;> first | exact absurd rfl hg | rfl

/-- C19: `updatePlanetCorrections` is idempotent: calling it twice in a row with the same
`JDE` and group leaves the table in the state that one call leaves. -/
theorem updatePlanetCorrections_idempotent (pc : PlanetCorrections ℝ) (JDE : ℝ)
    (group : PlanetCorrection) :
    updatePlanetCorrections (updatePlanetCorrections pc JDE group) JDE group
      = updatePlanetCorrections pc JDE group := by
  have h1 : ¬ |JDE - JDE| > (JD_MINUTE : ℝ) := by
    rw [sub_self, abs_zero]; unfold JD_MINUTE; norm_num
  have h2 : ¬ |JDE - JDE| > (0.025 : ℝ) := by
    rw [sub_self, abs_zero]; norm_num
  cases group
  · by_cases h : |JDE - pc.JDE_E| > JD_MINUTE
    · simp only [updatePlanetCorrections, if_pos h, if_neg h1]
    · simp only [updatePlanetCorrections, if_neg h]
  · by_cases h : |JDE - pc.JDE_J| > 0.025
    · simp only [updatePlanetCorrections, if_pos h, if_neg h2]
    · simp only [updatePlanetCorrections, if_neg h]
  · by_cases h : |JDE - pc.JDE_S| > 0.025
    · simp only [updatePlanetCorrections, if_pos h, if_neg h2]
    · simp only [updatePlanetCorrections, if_neg h]
  · by_cases h : |JDE - pc.JDE_U| > 0.025
    · simp only [updatePlanetCorrections, if_pos h, if_neg h2]
    · simp only [updatePlanetCorrections, if_neg h]
  · by_cases h : |JDE - pc.JDE_N| > 0.025
    · simp only [updatePlanetCorrections, if_pos h, if_neg h2]
    · simp only [updatePlanetCorrections, if_neg h]

/-! ## Body types and the constructor -/

theorem Planet.init_eq (pTypeMap : List (PlanetType × String)) :
    Planet.init pTypeMap
      = [(PlanetType.isStar, "star"), (PlanetType.isPlanet, "planet"),
          (PlanetType.isMoon, "moon"), (PlanetType.isObserver, "observer"),
          (PlanetType.isArtificial, "artificial"), (PlanetType.isAsteroid, "asteroid"),
          (PlanetType.isPlutino, "plutino"), (PlanetType.isComet, "comet"),
          (PlanetType.isDwarfPlanet, "dwarf planet"), (PlanetType.isCubewano, "cubewano"),
          (PlanetType.isSDO, "scattered disc object"), (PlanetType.isOCO, "Oort cloud object"),
          (PlanetType.isSednoid, "sednoid"), (PlanetType.isInterstellar, "interstellar object"),
          (PlanetType.isUNDEFINED, "UNDEFINED")] := by
  have h : (if pTypeMap.length > 0 then [] else pTypeMap) = [] := by
    cases pTypeMap <;> simp
  unfold Planet.init
  simp only [h]
  rfl

theorem pTypeMapKey_nil (value : String) (defaultKey : PlanetType) :
    pTypeMapKey [] value defaultKey = defaultKey := rfl

theorem pTypeMapKey_cons (k : PlanetType) (v : String) (rest : List (PlanetType × String))
    (value : String) (defaultKey : PlanetType) :
    pTypeMapKey ((k, v) :: rest) value defaultKey
      = if v = value then k else pTypeMapKey rest value defaultKey := by
  unfold pTypeMapKey
  by_cases h : v = value <;> simp [List.find?_cons, h]

theorem pTypeMapKey_init (pTypeMap : List (PlanetType × String)) (s : String) :
    pTypeMapKey (Planet.init pTypeMap) s PlanetType.isUNDEFINED
      = if "star" = s then PlanetType.isStar
        else if "planet" = s then PlanetType.isPlanet
        else if "moon" = s then PlanetType.isMoon
        else if "observer" = s then PlanetType.isObserver
        else if "artificial" = s then PlanetType.isArtificial
        else if "asteroid" = s then PlanetType.isAsteroid
        else if "plutino" = s then PlanetType.isPlutino
        else if "comet" = s then PlanetType.isComet
        else if "dwarf planet" = s then PlanetType.isDwarfPlanet
        else if "cubewano" = s then PlanetType.isCubewano
        else if "scattered disc object" = s then PlanetType.isSDO
        else if "Oort cloud object" = s then PlanetType.isOCO
        else if "sednoid" = s then PlanetType.isSednoid
        else if "interstellar object" = s then PlanetType.isInterstellar
        else PlanetType.isUNDEFINED := by
  rw [Planet.init_eq]
  simp only [pTypeMapKey_cons, pTypeMapKey_nil, ite_self]

/-- C20: after `Planet::init()`, constructing a `Planet` completes if and only if the
body-type string is one of the fourteen registered type names; for every other string,
among them the literal `"UNDEFINED"`, the type resolves to `isUNDEFINED` and the constructor
calls `exit(-1)` instead of returning a body. -/
theorem planetConstructor_completes_iff (pTypeMap : List (PlanetType × String))
    (pTypeStr : String) :
    ((∃ pType, planetConstructor (Planet.init pTypeMap) pTypeStr = Except.ok pType)
        ↔ pTypeStr ∈ registeredTypeNames)
      ∧ (pTypeStr ∉ registeredTypeNames →
          pTypeMapKey (Planet.init pTypeMap) pTypeStr PlanetType.isUNDEFINED
              = PlanetType.isUNDEFINED
            ∧ planetConstructor (Planet.init pTypeMap) pTypeStr = Except.error (-1))
      ∧ "UNDEFINED" ∉ registeredTypeNames
      ∧ planetConstructor (Planet.init pTypeMap) "UNDEFINED" = Except.error (-1)
      ∧ (∀ pType, planetConstructor (Planet.init pTypeMap) pTypeStr = Except.ok pType →
          pType ≠ PlanetType.isUNDEFINED ∧ (pType, pTypeStr) ∈ Planet.init pTypeMap) := by
  have hkey := pTypeMapKey_init pTypeMap
  have hnot : ∀ s, s ∉ registeredTypeNames →
      pTypeMapKey (Planet.init pTypeMap) s PlanetType.isUNDEFINED = PlanetType.isUNDEFINED := by
    intro s hs
    rw [hkey]
    simp only [registeredTypeNames, List.mem_cons, List.mem_singleton, List.not_mem_nil,
      or_false, not_or] at hs
    obtain ⟨h1, h2, h3, h4, h5, h6, h7, h8, h9, h10, h11, h12, h13, h14⟩ := hs
    simp [Ne.symm h1, Ne.symm h2, Ne.symm h3, Ne.symm h4, Ne.symm h5, Ne.symm h6, Ne.symm h7,
      Ne.symm h8, Ne.symm h9, Ne.symm h10, Ne.symm h11, Ne.symm h12, Ne.symm h13,
      Ne.symm h14]
  have hin : ∀ s, s ∈ registeredTypeNames →
      pTypeMapKey (Planet.init pTypeMap) s PlanetType.isUNDEFINED ≠ PlanetType.isUNDEFINED
      ∧ (pTypeMapKey (Planet.init pTypeMap) s PlanetType.isUNDEFINED, s)
          ∈ Planet.init pTypeMap := by
    intro s hs
    rw [hkey, Planet.init_eq]
    simp only [registeredTypeNames, List.mem_cons, List.mem_singleton, List.not_mem_nil,
      or_false] at hs
    rcases hs with h | h | h | h | h | h | h | h | h | h | h | h | h | h <;>
      subst h <;> decide
  have hU : "UNDEFINED" ∉ registeredTypeNames := by decide
  have herr : ∀ s, s ∉ registeredTypeNames →
      planetConstructor (Planet.init pTypeMap) s = Except.error (-1) := by
    intro s hs
    unfold planetConstructor
    simp only [hnot s hs, if_true]
  have hok : ∀ s, s ∈ registeredTypeNames →
      planetConstructor (Planet.init pTypeMap) s
        = Except.ok (pTypeMapKey (Planet.init pTypeMap) s PlanetType.isUNDEFINED) := by
    intro s hs
    unfold planetConstructor
    simp only [if_neg (hin s hs).1]
  refine ⟨⟨?_, fun h => ⟨_, hok _ h⟩⟩, fun h => ⟨hnot _ h, herr _ h⟩, hU, herr _ hU, ?_⟩
  · rintro ⟨pType, h⟩
    by_contra hs
    rw [herr _ hs] at h
    exact Except.noConfusion h
  · intro pType h
    by_cases hs : pTypeStr ∈ registeredTypeNames
    · rw [hok _ hs] at h
      have he : pTypeMapKey (Planet.init pTypeMap) pTypeStr PlanetType.isUNDEFINED = pType :=
        Except.ok.inj h
      rw [← he]
      exact hin _ hs
    · rw [herr _ hs] at h
      exact Except.noConfusion h

/-! ## `setHeliocentricEclipticPos` and `getHeliocentricEclipticVelocity` -/

theorem Vec3d.add_def {α : Type} [Add α] (a b : Vec3d α) :
    a + b = ⟨a.x + b.x, a.y + b.y, a.z + b.z⟩ := rfl

theorem Vec3d.sub_add_cancel {α : Type} [AddCommGroup α] (x a : Vec3d α) : x - a + a = x := by
  cases x; cases a
  simp [Vec3d.add_def, Vec3d.sub_def]

theorem Vec3d.add_right_comm {α : Type} [AddCommGroup α] (x a b : Vec3d α) :
    x + a + b = x + b + a := by
  cases x; cases a; cases b
  simp only [Vec3d.add_def, Vec3d.mk.injEq]
  exact ⟨by abel, by abel, by abel⟩

theorem Vec3d.foldl_add_comm {α : Type} [AddCommGroup α] (ps : List (Vec3d α)) :
    ∀ x a : Vec3d α, ps.foldl (· + ·) (x + a) = ps.foldl (· + ·) x + a := by
  induction ps with
  | nil => intro x a; rfl
  | cons b ps ih =>
    intro x a
    simp only [List.foldl_cons]
    rw [Vec3d.add_right_comm x a b, ih]

theorem Vec3d.foldl_add_foldl_sub {α : Type} [AddCommGroup α] (ps : List (Vec3d α)) :
    ∀ pos : Vec3d α, ps.foldl (· + ·) (ps.foldl (· - ·) pos) = pos := by
  induction ps with
  | nil => intro pos; rfl
  | cons a ps ih =>
    intro pos
    simp only [List.foldl_cons]
    have h : ps.foldl (· + ·) (ps.foldl (· - ·) (pos - a) + a)
        = ps.foldl (· + ·) (ps.foldl (· - ·) (pos - a)) + a :=
      Vec3d.foldl_add_comm ps _ a
    rw [h, ih (pos - a), Vec3d.sub_add_cancel]

theorem eclipticVelocities_cons {α : Type} (bodies : List (Planet α)) (c : Nat)
    (body : Planet α) (rest : List Nat) (hc : deref bodies c = some body) :
    eclipticVelocities bodies (c :: rest)
      = body.eclipticVelocity :: eclipticVelocities bodies rest := by
  simp [eclipticVelocities, hc]

theorem setHeliocentricEclipticPosLoop_chain {α : Type} [Sub α] (bodies : List (Planet α)) :
    ∀ (chain : List Nat) (c fuel : Nat) (p : Vec3d α),
      isParentChain bodies c chain = true → chain.length + 1 ≤ fuel →
      setHeliocentricEclipticPosLoop bodies fuel c p
        = some ((eclipticPositions bodies (c :: chain).dropLast).foldl (· - ·) p) := by
  intro chain
  induction chain with
  | nil =>
    intro c fuel p hchain hfuel
    obtain ⟨k, rfl⟩ : ∃ k, fuel = k + 1 := ⟨fuel - 1, by omega⟩
    unfold isParentChain at hchain
    unfold setHeliocentricEclipticPosLoop
    cases hc : deref bodies c with
    | none => simp [hc] at hchain
    | some body =>
      simp only [hc] at hchain
      cases hp : body.parent with
      | none => simp [eclipticPositions, hp]
      | some g => simp [hp] at hchain
  | cons d rest ih =>
    intro c fuel p hchain hfuel
    obtain ⟨k, rfl⟩ : ∃ k, fuel = k + 1 := ⟨fuel - 1, by simp at hfuel; omega⟩
    unfold isParentChain at hchain
    unfold setHeliocentricEclipticPosLoop
    cases hc : deref bodies c with
    | none => simp [hc] at hchain
    | some body =>
      simp only [hc, Bool.and_eq_true, beq_iff_eq] at hchain
      obtain ⟨hp, hrest⟩ := hchain
      have hk : rest.length + 1 ≤ k := by simp at hfuel; omega
      simp only [hp]
      rw [ih d k (p - body.eclipticPos) hrest hk]
      have hdrop : (c :: d :: rest).dropLast = c :: (d :: rest).dropLast := rfl
      rw [hdrop, eclipticPositions_cons bodies c body _ hc]
      rfl

theorem getHeliocentricEclipticVelocityLoop_chain {α : Type} [Add α]
    (bodies : List (Planet α)) :
    ∀ (chain : List Nat) (c fuel : Nat) (v : Vec3d α),
      isParentChain bodies c chain = true → chain.length + 1 ≤ fuel →
      getHeliocentricEclipticVelocityLoop bodies fuel c v
        = some ((eclipticVelocities bodies (c :: chain).dropLast).foldl (· + ·) v) := by
  intro chain
  induction chain with
  | nil =>
    intro c fuel v hchain hfuel
    obtain ⟨k, rfl⟩ : ∃ k, fuel = k + 1 := ⟨fuel - 1, by omega⟩
    unfold isParentChain at hchain
    unfold getHeliocentricEclipticVelocityLoop
    cases hc : deref bodies c with
    | none => simp [hc] at hchain
    | some body =>
      simp only [hc] at hchain
      cases hp : body.parent with
      | none => simp [eclipticVelocities, hp]
      | some g => simp [hp] at hchain
  | cons d rest ih =>
    intro c fuel v hchain hfuel
    obtain ⟨k, rfl⟩ : ∃ k, fuel = k + 1 := ⟨fuel - 1, by simp at hfuel; omega⟩
    unfold isParentChain at hchain
    unfold getHeliocentricEclipticVelocityLoop
    cases hc : deref bodies c with
    | none => simp [hc] at hchain
    | some body =>
      simp only [hc, Bool.and_eq_true, beq_iff_eq] at hchain
      obtain ⟨hp, hrest⟩ := hchain
      have hk : rest.length + 1 ≤ k := by simp at hfuel; omega
      simp only [hp]
      rw [ih d k (v + body.eclipticVelocity) hrest hk]
      have hdrop : (c :: d :: rest).dropLast = c :: (d :: rest).dropLast := rfl
      rw [hdrop, eclipticVelocities_cons bodies c body _ hc]
      rfl

theorem deref_set_ne {α : Type} (bodies : List (Planet α)) (this j : Nat) (b : Planet α)
    (h : j ≠ this) : deref (bodies.set this b) j = deref bodies j := by
  unfold deref
  rw [List.getElem?_set_ne (Ne.symm h)]

theorem deref_set_self {α : Type} (bodies : List (Planet α)) (this : Nat)
    (body b : Planet α) (h : deref bodies this = some body) :
    deref (bodies.set this b) this = some b := by
  unfold deref at h ⊢
  have hlt : this < bodies.length := by
    by_contra hge
    rw [List.getElem?_eq_none (not_lt.mp hge)] at h
    exact Option.noConfusion h
  rw [List.getElem?_set_self hlt]

theorem isParentChain_set {α : Type} (bodies : List (Planet α)) (this : Nat) (b : Planet α) :
    ∀ (chain : List Nat) (c : Nat), c ≠ this → this ∉ chain →
      isParentChain bodies c chain = true →
      isParentChain (bodies.set this b) c chain = true := by
  intro chain
  induction chain with
  | nil =>
    intro c hc _ h
    unfold isParentChain at h ⊢
    rw [deref_set_ne bodies this c b hc]
    exact h
  | cons d rest ih =>
    intro c hc hnot h
    unfold isParentChain at h ⊢
    rw [deref_set_ne bodies this c b hc]
    cases hb : deref bodies c with
    | none => simp [hb] at h
    | some body =>
      simp only [hb, Bool.and_eq_true, beq_iff_eq] at h ⊢
      have hd : d ≠ this := fun e => hnot (by simp [e])
      have hr : this ∉ rest := fun e => hnot (by simp [e])
      exact ⟨h.1, ih d hd hr h.2⟩

theorem eclipticPositions_set {α : Type} (bodies : List (Planet α)) (this : Nat)
    (b : Planet α) (ps : List Nat) (h : this ∉ ps) :
    eclipticPositions (bodies.set this b) ps = eclipticPositions bodies ps := by
  unfold eclipticPositions
  apply List.filterMap_congr
  intro p hp
  have hne : p ≠ this := fun e => h (e ▸ hp)
  rw [deref_set_ne bodies this p b hne]

/-- The value that `getHeliocentricPos` returns along a parent chain, for a body given
together with its record. -/
theorem getHeliocentricPos_of_chain {α : Type} [Add α] (bodies : List (Planet α))
    (this : Nat) (body : Planet α) (chain : List Nat) (fuel : Nat) (p : Vec3d α)
    (hthis : deref bodies this = some body)
    (hparent : ∀ c rest, chain = c :: rest →
      body.parent = some c ∧ isParentChain bodies c rest = true)
    (hroot : chain = [] → body.parent = none) (hfuel : chain.length ≤ fuel) :
    getHeliocentricPos bodies fuel this p
      = some ((eclipticPositions bodies chain.dropLast).foldl (· + ·) p) := by
  unfold getHeliocentricPos
  simp only [hthis]
  cases chain with
  | nil => simp [hroot rfl, eclipticPositions]
  | cons c rest =>
    obtain ⟨hp, hrest⟩ := hparent c rest rfl
    simp only [hp]
    exact getHeliocentricPosLoop_chain bodies rest c fuel p hrest (by simpa using hfuel)

/-- C30: for a body `this` of a tree-shaped hierarchy (its parent chain ends at a root and
does not contain `this`), with enough fuel for the chain: `setHeliocentricEclipticPos(pos)`
stores `pos - a₁.eclipticPos - ... - aₖ.eclipticPos` over the ancestors below the root and
changes no other body; afterwards `getHeliocentricPos(eclipticPos)` returns `pos`; and
`getHeliocentricEclipticVelocity()` adds to the velocity of the body the `eclipticVelocity`
of the same ancestors, those over which `getHeliocentricPos` adds `eclipticPos`. -/
theorem heliocentricEclipticPos_round_trip {α : Type} [AddCommGroup α]
    (bodies : List (Planet α)) (fuel this : Nat) (body : Planet α) (chain : List Nat)
    (pos : Vec3d α) (hthis : deref bodies this = some body)
    (hchain : isParentChain bodies this chain = true) (hnot : this ∉ chain)
    (hfuel : chain.length ≤ fuel) :
    (∃ bodies2 body2, setHeliocentricEclipticPos bodies fuel this pos = some bodies2
        ∧ deref bodies2 this = some body2
        ∧ body2.eclipticPos = (eclipticPositions bodies chain.dropLast).foldl (· - ·) pos
        ∧ (∀ j, j ≠ this → deref bodies2 j = deref bodies j)
        ∧ getHeliocentricPos bodies2 fuel this body2.eclipticPos = some pos)
      ∧ getHeliocentricEclipticVelocity bodies fuel this
          = some ((eclipticVelocities bodies chain.dropLast).foldl (· + ·)
              body.eclipticVelocity)
      ∧ getHeliocentricPos bodies fuel this body.eclipticPos
          = some ((eclipticPositions bodies chain.dropLast).foldl (· + ·) body.eclipticPos) := by
  have hpar : ∀ c rest, chain = c :: rest →
      body.parent = some c ∧ isParentChain bodies c rest = true := by
    intro c rest hc
    subst hc
    unfold isParentChain at hchain
    simpa [hthis] using hchain
  have hroot : chain = [] → body.parent = none := by
    intro hc
    subst hc
    unfold isParentChain at hchain
    simpa [hthis] using hchain
  have hset : setHeliocentricEclipticPos bodies fuel this pos
      = some (bodies.set this { body with eclipticPos :=
          (eclipticPositions bodies chain.dropLast).foldl (· - ·) pos }) := by
    unfold setHeliocentricEclipticPos
    simp only [hthis]
    cases chain with
    | nil => simp [hroot rfl, eclipticPositions]
    | cons c rest =>
      obtain ⟨hp, hrest⟩ := hpar c rest rfl
      simp only [hp]
      rw [setHeliocentricEclipticPosLoop_chain bodies rest c fuel pos hrest
        (by simpa using hfuel)]
  have hex : ∃ b2 : Planet α, b2 = { body with
      eclipticPos := (eclipticPositions bodies chain.dropLast).foldl (· - ·) pos } := ⟨_, rfl⟩
  obtain ⟨b2, hb2⟩ := hex
  rw [← hb2] at hset
  have hb2pos : b2.eclipticPos = (eclipticPositions bodies chain.dropLast).foldl (· - ·) pos := by
    rw [hb2]
  have hb2par : b2.parent = body.parent := by rw [hb2]
  have hnotdrop : this ∉ chain.dropLast := fun h => hnot (List.mem_of_mem_dropLast h)
  refine ⟨⟨bodies.set this b2, b2, hset, deref_set_self bodies this body b2 hthis, hb2pos,
    fun j hj => deref_set_ne bodies this j b2 hj, ?_⟩, ?_, ?_⟩
  · rw [getHeliocentricPos_of_chain (bodies.set this b2) this b2 chain fuel _
      (deref_set_self bodies this body b2 hthis) ?_ ?_ hfuel,
      eclipticPositions_set bodies this b2 _ hnotdrop, hb2pos, Vec3d.foldl_add_foldl_sub]
    · intro c rest hc
      obtain ⟨hp, hrest⟩ := hpar c rest hc
      have hcne : c ≠ this := fun e => hnot (by simp [hc, e])
      have hr : this ∉ rest := fun e => hnot (by simp [hc, e])
      exact ⟨hb2par.trans hp, isParentChain_set bodies this b2 rest c hcne hr hrest⟩
    · intro hc
      exact hb2par.trans (hroot hc)
  · unfold getHeliocentricEclipticVelocity
    simp only [hthis]
    cases chain with
    | nil => simp [hroot rfl, eclipticVelocities]
    | cons c rest =>
      obtain ⟨hp, hrest⟩ := hpar c rest rfl
      simp only [hp]
      exact getHeliocentricEclipticVelocityLoop_chain bodies rest c fuel _ hrest
        (by simpa using hfuel)
  · exact getHeliocentricPos_of_chain bodies this body chain fuel _ hthis hpar hroot hfuel

theorem heliocentricEclipticPos_round_trip_witness :
    deref exampleSystem 2 = some exampleMoon ∧ isParentChain exampleSystem 2 [1, 0] = true
      ∧ 2 ∉ [1, 0] ∧ [1, 0].length ≤ 2
      ∧ setHeliocentricEclipticPos exampleSystem 2 2 ⟨11, 22, 33⟩
          = some [exampleSun, examplePlanet, { exampleMoon with eclipticPos := ⟨1, 2, 3⟩ }]
      ∧ getHeliocentricEclipticVelocity exampleSystem 2 2
          = some ((eclipticVelocities exampleSystem [1]).foldl (· + ·)
              exampleMoon.eclipticVelocity) :=
  ⟨rfl, by decide, by decide, by decide, by rfl,
    (heliocentricEclipticPos_round_trip exampleSystem 2 2 exampleMoon [1, 0] ⟨11, 22, 33⟩ rfl
      (by decide) (by decide) (by decide)).2.1⟩

/-! ## The shadow test -/

/-- C26: `willCastShadow(thisPlanet, p)` returns false whenever `p` is farther from the Sun
than `thisPlanet` (`|pos(p)|² > |pos(this)|²`); otherwise it returns true if and only if the
distance between the position of `thisPlanet` and the point of the Sun-`p` axis at the axial
distance of `thisPlanet` is strictly less than `penumbraRadius` plus the equatorial radius
of `thisPlanet`, with `penumbraRadius = (shadowDistance - d)/d * sunRadius` and
`d = |pos(p)| / (radius(p)/sunRadius + 1)`. -/
theorem willCastShadow_iff (AU : ℝ) (thisPos : Vec3d ℝ) (thisRadius : ℝ)
    (planetPos : Vec3d ℝ) (planetRadius : ℝ) :
    (planetPos.lengthSquared > thisPos.lengthSquared →
        willCastShadow AU thisPos thisRadius planetPos planetRadius = false)
      ∧ (¬ planetPos.lengthSquared > thisPos.lengthSquared →
          (willCastShadow AU thisPos thisRadius planetPos planetRadius = true
            ↔ distanceFromAxis thisPos planetPos
                < penumbraRadius AU planetPos planetRadius (axialDistance thisPos planetPos)
                  + thisRadius))
      ∧ (∀ shadowDistance,
          penumbraRadius AU planetPos planetRadius shadowDistance
            = (shadowDistance - planetPos.length / (planetRadius / (696000 / AU) + 1))
              / (planetPos.length / (planetRadius / (696000 / AU) + 1)) * (696000 / AU)) := by
  refine ⟨?_, ?_, ?_⟩
  · intro h
    simp [willCastShadow, h]
  · intro h
    simp only [willCastShadow, if_neg h, distanceFromAxis, penumbraRadius, axialDistance,
      sunRadius]
    by_cases hc : ((planetPos.normalize.scale (planetPos.normalize.dot thisPos)
        - thisPos).length
        < (planetPos.normalize.dot thisPos
            - planetPos.length / (planetRadius / (696000.0 / AU) + 1))
          / (planetPos.length / (planetRadius / (696000.0 / AU) + 1)) * (696000.0 / AU)
          + thisRadius)
    · simp [hc]
    · simp [hc]
  · intro shadowDistance
    simp only [penumbraRadius, sunRadius]
    norm_num

/-- C29: in `willCastShadow`, for an occluder at heliocentric position `P ≠ 0` with
equatorial radius `r ≥ 0` (and the constant `AU` positive), the penumbra radius at the
distance of the occluder itself, `shadowDistance = |P|`, is exactly `r`, and the penumbra
radius is strictly increasing in `shadowDistance`. -/
theorem penumbraRadius_at_occluder (AU : ℝ) (P : Vec3d ℝ) (r : ℝ) (hAU : 0 < AU)
    (hP : P ≠ 0) (hr : 0 ≤ r) :
    penumbraRadius AU P r P.length = r ∧ StrictMono (penumbraRadius AU P r) := by
  have hs : 0 < sunRadius AU := by unfold sunRadius; positivity
  have hlen : 0 < P.length := Real.sqrt_pos.mpr (Vec3d.lengthSquared_pos hP)
  have hk : 0 < r / sunRadius AU + 1 := by positivity
  have hd : 0 < P.length / (r / sunRadius AU + 1) := div_pos hlen hk
  constructor
  · unfold penumbraRadius
    field_simp
    ring
  · intro a b hab
    unfold penumbraRadius
    have h1 : (a - P.length / (r / sunRadius AU + 1)) / (P.length / (r / sunRadius AU + 1))
        < (b - P.length / (r / sunRadius AU + 1)) / (P.length / (r / sunRadius AU + 1)) :=
      div_lt_div_of_pos_right (by linarith) hd
    exact mul_lt_mul_of_pos_right h1 hs

theorem penumbraRadius_at_occluder_witness :
    (0 : ℝ) < 149597870.691 ∧ (⟨1, 0, 0⟩ : Vec3d ℝ) ≠ 0 ∧ (0 : ℝ) ≤ 1 / 2
      ∧ penumbraRadius 149597870.691 ⟨1, 0, 0⟩ (1 / 2) (Vec3d.length ⟨1, 0, 0⟩) = 1 / 2 :=
  ⟨by norm_num, by simp [Vec3d.zero_def], by norm_num,
    (penumbraRadius_at_occluder 149597870.691 ⟨1, 0, 0⟩ (1 / 2) (by norm_num)
      (by simp [Vec3d.zero_def]) (by norm_num)).1⟩

/-! ## Prime-meridian corrections of the moons of Neptune -/

/-- The six moons Naiad, Thalassa, Despina, Galatea, Larissa and Proteus: in the IAU model
with parent Neptune, `getSiderealTime` is the same for two contexts whose tables agree on
the angles of the Neptune group. -/
theorem getSiderealTime_inner_neptune_moons (ctx1 ctx2 : SiderealTimeContext)
    (bodies : List (PlanetRot ℝ)) (this par : PlanetRot ℝ) (p : Nat) (JD1 JD2 JDE : ℝ)
    (hmethod : this.re.method = ComputationMethod.WGCCRE)
    (hparent : this.parent = some p) (hpar : derefRot bodies p = some par)
    (hparname : par.englishName = "Neptune")
    (hname : this.englishName ∈
      ["Naiad", "Thalassa", "Despina", "Galatea", "Larissa", "Proteus"])
    (hagree : ctx1.planetCorrections.angles PlanetCorrection.Neptune
      = ctx2.planetCorrections.angles PlanetCorrection.Neptune) :
    getSiderealTime ctx1 bodies this JD1 JDE = getSiderealTime ctx2 bodies this JD2 JDE := by
  simp only [PlanetCorrections.angles, List.cons.injEq, and_true] at hagree
  obtain ⟨hNa, hN1, hN2, hN3, hN4, hN5, hN6, _⟩ := hagree
  simp only [List.mem_cons, List.mem_singleton, List.not_mem_nil, or_false] at hname
  unfold getSiderealTime
  rcases hname with h | h | h | h | h | h <;>
    simp [hmethod, hparent, hpar, hparname, h, hNa, hN1, hN2, hN3, hN4, hN5, hN6]

/-- C24 fails on the code for Triton: two tables that agree on the whole Neptune group
(timestamp and angles) and differ only in the angle `U12` of the Uranus group give different
values of `getSiderealTime` for Triton, because its correction reads `U12` and `U13`. -/
theorem getSiderealTime_triton_reads_uranus_group (JD JDE : ℝ) :
    exampleUranusShiftedContext.planetCorrections.angles PlanetCorrection.Neptune
        = exampleSiderealTimeContext.planetCorrections.angles PlanetCorrection.Neptune
      ∧ exampleUranusShiftedContext.planetCorrections.timestamp PlanetCorrection.Neptune
        = exampleSiderealTimeContext.planetCorrections.timestamp PlanetCorrection.Neptune
      ∧ getSiderealTime exampleSiderealTimeContext exampleNeptuneSystem exampleTritonRot JD JDE
        = some (exampleTritonRot.re.W0
            + remainder ((JDE - J2000) * exampleTritonRot.re.W1) 360)
      ∧ getSiderealTime exampleUranusShiftedContext exampleNeptuneSystem exampleTritonRot JD JDE
        = some (exampleTritonRot.re.W0
            + remainder ((JDE - J2000) * exampleTritonRot.re.W1) 360 + 0.05)
      ∧ getSiderealTime exampleUranusShiftedContext exampleNeptuneSystem exampleTritonRot JD JDE
        ≠ getSiderealTime exampleSiderealTimeContext exampleNeptuneSystem exampleTritonRot
            JD JDE := by
  have hm : exampleTritonRot.re.method = ComputationMethod.WGCCRE :=
    rotationMethodOf_of_ne_zero _ (by norm_num)
  have hpar : exampleTritonRot.parent.bind (derefRot exampleNeptuneSystem)
      = some exampleNeptuneRot := rfl
  have hn : exampleTritonRot.englishName = "Triton" := rfl
  have hpn : exampleNeptuneRot.englishName = "Neptune" := rfl
  have h360 : (360.0 : ℝ) = 360 := by norm_num
  have h1 : getSiderealTime exampleSiderealTimeContext exampleNeptuneSystem exampleTritonRot
      JD JDE = some (exampleTritonRot.re.W0
        + remainder ((JDE - J2000) * exampleTritonRot.re.W1) 360) := by
    unfold getSiderealTime
    simp [hm, hpar, hn, hpn, h360, exampleSiderealTimeContext, exampleCorrections]
  have h2 : getSiderealTime exampleUranusShiftedContext exampleNeptuneSystem exampleTritonRot
      JD JDE = some (exampleTritonRot.re.W0
        + remainder ((JDE - J2000) * exampleTritonRot.re.W1) 360 + 0.05) := by
    unfold getSiderealTime
    simp [hm, hpar, hn, hpn, h360, exampleUranusShiftedContext, exampleSiderealTimeContext,
      exampleCorrections]
  refine ⟨rfl, rfl, h1, h2, ?_⟩
  rw [h1, h2]
  intro h
  have := Option.some.inj h
  linarith

/-! ## `getMeanOppositionMagnitude` -/

theorem log10_of_nonpos (x : ℝ) (h : x ≤ 0) : log10 x = none := by
  unfold log10
  rw [if_neg (not_lt.mpr h)]

/-- C21 fails on the code: for an asteroid with absolute magnitude 19.7 on an orbit with
`q = 0.45`, `e = 0.5`, the semimajor axis is `a = 0.9 > 0`, so the guard `semimajorAxis > 0`
lets it reach the formula, where the argument `a*(a-1) = -0.09` of `log10` is negative:
`getMeanOppositionMagnitude()` yields no defined value. -/
theorem getMeanOppositionMagnitude_undefined :
    (KeplerOrbit.mk 0.45 0.5 0 0 0 2451545 0 0 : KeplerOrbit ℝ).getSemimajorAxis = 0.9
      ∧ (0.9 : ℝ) > 0 ∧ (0.9 : ℝ) * (0.9 - 1) < 0
      ∧ getMeanOppositionMagnitude exampleAtenSystem exampleAtenPhot = none := by
  have ha : (KeplerOrbit.mk 0.45 0.5 0 0 0 2451545 0 0 : KeplerOrbit ℝ).getSemimajorAxis
      = 0.9 := by
    unfold KeplerOrbit.getSemimajorAxis
    norm_num
  refine ⟨ha, by norm_num, by norm_num, ?_⟩
  have hpar : exampleAtenPhot.parent.bind (derefPhot exampleAtenSystem) = some exampleSunPhot :=
    rfl
  have hmag : ¬ exampleAtenPhot.absoluteMagnitude ≤ -99 := by
    simp only [exampleAtenPhot]; norm_num
  have hname : meanOppositionNameMap.lookup exampleAtenPhot.englishName = none := by
    simp [meanOppositionNameMap, exampleAtenPhot, List.lookup]
  have horbit : exampleAtenPhot.orbitPtr
      = some (KeplerOrbit.mk 0.45 0.5 0 0 0 2451545 0 0) := rfl
  have htype : exampleAtenPhot.pType.val ≥ PlanetType.isAsteroid.val := by decide
  unfold getMeanOppositionMagnitude
  simp only [if_neg hmag, hname, hpar, horbit, if_pos htype, ha]
  rw [if_pos (by norm_num), log10_of_nonpos _ (by norm_num)]
  rfl

/-! ## `getVMagnitude` for the Galilean moons -/

theorem arcsin_add_mul_sqrt_gt (x : ℝ) (h1 : -1 < x) (h2 : x ≤ 1) :
    -(Real.pi / 2) < Real.arcsin x + x * Real.sqrt (1.0 - x * x) := by
  have hθ1 : -(Real.pi / 2) < Real.arcsin x := Real.neg_pi_div_two_lt_arcsin.mpr h1
  have hθ2 : Real.arcsin x ≤ Real.pi / 2 := Real.arcsin_le_pi_div_two x
  have hsin : Real.sin (Real.arcsin x) = x := Real.sin_arcsin h1.le h2
  have hcos : Real.cos (Real.arcsin x) = Real.sqrt (1.0 - x * x) := by
    rw [Real.cos_arcsin]
    congr 1
    norm_num
    ring
  have hcos0 : 0 ≤ Real.cos (Real.arcsin x) :=
    Real.cos_nonneg_of_neg_pi_div_two_le_of_le hθ1.le hθ2
  have hlt : Real.cos (Real.arcsin x) < Real.arcsin x + Real.pi / 2 := by
    rw [← Real.sin_add_pi_div_two]
    exact Real.sin_lt (by linarith)
  rw [← hcos]
  have hx : -1 ≤ x := h1.le
  nlinarith [mul_nonneg (by linarith : (0 : ℝ) ≤ x + 1) hcos0]

theorem partial_shadowFactor_lt_one (x : ℝ) (h1 : -1 < x) (h2 : x ≤ 1) :
    0.5 - (Real.arcsin x + x * Real.sqrt (1.0 - x * x)) / Real.pi < 1 := by
  have hpi : 0 < Real.pi := Real.pi_pos
  have h := arcsin_add_mul_sqrt_gt x h1 h2
  have hdiv : -(1 / 2) < (Real.arcsin x + x * Real.sqrt (1.0 - x * x)) / Real.pi := by
    rw [lt_div_iff₀ hpi]
    linarith
  norm_num at hdiv ⊢
  linarith

theorem getVMagnitude_galilean (ctx : VMagnitudeContext) (bodies : List (PlanetPhot ℝ))
    (this par : PlanetPhot ℝ) (p : Nat) (planetHelioPos parentHeliopos : Vec3d ℝ) (s : ℝ)
    (hparent : this.parent = some p) (hpar : derefPhot bodies p = some par)
    (hloc : ctx.locationPlanetName = "Earth")
    (halg : ctx.algorithm = ApparentMagnitudeAlgorithm.ExplanatorySupplement_2013
      ∨ ctx.algorithm = ApparentMagnitudeAlgorithm.UndefinedAlgorithm)
    (hname : this.englishName ∈ ["Io", "Europa", "Ganymede", "Callisto"])
    (hs : shadowFactorOf bodies this par planetHelioPos parentHeliopos = some s) :
    getVMagnitude ctx bodies this planetHelioPos parentHeliopos
      = if s < 1 then some 21
        else (log10 (distanceProduct planetHelioPos ctx.observerHelioPos)).map
          (fun l => galileanPolynomial this.englishName (5 * l)
            (getPhaseAngle planetHelioPos ctx.observerHelioPos * M_180_PI)) := by
  have h1 : (1.0 : ℝ) = 1 := by norm_num
  have h21 : (21.0 : ℝ) = 21 := by norm_num
  have h5 : (5.0 : ℝ) = 5 := by norm_num
  simp only [List.mem_cons, List.mem_singleton, List.not_mem_nil, or_false] at hname
  unfold getVMagnitude
  simp only [hparent, hpar, hs, hloc, if_true]
  rcases halg with ha | ha <;> rcases hname with hn | hn | hn | hn <;>
    simp [empiricalMagnitude, ha, hn, galileanPolynomial, distanceProduct, getPhaseAngle, h1,
      h21, h5, Option.map_map, Function.comp_def]

theorem shadowFactorOf_outside (bodies : List (PlanetPhot ℝ)) (this par : PlanetPhot ℝ)
    (planetHelioPos parentHeliopos : Vec3d ℝ)
    (h : par.parent = none
      ∨ ¬ planetHelioPos.dot parentHeliopos > parentHeliopos.lengthSquared) :
    shadowFactorOf bodies this par planetHelioPos parentHeliopos = some 1 := by
  have h1 : (1.0 : ℝ) = 1 := by norm_num
  unfold shadowFactorOf
  rcases h with h | h
  · simp [h, h1]
  · cases hp : par.parent with
    | none => simp [h1]
    | some gp => simp [h, h1]

theorem shadowFactorOf_behind (bodies : List (PlanetPhot ℝ)) (this par sun : PlanetPhot ℝ)
    (gp : Nat) (planetHelioPos parentHeliopos : Vec3d ℝ)
    (hgp : par.parent = some gp) (hsun : derefPhot bodies gp = some sun)
    (hbehind : planetHelioPos.dot parentHeliopos > parentHeliopos.lengthSquared)
    (hmoon : this.englishName ≠ "Moon") (hrad : 0 < this.equatorialRadius) :
    (innerShadowDepth sun.equatorialRadius par.equatorialRadius planetHelioPos parentHeliopos
        ≤ -this.equatorialRadius →
      shadowFactorOf bodies this par planetHelioPos parentHeliopos = some 1)
    ∧ (-this.equatorialRadius
        < innerShadowDepth sun.equatorialRadius par.equatorialRadius planetHelioPos
            parentHeliopos →
      ∃ s, shadowFactorOf bodies this par planetHelioPos parentHeliopos = some s ∧ s < 1) := by
  have h1 : (1.0 : ℝ) = 1 := by norm_num
  constructor
  · intro hd
    have hnot1 : ¬ innerShadowDepth sun.equatorialRadius par.equatorialRadius planetHelioPos
        parentHeliopos ≥ this.equatorialRadius := by
      intro hge
      have : this.equatorialRadius ≤ -this.equatorialRadius := le_trans hge hd
      linarith
    have hnot2 : ¬ innerShadowDepth sun.equatorialRadius par.equatorialRadius planetHelioPos
        parentHeliopos > -this.equatorialRadius := not_lt.mpr hd
    unfold shadowFactorOf
    simp only [hgp, hsun, if_pos hbehind, if_neg hnot1, if_neg hnot2, h1]
  · intro hd
    by_cases hfull : innerShadowDepth sun.equatorialRadius par.equatorialRadius planetHelioPos
        parentHeliopos ≥ this.equatorialRadius
    · refine ⟨1e-9, ?_, by norm_num⟩
      unfold shadowFactorOf
      simp only [hgp, hsun, if_pos hbehind, if_pos hfull, if_neg hmoon]
    · refine ⟨_, ?_, partial_shadowFactor_lt_one
        (innerShadowDepth sun.equatorialRadius par.equatorialRadius planetHelioPos
          parentHeliopos / this.equatorialRadius) ?_ ?_⟩
      · unfold shadowFactorOf
        simp only [hgp, hsun, if_pos hbehind, if_neg hfull, if_pos hd]
      · rw [lt_div_iff₀ hrad]
        linarith
      · rw [div_le_iff₀ hrad]
        linarith [not_le.mp hfull]

/-- C25, amended: for Io, Europa, Ganymede and Callisto (of positive radius) seen from Earth
with the `ExplanatorySupplement_2013` or undefined algorithm, `getVMagnitude` returns the
sentinel `21.0` exactly when `shadowFactor < 1`, that is when the moon is farther from the
Sun than its parent and `d > -equatorialRadius`: totally (`d >= equatorialRadius`) or partly
(`-equatorialRadius < d < equatorialRadius`) inside the inner shadow of its parent.  In
every other case it returns the phase polynomial of the moon. -/
theorem getVMagnitude_galilean_sentinel (ctx : VMagnitudeContext)
    (bodies : List (PlanetPhot ℝ)) (this par : PlanetPhot ℝ) (p : Nat)
    (planetHelioPos parentHeliopos : Vec3d ℝ)
    (hparent : this.parent = some p) (hpar : derefPhot bodies p = some par)
    (hloc : ctx.locationPlanetName = "Earth")
    (halg : ctx.algorithm = ApparentMagnitudeAlgorithm.ExplanatorySupplement_2013
      ∨ ctx.algorithm = ApparentMagnitudeAlgorithm.UndefinedAlgorithm)
    (hname : this.englishName ∈ ["Io", "Europa", "Ganymede", "Callisto"])
    (hrad : 0 < this.equatorialRadius)
    (hgp : ∀ gp, par.parent = some gp → ∃ sun, derefPhot bodies gp = some sun) :
    ((∃ gp sun, par.parent = some gp ∧ derefPhot bodies gp = some sun
          ∧ planetHelioPos.dot parentHeliopos > parentHeliopos.lengthSquared
          ∧ -this.equatorialRadius
            < innerShadowDepth sun.equatorialRadius par.equatorialRadius planetHelioPos
                parentHeliopos) →
        getVMagnitude ctx bodies this planetHelioPos parentHeliopos = some 21)
      ∧ (¬ (∃ gp sun, par.parent = some gp ∧ derefPhot bodies gp = some sun
          ∧ planetHelioPos.dot parentHeliopos > parentHeliopos.lengthSquared
          ∧ -this.equatorialRadius
            < innerShadowDepth sun.equatorialRadius par.equatorialRadius planetHelioPos
                parentHeliopos) →
        getVMagnitude ctx bodies this planetHelioPos parentHeliopos
          = (log10 (distanceProduct planetHelioPos ctx.observerHelioPos)).map
              (fun l => galileanPolynomial this.englishName (5 * l)
                (getPhaseAngle planetHelioPos ctx.observerHelioPos * M_180_PI))) := by
  have hmoon : this.englishName ≠ "Moon" := by
    intro h
    rw [h] at hname
    revert hname
    decide
  constructor
  · rintro ⟨gp, sun, h1, h2, h3, h4⟩
    obtain ⟨s, hs, hlt⟩ := (shadowFactorOf_behind bodies this par sun gp planetHelioPos
      parentHeliopos h1 h2 h3 hmoon hrad).2 h4
    rw [getVMagnitude_galilean ctx bodies this par p planetHelioPos parentHeliopos s hparent
      hpar hloc halg hname hs, if_pos hlt]
  · intro hnot
    have hs : shadowFactorOf bodies this par planetHelioPos parentHeliopos = some 1 := by
      cases hp : par.parent with
      | none => exact shadowFactorOf_outside bodies this par _ _ (Or.inl hp)
      | some gp =>
        obtain ⟨sun, hsun⟩ := hgp gp hp
        by_cases hb : planetHelioPos.dot parentHeliopos > parentHeliopos.lengthSquared
        · refine (shadowFactorOf_behind bodies this par sun gp planetHelioPos parentHeliopos
            hp hsun hb hmoon hrad).1 ?_
          by_contra hd
          exact hnot ⟨gp, sun, hp, hsun, hb, not_le.mp hd⟩
        · exact shadowFactorOf_outside bodies this par _ _ (Or.inr hb)
    rw [getVMagnitude_galilean ctx bodies this par p planetHelioPos parentHeliopos 1 hparent
      hpar hloc halg hname hs, if_neg (lt_irrefl 1)]

theorem exampleIo_innerShadowDepth :
    innerShadowDepth exampleJovianSunPhot.equatorialRadius
      exampleJupiterPhot.equatorialRadius exampleIoPos exampleJupiterPos = 0 := by
  have h25 : Real.sqrt 25 = 5 := by
    rw [show (25 : ℝ) = 5 * 5 by norm_num]
    exact Real.sqrt_mul_self (by norm_num)
  have hs : Real.sqrt (0.0004998 * 0.0004998) = 0.0004998 :=
    Real.sqrt_mul_self (by norm_num)
  have hlen : exampleJupiterPos.lengthSquared = 25 := by
    simp [exampleJupiterPos, Vec3d.lengthSquared]
    norm_num
  have hdot : exampleIoPos.dot exampleJupiterPos = 25.014 := by
    simp [exampleIoPos, exampleJupiterPos, Vec3d.dot]
    norm_num
  have hIo : exampleIoPos.lengthSquared = 25.02800809 := by
    simp [exampleIoPos, Vec3d.lengthSquared]
    norm_num
  have harg : (1.0 - (0.004501239552 - 0.000502039552) / 5)
      * (25.02800809 - 25.014 * (25.014 / 25)) = (0.0004998 * 0.0004998 : ℝ) := by
    norm_num
  simp only [innerShadowDepth, hlen, hdot, hIo, h25, exampleJovianSunPhot, exampleJupiterPhot]
  rw [harg, hs]
  norm_num

theorem exampleIo_behind :
    exampleIoPos.dot exampleJupiterPos > exampleJupiterPos.lengthSquared := by
  simp [exampleIoPos, exampleJupiterPos, Vec3d.dot, Vec3d.lengthSquared]
  norm_num

/-- C25, counterexample: Io with its centre on the border of the inner shadow of Jupiter
(`d = 0`, so `d >= equatorialRadius` fails and the moon is only partly eclipsed), seen from
Earth with the `ExplanatorySupplement_2013` algorithm: `getVMagnitude` returns the sentinel
`21.0`, not the phase polynomial. -/
theorem getVMagnitude_partial_eclipse_counterexample :
    innerShadowDepth exampleJovianSunPhot.equatorialRadius
        exampleJupiterPhot.equatorialRadius exampleIoPos exampleJupiterPos = 0
      ∧ ¬ (innerShadowDepth exampleJovianSunPhot.equatorialRadius
        exampleJupiterPhot.equatorialRadius exampleIoPos exampleJupiterPos
          ≥ exampleIoPhot.equatorialRadius)
      ∧ exampleEarthContext.locationPlanetName = "Earth"
      ∧ exampleEarthContext.algorithm = ApparentMagnitudeAlgorithm.ExplanatorySupplement_2013
      ∧ getVMagnitude exampleEarthContext exampleJovianSystem exampleIoPhot exampleIoPos
          exampleJupiterPos = some 21 := by
  have hrad : 0 < exampleIoPhot.equatorialRadius := by
    norm_num [exampleIoPhot]
  refine ⟨exampleIo_innerShadowDepth, ?_, rfl, rfl, ?_⟩
  · rw [exampleIo_innerShadowDepth]
    exact not_le.mpr hrad
  · obtain ⟨s, hs, hlt⟩ := (shadowFactorOf_behind exampleJovianSystem exampleIoPhot
      exampleJupiterPhot exampleJovianSunPhot 0 exampleIoPos exampleJupiterPos rfl rfl
      exampleIo_behind (by decide) hrad).2 (by
        rw [exampleIo_innerShadowDepth]
        linarith)
    rw [getVMagnitude_galilean exampleEarthContext exampleJovianSystem exampleIoPhot
      exampleJupiterPhot 1 exampleIoPos exampleJupiterPos s rfl rfl rfl (Or.inl rfl)
      (by decide) hs, if_pos hlt]

/-- Witness for C25 (amended): Io in the Jovian example, seen from Earth. -/
theorem getVMagnitude_galilean_sentinel_witness :
    0 < exampleIoPhot.equatorialRadius
      ∧ exampleIoPhot.englishName ∈ ["Io", "Europa", "Ganymede", "Callisto"]
      ∧ ((∃ gp sun, exampleJupiterPhot.parent = some gp
            ∧ derefPhot exampleJovianSystem gp = some sun
            ∧ exampleIoPos.dot exampleJupiterPos > exampleJupiterPos.lengthSquared
            ∧ -exampleIoPhot.equatorialRadius
              < innerShadowDepth sun.equatorialRadius exampleJupiterPhot.equatorialRadius
                  exampleIoPos exampleJupiterPos) →
          getVMagnitude exampleEarthContext exampleJovianSystem exampleIoPhot exampleIoPos
            exampleJupiterPos = some 21)
      ∧ (¬ (∃ gp sun, exampleJupiterPhot.parent = some gp
            ∧ derefPhot exampleJovianSystem gp = some sun
            ∧ exampleIoPos.dot exampleJupiterPos > exampleJupiterPos.lengthSquared
            ∧ -exampleIoPhot.equatorialRadius
              < innerShadowDepth sun.equatorialRadius exampleJupiterPhot.equatorialRadius
                  exampleIoPos exampleJupiterPos) →
          getVMagnitude exampleEarthContext exampleJovianSystem exampleIoPhot exampleIoPos
              exampleJupiterPos
            = (log10 (distanceProduct exampleIoPos exampleEarthContext.observerHelioPos)).map
                (fun l => galileanPolynomial exampleIoPhot.englishName (5 * l)
                  (getPhaseAngle exampleIoPos exampleEarthContext.observerHelioPos
                    * M_180_PI))) :=
  ⟨by norm_num [exampleIoPhot], by decide,
    getVMagnitude_galilean_sentinel exampleEarthContext exampleJovianSystem exampleIoPhot
      exampleJupiterPhot 1 exampleIoPos exampleJupiterPos rfl rfl rfl (Or.inl rfl)
      (by decide) (by norm_num [exampleIoPhot])
      (fun gp h => ⟨exampleJovianSunPhot, by
        have h0 : gp = 0 := by
          have h2 : exampleJupiterPhot.parent = some 0 := rfl
          rw [h2] at h
          exact (Option.some.inj h).symm
        rw [h0]
        rfl⟩)⟩

/-! ## `computeTransMatrix` -/

theorem poleOfDate_without_drift (ctx : TransMatrixContext) (bodies : List (PlanetRot ℝ))
    (body : PlanetRot ℝ) (parent : Nat) (JDE : ℝ)
    (hra : body.re.ra1 = 0) (hde : body.re.de1 = 0) :
    poleOfDate ctx bodies body parent JDE = some ⟨body.re.ra0, body.re.de0, false⟩ := by
  have hc : ¬ (body.re.ra1 ≠ 0.0 ∨ body.re.de1 ≠ 0.0) := by
    rw [hra, hde]
    norm_num
  unfold poleOfDate
  simp only [if_neg hc]

theorem getSiderealTime_Traditional_isSome (ctx : SiderealTimeContext)
    (bodies : List (PlanetRot ℝ)) (this : PlanetRot ℝ) (JD JDE : ℝ)
    (hmethod : this.re.method = ComputationMethod.Traditional) :
    ∃ st, getSiderealTime ctx bodies this JD JDE = some st := by
  unfold getSiderealTime
  by_cases hE : this.englishName = "Earth"
  · rw [if_pos hE]
    split_ifs <;> exact ⟨_, rfl⟩
  · by_cases hJ : this.englishName = "Jupiter"
    · simp [hE, hmethod, hJ]
    · simp [hE, hmethod, hJ]

theorem computeTransMatrix_no_retransform (ctx : TransMatrixContext)
    (bodies : List (PlanetRot ℝ)) (fuel this p : Nat) (body : PlanetRot ℝ) (JD JDE st : ℝ)
    (pole : PoleOfDate)
    (hthis : derefRot bodies this = some body) (hparent : body.parent = some p)
    (hsun : body.englishName ≠ "Sun") (hearth : body.englishName ≠ "Earth")
    (hst : getSiderealTime ctx.sidereal bodies body JD JDE = some st)
    (hpole : poleOfDate ctx bodies body p JDE = some pole)
    (hr : pole.retransform = false) :
    computeTransMatrix ctx bodies fuel this JD JDE
      = some (bodies.set this { body with
          axisRotation := st
          rotLocalToParent :=
            Mat4d.zrotation body.re.ascendingNode * Mat4d.xrotation body.re.obliquity }) := by
  obtain ⟨name, pType, parent, re, rot, ax⟩ := body
  simp only at hparent hsun hearth
  subst hparent
  have hpole2 : poleOfDate ctx bodies ⟨name, pType, some p, re, rot, st⟩ p JDE = some pole :=
    hpole
  unfold computeTransMatrix
  simp only [hthis, hst, if_neg hsun, if_neg hearth, hpole2, hr]
  cases hm : re.method with
  | Traditional => simp [hm]
  | WGCCRE =>
    simp only [setRotEquatorialToVsop87]
    rw [derefRot_set_self bodies this _ _ hthis]
    simp [hm, List.set_set]

theorem computeTransMatrix_retransform (ctx : TransMatrixContext)
    (bodies : List (PlanetRot ℝ)) (fuel this p : Nat) (body : PlanetRot ℝ) (JD JDE st : ℝ)
    (pole : PoleOfDate)
    (hthis : derefRot bodies this = some body) (hparent : body.parent = some p)
    (hsun : body.englishName ≠ "Sun") (hearth : body.englishName ≠ "Earth")
    (hst : getSiderealTime ctx.sidereal bodies body JD JDE = some st)
    (hpole : poleOfDate ctx bodies body p JDE = some pole)
    (hr : pole.retransform = true) :
    computeTransMatrix ctx bodies fuel this JD JDE
      = some (bodies.set this { body with
          axisRotation := st
          re := { body.re with
            currentAxisRA := pole.J2000NPoleRA
            currentAxisDE := pole.J2000NPoleDE
            obliquity := M_PI_2 - (rectToSphe (ctx.matJ2000ToVsop87.multiplyWithoutTranslation
              (spheToRect pole.J2000NPoleRA pole.J2000NPoleDE))).2
            ascendingNode := (rectToSphe (ctx.matJ2000ToVsop87.multiplyWithoutTranslation
              (spheToRect pole.J2000NPoleRA pole.J2000NPoleDE))).1 + M_PI_2 }
          rotLocalToParent :=
            Mat4d.zrotation ((rectToSphe (ctx.matJ2000ToVsop87.multiplyWithoutTranslation
                (spheToRect pole.J2000NPoleRA pole.J2000NPoleDE))).1 + M_PI_2)
              * Mat4d.xrotation (M_PI_2
                - (rectToSphe (ctx.matJ2000ToVsop87.multiplyWithoutTranslation
                    (spheToRect pole.J2000NPoleRA pole.J2000NPoleDE))).2) }) := by
  obtain ⟨name, pType, parent, re, rot, ax⟩ := body
  simp only at hparent hsun hearth
  subst hparent
  have hpole2 : poleOfDate ctx bodies ⟨name, pType, some p, re, rot, st⟩ p JDE = some pole :=
    hpole
  unfold computeTransMatrix
  simp only [hthis, hst, if_neg hsun, if_neg hearth, hpole2, hr]
  cases hm : re.method with
  | Traditional => simp [hm]
  | WGCCRE =>
    simp only [setRotEquatorialToVsop87]
    rw [derefRot_set_self bodies this _ _ hthis]
    simp [hm, List.set_set]

theorem zrotation_xrotation_z_axis (lon lat : ℝ) :
    Mat4d.multiplyWithoutTranslation
        (Mat4d.zrotation (lon + M_PI_2) * Mat4d.xrotation (M_PI_2 - lat)) ⟨0, 0, 1⟩
      = ⟨Real.cos lat * Real.cos lon, Real.cos lat * Real.sin lon, Real.sin lat⟩ := by
  have hs : Real.sin (lon + Real.pi / 2) = Real.cos lon := Real.sin_add_pi_div_two lon
  have hc : Real.cos (lon + Real.pi / 2) = -Real.sin lon := Real.cos_add_pi_div_two lon
  have hs2 : Real.sin (Real.pi / 2 - lat) = Real.cos lat := Real.sin_pi_div_two_sub lat
  have hc2 : Real.cos (Real.pi / 2 - lat) = Real.sin lat := Real.cos_pi_div_two_sub lat
  simp only [Mat4d.multiplyWithoutTranslation, Mat4d.zrotation, Mat4d.xrotation, M_PI_2,
    Matrix.mul_apply, Fin.sum_univ_four, hs, hc, hs2, hc2]
  simp
  refine ⟨?_, ?_⟩ <;> ring

theorem spheToRect_rectToSphe (v : Vec3d ℝ) (hv : 0 < v.lengthSquared) :
    spheToRect (rectToSphe v).1 (rectToSphe v).2 = v.normalize := by
  obtain ⟨x, y, z⟩ := v
  simp only [Vec3d.lengthSquared] at hv
  have hr : 0 < Real.sqrt (x * x + y * y + z * z) := Real.sqrt_pos.mpr hv
  have hxy : 0 ≤ x * x + y * y := add_nonneg (mul_self_nonneg x) (mul_self_nonneg y)
  have habs : Complex.abs ⟨x, y⟩ = Real.sqrt (x * x + y * y) := by
    rw [Complex.abs_apply, Complex.normSq_mk]
  have hz : |z| ≤ Real.sqrt (x * x + y * y + z * z) :=
    Real.abs_le_sqrt (by nlinarith [mul_self_nonneg x, mul_self_nonneg y])
  have hu1 : -1 ≤ z / Real.sqrt (x * x + y * y + z * z) := by
    rw [le_div_iff₀ hr]
    linarith [(abs_le.mp hz).1]
  have hu2 : z / Real.sqrt (x * x + y * y + z * z) ≤ 1 := by
    rw [div_le_iff₀ hr]
    linarith [(abs_le.mp hz).2]
  have hcos : Real.cos (Real.arcsin (z / Real.sqrt (x * x + y * y + z * z)))
      = Real.sqrt (x * x + y * y) / Real.sqrt (x * x + y * y + z * z) := by
    rw [Real.cos_arcsin, ← Real.sqrt_div hxy]
    congr 1
    rw [div_pow, Real.sq_sqrt hv.le]
    field_simp
    ring
  have hsin : Real.sin (Real.arcsin (z / Real.sqrt (x * x + y * y + z * z)))
      = z / Real.sqrt (x * x + y * y + z * z) := Real.sin_arcsin hu1 hu2
  simp only [spheToRect, rectToSphe, atan2, Vec3d.length, Vec3d.lengthSquared,
    Vec3d.normalize, Vec3d.scale, hcos, hsin, Complex.sin_arg, habs]
  by_cases h0 : x * x + y * y = 0
  · have hx : x = 0 := by nlinarith [mul_self_nonneg x, mul_self_nonneg y]
    have hy : y = 0 := by nlinarith [mul_self_nonneg x, mul_self_nonneg y]
    subst hx
    subst hy
    simp [div_eq_mul_inv]
  · have hne : (⟨x, y⟩ : ℂ) ≠ 0 := by
      intro h
      apply h0
      have h1 := congrArg Complex.re h
      have h2 := congrArg Complex.im h
      simp only [Complex.zero_re, Complex.zero_im] at h1 h2
      rw [h1, h2]
      ring
    have hs : 0 < Real.sqrt (x * x + y * y) :=
      Real.sqrt_pos.mpr (lt_of_le_of_ne hxy (Ne.symm h0))
    rw [Complex.cos_arg hne, habs]
    simp only [Vec3d.mk.injEq]
    refine ⟨?_, ?_, ?_⟩ <;> field_simp

/-- C22 fails on the code: for Neptune with the pole `ra0 = 299.36°`, `de0 = 43.46°` and no
linear drift (`ra1 = de1 = 0`), the block of periodic corrections is skipped as a whole:
the pole of date is the base pole, not retransformed, although the corrected declination
`de0 + de1*T - 0.51°*cos(Na)` differs from it, and `computeTransMatrix` leaves `re` as it
was (no pole recorded, static obliquity and ascending node) and builds the matrix from the
static elements. -/
theorem computeTransMatrix_neptune_uncorrected (JD JDE : ℝ) :
    exampleNeptunePoleRot.englishName = "Neptune"
      ∧ exampleNeptunePoleRot.parent = some 0
      ∧ exampleNeptunePoleRot.re.ra1 = 0 ∧ exampleNeptunePoleRot.re.de1 = 0
      ∧ poleOfDate exampleTransMatrixContext exampleNeptunePoleSystem exampleNeptunePoleRot 0
          JDE
        = some ⟨exampleNeptunePoleRot.re.ra0, exampleNeptunePoleRot.re.de0, false⟩
      ∧ exampleNeptunePoleRot.re.de0
          + exampleNeptunePoleRot.re.de1 * ((JDE - J2000) / 36525)
          - 0.51 * M_PI_180
            * Real.cos exampleTransMatrixContext.sidereal.planetCorrections.Na
        ≠ exampleNeptunePoleRot.re.de0
      ∧ ∃ st, computeTransMatrix exampleTransMatrixContext exampleNeptunePoleSystem 2 1 JD JDE
          = some (exampleNeptunePoleSystem.set 1 { exampleNeptunePoleRot with
              axisRotation := st
              rotLocalToParent :=
                Mat4d.zrotation exampleNeptunePoleRot.re.ascendingNode
                  * Mat4d.xrotation exampleNeptunePoleRot.re.obliquity }) := by
  have hpole := poleOfDate_without_drift exampleTransMatrixContext exampleNeptunePoleSystem
    exampleNeptunePoleRot 0 JDE rfl rfl
  have hm : exampleNeptunePoleRot.re.method = ComputationMethod.WGCCRE :=
    rotationMethodOf_of_ne_zero _ (by norm_num)
  have hn : exampleNeptunePoleRot.englishName = "Neptune" := rfl
  have hst : ∃ st, getSiderealTime exampleTransMatrixContext.sidereal
      exampleNeptunePoleSystem exampleNeptunePoleRot JD JDE = some st := by
    unfold getSiderealTime
    simp [hm, hn]
  obtain ⟨st, hst⟩ := hst
  refine ⟨rfl, rfl, rfl, rfl, hpole, ?_, st, ?_⟩
  · have hNa : exampleTransMatrixContext.sidereal.planetCorrections.Na = 0 := rfl
    have hde1 : exampleNeptunePoleRot.re.de1 = 0 := rfl
    rw [hNa, hde1, Real.cos_zero]
    have hpos : 0 < M_PI_180 := div_pos Real.pi_pos (by norm_num)
    intro h
    linarith
  · exact computeTransMatrix_no_retransform exampleTransMatrixContext
      exampleNeptunePoleSystem 2 1 0 exampleNeptunePoleRot JD JDE st _ rfl rfl (by decide)
      (by decide) hst hpole rfl

theorem rectToSphe_example_pole :
    rectToSphe (Mat4d.multiplyWithoutTranslation (1 : Mat4d ℝ) (spheToRect 0 0)) = (0, 0) := by
  have h1 : (⟨1, 0⟩ : ℂ) = 1 := rfl
  simp [rectToSphe, spheToRect, Mat4d.multiplyWithoutTranslation, atan2, Vec3d.length,
    Vec3d.lengthSquared, h1]

theorem rectToSphe_ne_static (v : Vec3d ℝ) :
    M_PI_2 - (rectToSphe v).2 ≠ 0 ∨ (rectToSphe v).1 + M_PI_2 ≠ 0 := by
  by_contra hcon
  rw [not_or, not_not, not_not] at hcon
  obtain ⟨hlat, hlon⟩ := hcon
  obtain ⟨x, y, z⟩ := v
  simp only [rectToSphe, atan2, M_PI_2, Vec3d.length, Vec3d.lengthSquared] at hlat hlon
  have hlat2 : Real.arcsin (z / Real.sqrt (x * x + y * y + z * z)) = Real.pi / 2 := by
    linarith
  have hlon2 : Complex.arg ⟨x, y⟩ = -(Real.pi / 2) := by linarith
  rw [Real.arcsin_eq_pi_div_two] at hlat2
  rw [Complex.arg_eq_neg_pi_div_two_iff] at hlon2
  obtain ⟨hx, hy⟩ := hlon2
  simp only at hx hy
  have hyy : 0 < y * y := mul_pos_of_neg_of_neg hy hy
  have hpos : 0 < x * x + y * y + z * z := by nlinarith [mul_self_nonneg x, mul_self_nonneg z]
  have hr : 0 < Real.sqrt (x * x + y * y + z * z) := Real.sqrt_pos.mpr hpos
  rw [le_div_iff₀ hr, one_mul] at hlat2
  have hz : 0 < z := lt_of_lt_of_le hr hlat2
  have hsq : Real.sqrt (x * x + y * y + z * z) * Real.sqrt (x * x + y * y + z * z)
      = x * x + y * y + z * z := Real.mul_self_sqrt hpos.le
  nlinarith [mul_self_nonneg x]

theorem exampleDrifting_poleOfDate (m : Mat4d ℝ) :
    poleOfDate { exampleTransMatrixContext with matJ2000ToVsop87 := m } exampleDriftingSystem
        exampleDriftingRot 1 J2000
      = some ⟨0, 0, true⟩ := by
  have hc : exampleDriftingRot.re.ra1 ≠ 0.0 ∨ exampleDriftingRot.re.de1 ≠ 0.0 := by
    left
    show (0.01 : ℝ) ≠ 0.0
    norm_num
  have hn : exampleDriftingRot.englishName = "Hyperion" := rfl
  have hp : derefRot exampleDriftingSystem 1 = some exampleSaturnRot := rfl
  have hpn : exampleSaturnRot.englishName = "Saturn" := rfl
  have hra0 : exampleDriftingRot.re.ra0 = 0 := rfl
  have hde0 : exampleDriftingRot.re.de0 = 0 := rfl
  have hde1 : exampleDriftingRot.re.de1 = 0 := rfl
  unfold poleOfDate
  simp only [if_pos hc]
  simp [hn, hp, hpn, hra0, hde0, hde1]

/-- C23, counterexample: Hyperion in the Traditional model with a drifting pole
(`ra1 = 0.01`, static obliquity and ascending node 0), at `JDE = J2000`: `computeTransMatrix`
retransforms the pole.  With the identity for `matJ2000ToVsop87` it overwrites
`re.obliquity` and `re.ascendingNode` with `π/2` and builds `rotLocalToParent` from the new
values, not from the static ones; and whichever matrix `matJ2000ToVsop87` is, `re.obliquity`
or `re.ascendingNode` is changed. -/
theorem computeTransMatrix_Traditional_drift_counterexample :
    exampleDriftingRot.re.method = ComputationMethod.Traditional
      ∧ exampleDriftingRot.parent = some 1
      ∧ exampleDriftingRot.englishName = "Hyperion"
      ∧ exampleDriftingRot.re.obliquity = 0 ∧ exampleDriftingRot.re.ascendingNode = 0
      ∧ (∃ b, (computeTransMatrix exampleTransMatrixContext exampleDriftingSystem 3 2 J2000
            J2000).bind (fun l => derefRot l 2) = some b
          ∧ b.re.obliquity = M_PI_2 ∧ b.re.ascendingNode = M_PI_2
          ∧ b.re.obliquity ≠ exampleDriftingRot.re.obliquity
          ∧ b.re.ascendingNode ≠ exampleDriftingRot.re.ascendingNode
          ∧ b.rotLocalToParent = Mat4d.zrotation M_PI_2 * Mat4d.xrotation M_PI_2
          ∧ b.rotLocalToParent
            ≠ Mat4d.zrotation exampleDriftingRot.re.ascendingNode
              * Mat4d.xrotation exampleDriftingRot.re.obliquity)
      ∧ ∀ m : Mat4d ℝ, ∃ b,
          (computeTransMatrix { exampleTransMatrixContext with matJ2000ToVsop87 := m }
            exampleDriftingSystem 3 2 J2000 J2000).bind (fun l => derefRot l 2) = some b
          ∧ (b.re.obliquity ≠ exampleDriftingRot.re.obliquity
            ∨ b.re.ascendingNode ≠ exampleDriftingRot.re.ascendingNode) := by
  have hm : exampleDriftingRot.re.method = ComputationMethod.Traditional :=
    rotationMethodOf_zero
  obtain ⟨st, hst⟩ := getSiderealTime_Traditional_isSome exampleTransMatrixContext.sidereal
    exampleDriftingSystem exampleDriftingRot J2000 J2000 hm
  have hgen : ∀ m : Mat4d ℝ, _ := fun m =>
    computeTransMatrix_retransform { exampleTransMatrixContext with matJ2000ToVsop87 := m }
      exampleDriftingSystem 3 2 1 exampleDriftingRot J2000 J2000 st _ rfl rfl (by decide)
      (by decide) hst (exampleDrifting_poleOfDate m) rfl
  have hrun := hgen 1
  have hpi : 0 < M_PI_2 := div_pos Real.pi_pos (by norm_num)
  simp only [rectToSphe_example_pole, sub_zero, zero_add] at hrun
  refine ⟨hm, rfl, rfl, rfl, rfl, ?_, ?_⟩
  · have hctx : ({ exampleTransMatrixContext with matJ2000ToVsop87 := 1 } : TransMatrixContext)
        = exampleTransMatrixContext := rfl
    rw [hctx] at hrun
    rw [hrun]
    refine ⟨_, derefRot_set_self exampleDriftingSystem 2 exampleDriftingRot _ rfl, rfl, rfl,
      ?_, ?_, rfl, ?_⟩
    · show M_PI_2 ≠ 0
      exact hpi.ne.symm
    · show M_PI_2 ≠ 0
      exact hpi.ne.symm
    · show Mat4d.zrotation M_PI_2 * Mat4d.xrotation M_PI_2
        ≠ Mat4d.zrotation 0 * Mat4d.xrotation 0
      intro h
      have h00 := congrFun (congrFun h 0) 0
      simp [Mat4d.zrotation, Mat4d.xrotation, Matrix.mul_apply, Fin.sum_univ_four, M_PI_2]
        at h00
  · intro m
    rw [hgen m]
    exact ⟨_, derefRot_set_self exampleDriftingSystem 2 exampleDriftingRot _ rfl,
      rectToSphe_ne_static _⟩

/-- C23, amended: for every general body (it has a parent and is not named Sun or Earth) in
Traditional mode whose pole drift rates are both zero (`ra1 = de1 = 0`),
`computeTransMatrix(JD, JDE)` returns, performs no retransform, leaves `re` (so `re.obliquity`
and `re.ascendingNode`) unchanged, and sets `rotLocalToParent = Rz(ascendingNode) *
Rx(obliquity)` from the statically configured values. -/
theorem computeTransMatrix_Traditional_static (ctx : TransMatrixContext)
    (bodies : List (PlanetRot ℝ)) (fuel this p : Nat) (body : PlanetRot ℝ) (JD JDE : ℝ)
    (hthis : derefRot bodies this = some body) (hparent : body.parent = some p)
    (hsun : body.englishName ≠ "Sun") (hearth : body.englishName ≠ "Earth")
    (hmethod : body.re.method = ComputationMethod.Traditional)
    (hra : body.re.ra1 = 0) (hde : body.re.de1 = 0) :
    (∃ pole, poleOfDate ctx bodies body p JDE = some pole ∧ pole.retransform = false)
      ∧ ∃ st, getSiderealTime ctx.sidereal bodies body JD JDE = some st
        ∧ computeTransMatrix ctx bodies fuel this JD JDE
          = some (bodies.set this { body with
              axisRotation := st
              rotLocalToParent :=
                Mat4d.zrotation body.re.ascendingNode * Mat4d.xrotation body.re.obliquity })
        ∧ (computeTransMatrix ctx bodies fuel this JD JDE).bind (fun l =>
            (derefRot l this).map (fun b => b.re)) = some body.re := by
  have hpole := poleOfDate_without_drift ctx bodies body p JDE hra hde
  obtain ⟨st, hst⟩ := getSiderealTime_Traditional_isSome ctx.sidereal bodies body JD JDE
    hmethod
  have hrun := computeTransMatrix_no_retransform ctx bodies fuel this p body JD JDE st _ hthis
    hparent hsun hearth hst hpole rfl
  refine ⟨⟨_, hpole, rfl⟩, st, hst, hrun, ?_⟩
  rw [hrun]
  show (derefRot (bodies.set this _) this).map (fun b => b.re) = some body.re
  rw [derefRot_set_self bodies this body _ hthis]
  rfl

/-- Witness for C23 (amended): Hyperion of the rotation examples, Traditional with
`ra1 = de1 = 0`. -/
theorem computeTransMatrix_Traditional_static_witness :
    exampleHyperionRot.re.method = ComputationMethod.Traditional
      ∧ exampleHyperionRot.re.ra1 = 0 ∧ exampleHyperionRot.re.de1 = 0
      ∧ (computeTransMatrix exampleTransMatrixContext exampleRotSystem 3 2 2451545
          2451545).bind (fun l => (derefRot l 2).map (fun b => b.re))
        = some exampleHyperionRot.re :=
  ⟨rotationMethodOf_zero, rfl, rfl,
    (computeTransMatrix_Traditional_static exampleTransMatrixContext exampleRotSystem 3 2 1
      exampleHyperionRot 2451545 2451545 rfl rfl (by decide) (by decide) rotationMethodOf_zero
      rfl rfl).2.choose_spec.2.2⟩

/-- C28: the rotation `Rz(lon + π/2) * Rx(π/2 - lat)` maps the local z axis `(0,0,1)` onto
`(cos lat * cos lon, cos lat * sin lon, sin lat)`, for every `lon` and `lat`.  When
`computeTransMatrix` retransforms the pole of a general body, the matrix it stores is
`Rz(re.ascendingNode) * Rx(re.obliquity)` of the elements it stores, it maps `(0,0,1)` onto
the unit vector of the longitude and latitude `(lon, lat)` of the pole in the ecliptic
frame, and that vector is the normalized pole itself (when the pole vector is not null). -/
theorem computeTransMatrix_retransform_reproduces_pole (ctx : TransMatrixContext)
    (bodies : List (PlanetRot ℝ)) (fuel this p : Nat) (body : PlanetRot ℝ) (JD JDE st : ℝ)
    (pole : PoleOfDate)
    (hthis : derefRot bodies this = some body) (hparent : body.parent = some p)
    (hsun : body.englishName ≠ "Sun") (hearth : body.englishName ≠ "Earth")
    (hst : getSiderealTime ctx.sidereal bodies body JD JDE = some st)
    (hpole : poleOfDate ctx bodies body p JDE = some pole)
    (hr : pole.retransform = true) :
    (∀ lon lat : ℝ,
        Mat4d.multiplyWithoutTranslation
            (Mat4d.zrotation (lon + M_PI_2) * Mat4d.xrotation (M_PI_2 - lat)) ⟨0, 0, 1⟩
          = ⟨Real.cos lat * Real.cos lon, Real.cos lat * Real.sin lon, Real.sin lat⟩)
      ∧ ∃ b, computeTransMatrix ctx bodies fuel this JD JDE = some (bodies.set this b)
        ∧ b.rotLocalToParent
          = Mat4d.zrotation b.re.ascendingNode * Mat4d.xrotation b.re.obliquity
        ∧ b.re.ascendingNode
          = (rectToSphe (ctx.matJ2000ToVsop87.multiplyWithoutTranslation
              (spheToRect pole.J2000NPoleRA pole.J2000NPoleDE))).1 + M_PI_2
        ∧ b.re.obliquity
          = M_PI_2 - (rectToSphe (ctx.matJ2000ToVsop87.multiplyWithoutTranslation
              (spheToRect pole.J2000NPoleRA pole.J2000NPoleDE))).2
        ∧ Mat4d.multiplyWithoutTranslation b.rotLocalToParent ⟨0, 0, 1⟩
          = spheToRect
              (rectToSphe (ctx.matJ2000ToVsop87.multiplyWithoutTranslation
                (spheToRect pole.J2000NPoleRA pole.J2000NPoleDE))).1
              (rectToSphe (ctx.matJ2000ToVsop87.multiplyWithoutTranslation
                (spheToRect pole.J2000NPoleRA pole.J2000NPoleDE))).2
        ∧ (0 < (ctx.matJ2000ToVsop87.multiplyWithoutTranslation
              (spheToRect pole.J2000NPoleRA pole.J2000NPoleDE)).lengthSquared →
            Mat4d.multiplyWithoutTranslation b.rotLocalToParent ⟨0, 0, 1⟩
              = (ctx.matJ2000ToVsop87.multiplyWithoutTranslation
                  (spheToRect pole.J2000NPoleRA pole.J2000NPoleDE)).normalize) := by
  have hrun := computeTransMatrix_retransform ctx bodies fuel this p body JD JDE st pole hthis
    hparent hsun hearth hst hpole hr
  have hz : Mat4d.multiplyWithoutTranslation
      (Mat4d.zrotation ((rectToSphe (ctx.matJ2000ToVsop87.multiplyWithoutTranslation
          (spheToRect pole.J2000NPoleRA pole.J2000NPoleDE))).1 + M_PI_2)
        * Mat4d.xrotation (M_PI_2
          - (rectToSphe (ctx.matJ2000ToVsop87.multiplyWithoutTranslation
              (spheToRect pole.J2000NPoleRA pole.J2000NPoleDE))).2)) ⟨0, 0, 1⟩
      = spheToRect
          (rectToSphe (ctx.matJ2000ToVsop87.multiplyWithoutTranslation
            (spheToRect pole.J2000NPoleRA pole.J2000NPoleDE))).1
          (rectToSphe (ctx.matJ2000ToVsop87.multiplyWithoutTranslation
            (spheToRect pole.J2000NPoleRA pole.J2000NPoleDE))).2 := by
    rw [zrotation_xrotation_z_axis]
    simp only [spheToRect, Vec3d.mk.injEq, and_true]
    exact ⟨mul_comm _ _, mul_comm _ _⟩
  refine ⟨zrotation_xrotation_z_axis, _, hrun, rfl, rfl, rfl, hz, ?_⟩
  intro hv
  exact hz.trans (spheToRect_rectToSphe _ hv)

/-- Witness for C28: Hyperion with the drifting pole at `JDE = J2000`; the pole is
`(1, 0, 0)` and the stored matrix maps `(0,0,1)` onto it. -/
theorem computeTransMatrix_retransform_reproduces_pole_witness :
    derefRot exampleDriftingSystem 2 = some exampleDriftingRot
      ∧ poleOfDate exampleTransMatrixContext exampleDriftingSystem exampleDriftingRot 1 J2000
        = some ⟨0, 0, true⟩
      ∧ ∃ b, computeTransMatrix exampleTransMatrixContext exampleDriftingSystem 3 2 J2000 J2000
          = some (exampleDriftingSystem.set 2 b)
        ∧ b.rotLocalToParent
          = Mat4d.zrotation b.re.ascendingNode * Mat4d.xrotation b.re.obliquity
        ∧ Mat4d.multiplyWithoutTranslation b.rotLocalToParent ⟨0, 0, 1⟩
          = spheToRect 0 0 := by
  have hm : exampleDriftingRot.re.method = ComputationMethod.Traditional :=
    rotationMethodOf_zero
  obtain ⟨st, hst⟩ := getSiderealTime_Traditional_isSome exampleTransMatrixContext.sidereal
    exampleDriftingSystem exampleDriftingRot J2000 J2000 hm
  obtain ⟨b, h1, h2, _, _, h5, _⟩ :=
    (computeTransMatrix_retransform_reproduces_pole exampleTransMatrixContext
      exampleDriftingSystem 3 2 1 exampleDriftingRot J2000 J2000 st ⟨0, 0, true⟩ rfl rfl
      (by decide) (by decide) hst (exampleDrifting_poleOfDate 1) rfl).2
  have hmat : exampleTransMatrixContext.matJ2000ToVsop87 = 1 := rfl
  simp only [hmat, rectToSphe_example_pole] at h5
  exact ⟨rfl, exampleDrifting_poleOfDate 1, b, h1, h2, h5⟩

/-! ## `computeOrbit` -/

theorem getEclipticPos_returns {α : Type} [DecidableEq α] (fuzzyEquals : α → α → Bool)
    (coordFunc : α → Vec3d α × Vec3d α) (body : Planet α) (dateJDE : α)
    (hmx : 0 < body.positionsCache.mx) :
    (∃ pos, (getEclipticPos fuzzyEquals coordFunc body dateJDE).1 = some pos)
      ∧ (getEclipticPos fuzzyEquals coordFunc body dateJDE).2.1.frame = body.frame := by
  unfold getEclipticPos
  by_cases hf : fuzzyEquals dateJDE body.lastJDE = true
  · simp [hf]
  · simp only [hf]
    cases hfind : body.positionsCache.entries.find? (fun e => e.1 = dateJDE) with
    | some e => simp [QCache.object, hfind, Planet.frame]
    | none =>
      have hnot : ¬ 1 > body.positionsCache.mx := by omega
      simp [QCache.object, hfind, QCache.insert, hnot, Planet.frame]

theorem deref_of_map_frame {α : Type} (l1 l2 : List (Planet α))
    (h : l1.map Planet.frame = l2.map Planet.frame) (i : Nat) (b : Planet α)
    (hb : deref l1 i = some b) : ∃ b2, deref l2 i = some b2 ∧ b2.frame = b.frame := by
  unfold deref at hb ⊢
  have hi := congrArg (fun l => l[i]?) h
  simp only [List.getElem?_map, hb, Option.map_some'] at hi
  cases h2 : l2[i]? with
  | none => simp [h2] at hi
  | some b2 =>
    refine ⟨b2, rfl, ?_⟩
    simp only [h2, Option.map_some', Option.some.injEq] at hi
    exact hi.symm

theorem map_frame_set {α : Type} (l : List (Planet α)) (i : Nat) (b b2 : Planet α)
    (hb : deref l i = some b) (h : b2.frame = b.frame) :
    (l.set i b2).map Planet.frame = l.map Planet.frame := by
  unfold deref at hb
  rw [List.map_set, h]
  apply List.ext_getElem?
  intro j
  by_cases hj : i = j
  · subst hj
    rw [List.getElem?_set_self', List.getElem?_map, hb]
    simp
  · rw [List.getElem?_set_ne hj]

theorem isParentChain_of_map_frame {α : Type} (l1 l2 : List (Planet α))
    (h : l1.map Planet.frame = l2.map Planet.frame) :
    ∀ (chain : List Nat) (b : Nat), isParentChain l1 b chain = true →
      isParentChain l2 b chain = true := by
  intro chain
  induction chain with
  | nil =>
    intro b hc
    unfold isParentChain at hc ⊢
    cases hb : deref l1 b with
    | none => simp [hb] at hc
    | some body =>
      obtain ⟨b2, hb2, hf⟩ := deref_of_map_frame l1 l2 h b body hb
      have hp : b2.parent = body.parent := congrArg Prod.fst hf
      simp only [hb] at hc
      simp only [hb2, hp]
      exact hc
  | cons c rest ih =>
    intro b hc
    unfold isParentChain at hc ⊢
    cases hb : deref l1 b with
    | none => simp [hb] at hc
    | some body =>
      obtain ⟨b2, hb2, hf⟩ := deref_of_map_frame l1 l2 h b body hb
      have hp : b2.parent = body.parent := congrArg Prod.fst hf
      simp only [hb, Bool.and_eq_true] at hc
      simp only [hb2, hp, Bool.and_eq_true]
      exact ⟨hc.1, ih c hc.2⟩

theorem getHeliocentricEclipticPosLoop_returns {α : Type} [DecidableEq α] [Add α]
    (fuzzyEquals : α → α → Bool) (coordFunc : Nat → α → Vec3d α × Vec3d α) (dateJDE : α)
    (bodies0 : List (Planet α))
    (hmx : ∀ i b, deref bodies0 i = some b → 0 < b.positionsCache.mx) :
    ∀ (chain : List Nat) (fuel : Nat) (bodies : List (Planet α)) (pp : Nat) (pos : Vec3d α),
      bodies.map Planet.frame = bodies0.map Planet.frame →
      isParentChain bodies0 pp chain = true → chain.length < fuel →
      ∃ r, getHeliocentricEclipticPosLoop fuzzyEquals coordFunc dateJDE fuel bodies pp pos
          = some r
        ∧ r.2.map Planet.frame = bodies0.map Planet.frame := by
  intro chain
  induction chain with
  | nil =>
    intro fuel bodies pp pos hfr hc hfuel
    obtain ⟨f, rfl⟩ : ∃ f, fuel = f + 1 := ⟨fuel - 1, by simp at hfuel; omega⟩
    unfold isParentChain at hc
    cases hb0 : deref bodies0 pp with
    | none => simp [hb0] at hc
    | some body0 =>
      obtain ⟨body, hb, hf⟩ := deref_of_map_frame bodies0 bodies hfr.symm pp body0 hb0
      have hp : body.parent = body0.parent := congrArg Prod.fst hf
      simp only [hb0, Option.isNone_iff_eq_none] at hc
      unfold getHeliocentricEclipticPosLoop
      simp only [hb, hp, hc]
      exact ⟨_, rfl, hfr⟩
  | cons c rest ih =>
    intro fuel bodies pp pos hfr hc hfuel
    obtain ⟨f, rfl⟩ : ∃ f, fuel = f + 1 := ⟨fuel - 1, by simp at hfuel; omega⟩
    unfold isParentChain at hc
    cases hb0 : deref bodies0 pp with
    | none => simp [hb0] at hc
    | some body0 =>
      obtain ⟨body, hb, hf⟩ := deref_of_map_frame bodies0 bodies hfr.symm pp body0 hb0
      have hp : body.parent = body0.parent := congrArg Prod.fst hf
      have hm : body.positionsCache.mx = body0.positionsCache.mx :=
        congrArg (fun t => t.2.2) hf
      simp only [hb0, Bool.and_eq_true, beq_iff_eq] at hc
      obtain ⟨hpar, hrest⟩ := hc
      have hpos : 0 < body.positionsCache.mx := by
        rw [hm]
        exact hmx pp body0 hb0
      obtain ⟨⟨q, hq⟩, hfq⟩ := getEclipticPos_returns fuzzyEquals (coordFunc pp) body dateJDE
        hpos
      unfold getHeliocentricEclipticPosLoop
      simp only [hb, hp, hpar, hq]
      apply ih
      · rw [map_frame_set bodies pp body _ hb hfq]
        exact hfr
      · exact hrest
      · simp only [List.length_cons] at hfuel
        omega

theorem getHeliocentricEclipticPos_returns {α : Type} [DecidableEq α] [Add α]
    (fuzzyEquals : α → α → Bool) (coordFunc : Nat → α → Vec3d α × Vec3d α) (dateJDE : α)
    (bodies : List (Planet α)) (fuel p : Nat) (chain : List Nat)
    (hmx : ∀ i b, deref bodies i = some b → 0 < b.positionsCache.mx)
    (hchain : isParentChain bodies p chain = true) (hfuel : chain.length < fuel) :
    ∃ r, getHeliocentricEclipticPos fuzzyEquals coordFunc bodies fuel p dateJDE = some r
      ∧ r.2.map Planet.frame = bodies.map Planet.frame := by
  cases hb : deref bodies p with
  | none =>
    cases chain with
    | nil => simp [isParentChain, hb] at hchain
    | cons c rest => simp [isParentChain, hb] at hchain
  | some body =>
    obtain ⟨⟨q, hq⟩, hfq⟩ := getEclipticPos_returns fuzzyEquals (coordFunc p) body dateJDE
      (hmx p body hb)
    have hset := map_frame_set bodies p body _ hb hfq
    unfold getHeliocentricEclipticPos
    simp only [hb, hq]
    cases chain with
    | nil =>
      have hp : body.parent = none := by
        simpa [isParentChain, hb] using hchain
      simp only [hp]
      exact ⟨_, rfl, hset⟩
    | cons c rest =>
      have hc : body.parent = some c ∧ isParentChain bodies c rest = true := by
        simpa [isParentChain, hb] using hchain
      simp only [hc.1]
      exact getHeliocentricEclipticPosLoop_returns fuzzyEquals coordFunc dateJDE bodies hmx
        rest fuel _ c q hset hc.2 (by simp only [List.length_cons] at hfuel; omega)

theorem computeOrbitLoop_returns {α : Type} [LinearOrderedField α] [FloorRing α]
    (fuzzyEquals : α → α → Bool) (coordFunc : α → Vec3d α × Vec3d α) (ORBIT_SEGMENTS : Nat)
    (deltaOrbitJDE dateJDE : α) (parentPos : Vec3d α) :
    ∀ (ds : List Nat) (body : Planet α), 0 < body.positionsCache.mx →
      ∃ r, computeOrbitLoop fuzzyEquals coordFunc ORBIT_SEGMENTS deltaOrbitJDE dateJDE
          parentPos ds body = some r
        ∧ r.2.2.map Prod.fst = ds.map (orbitSampleDate ORBIT_SEGMENTS deltaOrbitJDE dateJDE)
        ∧ r.1 = r.2.2.map (fun s => s.2 + parentPos)
        ∧ r.2.1.frame = body.frame := by
  intro ds
  induction ds with
  | nil =>
    intro body _
    exact ⟨_, rfl, rfl, rfl, rfl⟩
  | cons d rest ih =>
    intro body hmx
    obtain ⟨⟨pos, hpos⟩, hfr⟩ := getEclipticPos_returns fuzzyEquals coordFunc body
      (orbitSampleDate ORBIT_SEGMENTS deltaOrbitJDE dateJDE d) hmx
    have hmx2 : 0 < (getEclipticPos fuzzyEquals coordFunc body
        (orbitSampleDate ORBIT_SEGMENTS deltaOrbitJDE dateJDE d)).2.1.positionsCache.mx := by
      have : (getEclipticPos fuzzyEquals coordFunc body
          (orbitSampleDate ORBIT_SEGMENTS deltaOrbitJDE dateJDE d)).2.1.positionsCache.mx
          = body.positionsCache.mx := congrArg (fun t => t.2.2) hfr
      rw [this]
      exact hmx
    obtain ⟨r, hr, h1, h2, h3⟩ := ih _ hmx2
    unfold computeOrbitLoop
    simp only [hpos, hr]
    refine ⟨_, rfl, ?_, ?_, ?_⟩
    · simp only [List.map_cons, h1]
    · simp only [List.map_cons, ← h2]
    · exact h3.trans hfr

theorem orbitSampleDate_centre {α : Type} [LinearOrderedField α] [FloorRing α]
    (ORBIT_SEGMENTS : Nat) (deltaOrbitJDE dateJDE : α) :
    orbitSampleDate ORBIT_SEGMENTS deltaOrbitJDE dateJDE (ORBIT_SEGMENTS / 2) = dateJDE := by
  unfold orbitSampleDate
  simp

theorem orbitSampleDate_snapped {α : Type} [LinearOrderedField α] [FloorRing α]
    (ORBIT_SEGMENTS : Nat) (deltaOrbitJDE dateJDE : α) (d : Nat)
    (hd : d ≠ ORBIT_SEGMENTS / 2) (hdelta : 0 < deltaOrbitJDE) :
    (∃ n : ℤ, orbitSampleDate ORBIT_SEGMENTS deltaOrbitJDE dateJDE d = (n : α) * deltaOrbitJDE)
      ∧ |orbitSampleDate ORBIT_SEGMENTS deltaOrbitJDE dateJDE d
          - (dateJDE + (((d : ℤ) - ((ORBIT_SEGMENTS / 2 : Nat) : ℤ) : ℤ) : α) * deltaOrbitJDE)|
        ≤ deltaOrbitJDE / 2 := by
  unfold orbitSampleDate
  simp only [if_pos hd, nearbyint]
  refine ⟨⟨_, rfl⟩, ?_⟩
  have h := remainder_abs_le
    (dateJDE + (((d : ℤ) - ((ORBIT_SEGMENTS / 2 : Nat) : ℤ) : ℤ) : α) * deltaOrbitJDE)
    deltaOrbitJDE hdelta
  unfold remainder at h
  rw [abs_sub_comm]
  exact h

theorem setRotationElements_deltaOrbitJDE {α : Type} [LinearOrderedField α]
    (ORBIT_SEGMENTS : Nat) (calculateSiderealPeriod : α → α)
    (orbitPtr : Option (KeplerOrbit α)) (pType : PlanetType) (closeOrbit : Bool)
    (_period _offset _epoch _obliquity _ascendingNode _ra0 _ra1 _de0 _de1 _w0 _w1
      _siderealPeriod : α) (hseg : 0 < ORBIT_SEGMENTS) :
    (ORBIT_SEGMENTS : α)
        * (setRotationElements ORBIT_SEGMENTS calculateSiderealPeriod orbitPtr pType closeOrbit
            _period _offset _epoch _obliquity _ascendingNode _ra0 _ra1 _de0 _de1 _w0 _w1
            _siderealPeriod).deltaOrbitJDE
      = (setRotationElements ORBIT_SEGMENTS calculateSiderealPeriod orbitPtr pType closeOrbit
          _period _offset _epoch _obliquity _ascendingNode _ra0 _ra1 _de0 _de1 _w0 _w1
          _siderealPeriod).re.siderealPeriod := by
  have hne : (ORBIT_SEGMENTS : α) ≠ 0 := Nat.cast_ne_zero.mpr (by omega)
  simp only [setRotationElements]
  rw [mul_div_cancel₀ _ hne]

/-- C27: for a body with a parent and `deltaOrbitJDE > 0` (parent chain well formed, enough
fuel, every position cache of positive capacity), `computeOrbit()` returns after calling
`getEclipticPos` at exactly `ORBIT_SEGMENTS` sample dates and storing `ORBIT_SEGMENTS`
points.  The centre sample, index `ORBIT_SEGMENTS/2`, is at exactly `lastJDE`; every other
sample `d` is at an integer multiple of `deltaOrbitJDE` within `deltaOrbitJDE/2` of
`lastJDE + (d - ORBIT_SEGMENTS/2)*deltaOrbitJDE`; each stored point is the position returned
for its sample plus the heliocentric position of the parent at `lastJDE`.  After
`setRotationElements`, `ORBIT_SEGMENTS * deltaOrbitJDE` is `re.siderealPeriod`. -/
theorem computeOrbit_samples {α : Type} [LinearOrderedField α] [FloorRing α]
    (fuzzyEquals : α → α → Bool) (coordFunc : Nat → α → Vec3d α × Vec3d α)
    (ORBIT_SEGMENTS : Nat) (uninitialised : Vec3d α) (bodies : List (Planet α))
    (fuel this p : Nat) (body : Planet α) (chain : List Nat) (deltaOrbitJDE : α)
    (hthis : deref bodies this = some body) (hparent : body.parent = some p)
    (hchain : isParentChain bodies p chain = true) (hfuel : chain.length < fuel)
    (hmx : ∀ i b, deref bodies i = some b → 0 < b.positionsCache.mx)
    (hdelta : 0 < deltaOrbitJDE) :
    (∃ parentResult r,
        getHeliocentricEclipticPos fuzzyEquals coordFunc bodies fuel p body.lastJDE
          = some parentResult
        ∧ computeOrbit fuzzyEquals coordFunc ORBIT_SEGMENTS uninitialised bodies fuel this
            deltaOrbitJDE = some r
        ∧ r.samples.length = ORBIT_SEGMENTS ∧ r.orbit.length = ORBIT_SEGMENTS
        ∧ r.samples.map Prod.fst
          = (List.range ORBIT_SEGMENTS).map
              (orbitSampleDate ORBIT_SEGMENTS deltaOrbitJDE body.lastJDE)
        ∧ r.orbit = r.samples.map (fun s => s.2 + parentResult.1))
      ∧ orbitSampleDate ORBIT_SEGMENTS deltaOrbitJDE body.lastJDE (ORBIT_SEGMENTS / 2)
        = body.lastJDE
      ∧ (∀ d : Nat, d ≠ ORBIT_SEGMENTS / 2 →
          (∃ n : ℤ, orbitSampleDate ORBIT_SEGMENTS deltaOrbitJDE body.lastJDE d
            = (n : α) * deltaOrbitJDE)
          ∧ |orbitSampleDate ORBIT_SEGMENTS deltaOrbitJDE body.lastJDE d
              - (body.lastJDE
                + (((d : ℤ) - ((ORBIT_SEGMENTS / 2 : Nat) : ℤ) : ℤ) : α) * deltaOrbitJDE)|
            ≤ deltaOrbitJDE / 2)
      ∧ (0 < ORBIT_SEGMENTS →
          ∀ (calculateSiderealPeriod : α → α) (orbitPtr : Option (KeplerOrbit α))
            (pType : PlanetType) (closeOrbit : Bool)
            (_period _offset _epoch _obliquity _ascendingNode _ra0 _ra1 _de0 _de1 _w0 _w1
              _siderealPeriod : α),
            (ORBIT_SEGMENTS : α)
                * (setRotationElements ORBIT_SEGMENTS calculateSiderealPeriod orbitPtr pType
                    closeOrbit _period _offset _epoch _obliquity _ascendingNode _ra0 _ra1
                    _de0 _de1 _w0 _w1 _siderealPeriod).deltaOrbitJDE
              = (setRotationElements ORBIT_SEGMENTS calculateSiderealPeriod orbitPtr pType
                  closeOrbit _period _offset _epoch _obliquity _ascendingNode _ra0 _ra1
                  _de0 _de1 _w0 _w1 _siderealPeriod).re.siderealPeriod) := by
  refine ⟨?_, orbitSampleDate_centre _ _ _,
    fun d hd => orbitSampleDate_snapped _ _ _ d hd hdelta, ?_⟩
  · obtain ⟨pr, hpr, hfr⟩ := getHeliocentricEclipticPos_returns fuzzyEquals coordFunc
      body.lastJDE bodies fuel p chain hmx hchain hfuel
    obtain ⟨body2, hb2, hf2⟩ := deref_of_map_frame bodies pr.2 hfr.symm this body hthis
    have hmx2 : 0 < body2.positionsCache.mx := by
      have hmxeq : body2.positionsCache.mx = body.positionsCache.mx :=
        congrArg (fun t => t.2.2) hf2
      rw [hmxeq]
      exact hmx this body hthis
    obtain ⟨r, hr, h1, h2, _⟩ := computeOrbitLoop_returns fuzzyEquals (coordFunc this)
      ORBIT_SEGMENTS deltaOrbitJDE body.lastJDE pr.1 (List.range ORBIT_SEGMENTS) body2 hmx2
    have hlen : r.2.2.length = ORBIT_SEGMENTS := by
      have := congrArg List.length h1
      simpa using this
    refine ⟨pr, ⟨r.1, pr.2.set this r.2.1, r.2.2⟩, hpr, ?_, hlen, ?_, h1, h2⟩
    · unfold computeOrbit
      simp only [hthis, hparent, hpr, hb2, hr]
    · show r.1.length = ORBIT_SEGMENTS
      rw [h2, List.length_map, hlen]
  · intro hseg calculateSiderealPeriod orbitPtr pType closeOrbit _period _offset _epoch
      _obliquity _ascendingNode _ra0 _ra1 _de0 _de1 _w0 _w1 _siderealPeriod
    exact setRotationElements_deltaOrbitJDE ORBIT_SEGMENTS calculateSiderealPeriod orbitPtr
      pType closeOrbit _period _offset _epoch _obliquity _ascendingNode _ra0 _ra1 _de0 _de1
      _w0 _w1 _siderealPeriod hseg

/-- Witness for C27: the moon of the orbit example, with `ORBIT_SEGMENTS = 4` and
`deltaOrbitJDE = 3/2`. -/
theorem computeOrbit_samples_witness :
    deref exampleOrbitSystem 2 = some (exampleOrbitBody ⟨1, 2, 3⟩ (some 1))
      ∧ isParentChain exampleOrbitSystem 1 [0] = true
      ∧ (0 : ℚ) < 3 / 2
      ∧ ∃ r, computeOrbit exampleOrbitFuzzyEquals exampleOrbitCoordFunc 4 ⟨0, 0, 0⟩
            exampleOrbitSystem 2 2 (3 / 2) = some r
          ∧ r.samples.length = 4 ∧ r.orbit.length = 4
          ∧ r.samples.map Prod.fst
            = (List.range 4).map
                (orbitSampleDate 4 (3 / 2) (exampleOrbitBody ⟨1, 2, 3⟩ (some 1)).lastJDE) := by
  have hmx : ∀ i b, deref exampleOrbitSystem i = some b → 0 < b.positionsCache.mx := by
    intro i b h
    have hmem : b ∈ exampleOrbitSystem := List.getElem?_mem h
    simp only [exampleOrbitSystem, List.mem_cons, List.mem_singleton, List.not_mem_nil,
      or_false] at hmem
    rcases hmem with h | h | h <;> rw [h] <;> decide
  obtain ⟨_, r, _, hr, h1, h2, h3, _⟩ :=
    (computeOrbit_samples exampleOrbitFuzzyEquals exampleOrbitCoordFunc 4 ⟨0, 0, 0⟩
      exampleOrbitSystem 2 2 1 (exampleOrbitBody ⟨1, 2, 3⟩ (some 1)) [0] (3 / 2) rfl rfl
      (by decide) (by decide) hmx (by norm_num)).1
  exact ⟨rfl, by decide, by norm_num, r, hr, h1, h2, h3⟩

end Stellarium
